import Mathlib

/-!
# QR attendance front end: a shallow embedding and its checked properties

The definitions below transcribe the decision logic of the React components
(`ProtectedRoute.jsx`, `App.jsx`, `Login.jsx`, `Register.jsx`,
`StudentDashboard.jsx`, `TeacherDashboard.jsx`).  Component state is passed
explicitly, asynchronous handlers are modelled by their final state together
with the list of effects they issued, and JavaScript numbers are modelled by
binary64 values with round-to-nearest-even arithmetic.
-/

namespace QrAttendance

/-! ## JavaScript values -/

/-- The primitive JavaScript values that occur in the JSON bodies and in the
component state.  Numbers are restricted to integers. -/
inductive JSVal where
  | undefined
  | null
  | bool (b : Bool)
  | num (n : Int)
  | str (s : String)
  deriving DecidableEq, Repr

/-- JavaScript truthiness (`ToBoolean`). -/
def JSVal.truthy : JSVal → Bool
  | .undefined => false
  | .null => false
  | .bool b => b
  | .num n => n != 0
  | .str s => s != ""

/-- The operator `a || b`. -/
def JSVal.or (a b : JSVal) : JSVal := if a.truthy then a else b

/-- Property read `obj.key` on an object given by its own properties; a missing
property reads as `undefined`. -/
def getProp (fields : List (String × JSVal)) (key : String) : JSVal :=
  match fields.find? (fun kv => kv.1 == key) with
  | some kv => kv.2
  | none => .undefined

/-! ## Auth context (consumed by the route guard and the login page) -/

/-- The user object kept by the auth context, as built in `Login.jsx`. -/
structure User where
  userId : JSVal
  studentId : JSVal
  teacherId : JSVal
  email : JSVal
  fullName : JSVal
  role : JSVal
  deriving DecidableEq, Repr

/-- The value of `useAuth()`: current user (`none` is `null`), token and the
loading flag. -/
structure AuthState where
  user : Option User
  token : JSVal
  loading : Bool
  deriving DecidableEq, Repr

/-- Modelled from the spec: `AuthContext.login` is not among the sources; the
spec says the auth context holds the current user and token, set by login.
`login(user, token)` stores both in the session. -/
def AuthContext.login (user : User) (token : JSVal) (s : AuthState) : AuthState :=
  { s with user := some user, token := token }

/-! ## `ProtectedRoute.jsx` -/

/-- What a route element renders to. -/
inductive Rendered (α : Type) where
  | loadingDiv
  | navigate (target : String)
  | children (c : α)
  deriving DecidableEq, Repr

/-- `Array.prototype.includes` on the values of the model. -/
def includes (xs : List JSVal) (v : JSVal) : Bool := xs.any (fun x => x == v)

/-- The component `ProtectedRoute({ children, allowedRoles })`; `allowedRoles`
is `none` when the prop is not passed. -/
def ProtectedRoute {α : Type} (auth : AuthState) (allowedRoles : Option (List JSVal))
    (children : α) : Rendered α :=
  if auth.loading then .loadingDiv
  else
    match auth.user with
    | none => .navigate "/login"
    | some user =>
      match allowedRoles with
      | some roles =>
        if !(includes roles user.role) then
          if user.role = .str "STUDENT" then .navigate "/student/dashboard"
          else if user.role = .str "TEACHER" then .navigate "/teacher/dashboard"
          else .children children
        else .children children
      | none => .children children

/-! ## `App.jsx`: the route table -/

/-- The page components. -/
inductive Page where
  | Login
  | Register
  | StudentDashboard
  | TeacherDashboard
  | AdminDashboard
  deriving DecidableEq, Repr

/-- The `element` of a `<Route>`. -/
inductive RouteElement where
  | page (p : Page)
  | navigateTo (target : String)
  | protectedRoute (allowedRoles : List JSVal) (children : Page)
  deriving DecidableEq, Repr

/-- The `<Routes>` table of `App`, in source order. -/
def App.routes : List (String × RouteElement) :=
  [ ("/login", .page .Login),
    ("/register", .page .Register),
    ("/student/dashboard", .protectedRoute [.str "STUDENT"] .StudentDashboard),
    ("/teacher/dashboard", .protectedRoute [.str "TEACHER"] .TeacherDashboard),
    ("/admin/dashboard", .protectedRoute [.str "ADMIN"] .AdminDashboard),
    ("/", .navigateTo "/login"),
    ("*", .navigateTo "/login") ]

/-- The element selected for a location: the route whose path is the location,
otherwise the catch-all `*` route. -/
def App.element (path : String) : RouteElement :=
  match App.routes.find? (fun r => r.1 == path) with
  | some r => r.2
  | none => .navigateTo "/login"

/-- Rendering of a route element under the current auth state. -/
def RouteElement.render (auth : AuthState) : RouteElement → Rendered Page
  | .page p => .children p
  | .navigateTo target => .navigate target
  | .protectedRoute roles child => ProtectedRoute auth (some roles) child

/-- What `App` renders at a location. -/
def App.render (auth : AuthState) (path : String) : Rendered Page :=
  (App.element path).render auth

/-! ## HTTP requests and their outcomes -/

/-- An outbound request: method, URL, headers and the JSON object sent as body. -/
structure Request where
  method : String
  url : String
  headers : List (String × String)
  body : List (String × JSVal)
  deriving DecidableEq, Repr

/-- The result of `await response.json()`. -/
inductive ResponseBody where
  /-- The body is not JSON (also an empty body): `response.json()` rejects. -/
  | unparseable
  /-- The body is JSON `null`: reading a property of it throws a `TypeError`. -/
  | null
  /-- The body is a JSON object with these properties (a JSON primitive or array
  reads like an object without the properties asked for). -/
  | object (fields : List (String × JSVal))
  deriving DecidableEq, Repr

/-- The result of `await fetch(...)`. -/
inductive FetchOutcome where
  /-- The promise rejects: the server could not be reached. -/
  | rejected
  /-- A response arrived, with its `ok` flag and body. -/
  | response (ok : Bool) (body : ResponseBody)
  deriving DecidableEq, Repr

/-! ## `Login.jsx` -/

/-- Local state of the `Login` component. -/
structure LoginState where
  email : String
  password : String
  apiError : JSVal
  loading : Bool
  showPassword : Bool
  deriving DecidableEq, Repr

/-- Everything `handleSubmit` leaves behind once its promise has settled. -/
structure LoginResult where
  state : LoginState
  auth : AuthState
  navigations : List String
  loginCalls : List (User × JSVal)
  requests : List Request
  deriving DecidableEq, Repr

/-- The request issued by `Login.handleSubmit`. -/
def Login.request (st : LoginState) : Request :=
  { method := "POST",
    url := "http://localhost:8080/api/auth/login",
    headers := [("Content-Type", "application/json")],
    body := [("email", .str st.email), ("password", .str st.password)] }

/-- The navigation after a successful login. -/
def Login.redirect (role : JSVal) : List String :=
  if role = .str "STUDENT" then ["/student/dashboard"]
  else if role = .str "TEACHER" then ["/teacher/dashboard"]
  else if role = .str "ADMIN" then ["/admin/dashboard"]
  else []

/-- `Login.handleSubmit`, run to completion against the outcome `net` of its
`fetch`.  The `catch` block handles a rejected fetch, a body that is not JSON
and a property read on `null`; the `finally` block resets `loading`. -/
def Login.handleSubmit (st : LoginState) (auth : AuthState) (net : FetchOutcome) :
    LoginResult :=
  let caught : LoginResult :=
    { state := { st with apiError := .str "Cannot connect to server. Is Spring Boot running?",
                         loading := false },
      auth := auth, navigations := [], loginCalls := [], requests := [Login.request st] }
  match net with
  | .rejected => caught
  | .response _ .unparseable => caught
  | .response _ .null => caught
  | .response ok (.object data) =>
    if !ok then
      { state := { st with apiError := (getProp data "message").or (.str "Login failed"),
                           loading := false },
        auth := auth, navigations := [], loginCalls := [], requests := [Login.request st] }
    else
      let user : User :=
        { userId := getProp data "userId",
          studentId := getProp data "studentId",
          teacherId := getProp data "teacherId",
          email := getProp data "email",
          fullName := getProp data "fullName",
          role := getProp data "role" }
      { state := { st with apiError := .str "", loading := false },
        auth := AuthContext.login user (getProp data "token") auth,
        navigations := Login.redirect (getProp data "role"),
        loginCalls := [(user, getProp data "token")],
        requests := [Login.request st] }

/-! ## JavaScript strings and regular expressions -/

/-- White space and line terminators: the characters matched by `\s` and
stripped by `String.prototype.trim`. -/
def isWhiteSpace (c : Char) : Bool :=
  let n := c.toNat
  n == 0x09 || n == 0x0A || n == 0x0B || n == 0x0C || n == 0x0D || n == 0x20 ||
  n == 0xA0 || n == 0x1680 || (0x2000 ≤ n && n ≤ 0x200A) || n == 0x2028 ||
  n == 0x2029 || n == 0x202F || n == 0x205F || n == 0x3000 || n == 0xFEFF

/-- `String.prototype.trim` on the list of characters. -/
def trimChars (cs : List Char) : List Char :=
  ((cs.dropWhile isWhiteSpace).reverse.dropWhile isWhiteSpace).reverse

/-- `String.prototype.trim`. -/
def jsTrim (s : String) : String := String.mk (trimChars s.data)

/-- The `length` of a JavaScript string: its number of UTF-16 code units. -/
def jsLength (s : String) : Nat :=
  (s.data.map (fun c => if c.toNat < 0x10000 then 1 else 2)).sum

/-- Regular expressions over characters, with character classes. -/
inductive Regex where
  | nothing
  | eps
  | cls (p : Char → Bool)
  | seq (r s : Regex)
  | alt (r s : Regex)
  | star (r : Regex)

/-- The quantifier `r+`. -/
def Regex.plus (r : Regex) : Regex := .seq r (.star r)

/-- Whether the expression matches the empty string. -/
def Regex.nullable : Regex → Bool
  | .nothing => false
  | .eps => true
  | .cls _ => false
  | .seq r s => r.nullable && s.nullable
  | .alt r s => r.nullable || s.nullable
  | .star _ => true

/-- The derivative of an expression by one character. -/
def Regex.deriv : Regex → Char → Regex
  | .nothing, _ => .nothing
  | .eps, _ => .nothing
  | .cls p, c => if p c then .eps else .nothing
  | .seq r s, c =>
    if r.nullable then .alt (.seq (r.deriv c) s) (s.deriv c) else .seq (r.deriv c) s
  | .alt r s, c => .alt (r.deriv c) (s.deriv c)
  | .star r, c => .seq (r.deriv c) (.star r)

/-- Whether the expression matches some prefix of the input. -/
def Regex.matchPrefix : Regex → List Char → Bool
  | r, [] => r.nullable
  | r, c :: cs => r.nullable || (r.deriv c).matchPrefix cs

/-- `RegExp.prototype.test` without flags: whether the expression matches
somewhere in the input. -/
def Regex.test (r : Regex) : List Char → Bool
  | [] => r.matchPrefix []
  | c :: cs => r.matchPrefix (c :: cs) || r.test cs

/-- The class `\S`. -/
def nonSpace : Regex := .cls (fun c => !isWhiteSpace c)

/-- The literal character `c`. -/
def Regex.chr (c : Char) : Regex := .cls (fun x => x == c)

/-- The expression `/\S+@\S+\.\S+/` of `validate`.  It is stated on code points;
JavaScript matches UTF-16 code units, which gives the same answer because a
surrogate code unit is neither white space nor `@` nor `.`. -/
def emailRegex : Regex :=
  .seq nonSpace.plus (.seq (.chr '@') (.seq nonSpace.plus (.seq (.chr '.') nonSpace.plus)))

/-- Value of a digit in the given radix, if it is one. -/
def digitValue (radix : Nat) (c : Char) : Option Nat :=
  let n := c.toNat
  let v : Option Nat :=
    if 48 ≤ n && n ≤ 57 then some (n - 48)
    else if 97 ≤ n && n ≤ 122 then some (n - 97 + 10)
    else if 65 ≤ n && n ≤ 90 then some (n - 65 + 10)
    else none
  match v with
  | some d => if d < radix then some d else none
  | none => none

/-- The longest prefix of digits, read in the given radix. -/
def readDigits (radix : Nat) : List Char → Option Nat → Option Nat
  | [], acc => acc
  | c :: cs, acc =>
    match digitValue radix c with
    | some d => readDigits radix cs (some (acc.getD 0 * radix + d))
    | none => acc

/-- `parseInt(s)` without radix; `none` is `NaN`.  Above 2^53 the JavaScript
result is rounded to a double, here it is the exact integer. -/
def parseInt (s : String) : Option Int :=
  let cs := s.data.dropWhile isWhiteSpace
  let (neg, cs) : Bool × List Char :=
    match cs with
    | '-' :: rest => (true, rest)
    | '+' :: rest => (false, rest)
    | _ => (false, cs)
  let (radix, cs) : Nat × List Char :=
    match cs with
    | '0' :: 'x' :: rest => (16, rest)
    | '0' :: 'X' :: rest => (16, rest)
    | _ => (10, cs)
  match readDigits radix cs none with
  | some n => some (if neg then -(n : Int) else (n : Int))
  | none => none

/-- A number as `JSON.stringify` writes it: `NaN` becomes `null`. -/
def jsonNumber : Option Int → JSVal
  | some n => .num n
  | none => .null

/-! ## `Register.jsx` -/

/-- The `formData` state of the `Register` component. -/
structure FormData where
  email : String
  password : String
  confirmPassword : String
  fullName : String
  studentId : String
  yearOfStudy : String
  departmentId : String
  phoneNumber : String
  employeeId : String
  deriving DecidableEq, Repr

/-- An errors object: its own properties in insertion order. -/
abbrev Errors := List (String × String)

/-- The assignment `errors[key] = msg`. -/
def Errors.assign (o : Errors) (key msg : String) : Errors :=
  if o.any (fun kv => kv.1 == key) then
    o.map (fun kv => if kv.1 == key then (key, msg) else kv)
  else o ++ [(key, msg)]

/-- The property read `errors[key]`; `none` is `undefined`. -/
def Errors.get (o : Errors) (key : String) : Option String :=
  (o.find? (fun kv => kv.1 == key)).map (fun kv => kv.2)

/-- The function `validate` of `Register`, over the component's `formData` and
`role` state. -/
def Register.validate (formData : FormData) (role : String) : Errors :=
  let newErrors : Errors := []
  let newErrors :=
    if jsTrim formData.fullName = "" then newErrors.assign "fullName" "Full name is required"
    else newErrors
  let newErrors :=
    if formData.email = "" then newErrors.assign "email" "Email is required"
    else if !(emailRegex.test formData.email.data) then
      newErrors.assign "email" "Invalid email format"
    else newErrors
  let newErrors :=
    if formData.password = "" then newErrors.assign "password" "Password is required"
    else if jsLength formData.password < 8 then
      newErrors.assign "password" "Password must be at least 8 characters"
    else newErrors
  let newErrors :=
    if formData.confirmPassword = "" then
      newErrors.assign "confirmPassword" "Please confirm your password"
    else if formData.password ≠ formData.confirmPassword then
      newErrors.assign "confirmPassword" "Passwords do not match"
    else newErrors
  let newErrors :=
    if formData.departmentId = "" then
      newErrors.assign "departmentId" "Department is required"
    else newErrors
  let newErrors :=
    if formData.phoneNumber = "" then
      newErrors.assign "phoneNumber" "Phone number is required"
    else newErrors
  let newErrors :=
    if role = "STUDENT" then
      let newErrors :=
        if jsTrim formData.studentId = "" then
          newErrors.assign "studentId" "Student ID is required"
        else newErrors
      if formData.yearOfStudy = "" then
        newErrors.assign "yearOfStudy" "Year of study is required"
      else newErrors
    else newErrors
  let newErrors :=
    if role = "TEACHER" then
      if jsTrim formData.employeeId = "" then
        newErrors.assign "employeeId" "Employee ID is required"
      else newErrors
    else newErrors
  newErrors

/-- `BASE_URL` of `services/api.js`: the environment variable
`REACT_APP_API_URL` when it is set and non-empty, else the local default. -/
def BASE_URL (env : Option String) : String :=
  match env with
  | some u => if u = "" then "http://localhost:8080" else u
  | none => "http://localhost:8080"

/-- The request of `authAPI.registerStudent(studentData)`. -/
def authAPI.registerStudent (env : Option String) (studentData : List (String × JSVal)) :
    Request :=
  { method := "POST", url := BASE_URL env ++ "/api/students/register",
    headers := [("Content-Type", "application/json")], body := studentData }

/-- The request of `authAPI.registerTeacher(teacherData)`. -/
def authAPI.registerTeacher (env : Option String) (teacherData : List (String × JSVal)) :
    Request :=
  { method := "POST", url := BASE_URL env ++ "/api/teachers/register",
    headers := [("Content-Type", "application/json")], body := teacherData }

/-- State of the `Register` component. -/
structure RegisterState where
  role : String
  formData : FormData
  errors : Errors
  apiError : JSVal
  success : String
  loading : Bool
  deriving DecidableEq, Repr

/-- Everything `Register.handleSubmit` leaves behind: the state, the requests
sent and the navigations scheduled with `setTimeout` (delay in ms, target). -/
structure RegisterResult where
  state : RegisterState
  requests : List Request
  timeouts : List (Nat × String)
  deriving DecidableEq, Repr

/-- The request `Register.handleSubmit` builds for the selected role. -/
def Register.request (env : Option String) (st : RegisterState) : Request :=
  if st.role = "STUDENT" then
    authAPI.registerStudent env
      [ ("email", .str st.formData.email),
        ("password", .str st.formData.password),
        ("fullName", .str st.formData.fullName),
        ("studentId", .str st.formData.studentId),
        ("departmentId", jsonNumber (parseInt st.formData.departmentId)),
        ("yearOfStudy", jsonNumber (parseInt st.formData.yearOfStudy)),
        ("phoneNumber", .str st.formData.phoneNumber) ]
  else
    authAPI.registerTeacher env
      [ ("email", .str st.formData.email),
        ("password", .str st.formData.password),
        ("fullName", .str st.formData.fullName),
        ("employeeId", .str st.formData.employeeId),
        ("departmentId", jsonNumber (parseInt st.formData.departmentId)),
        ("phoneNumber", .str st.formData.phoneNumber) ]

/-- The message of the `catch` block of `Register.handleSubmit`:
`error.response?.data?.message || 'Registration failed. Try again.'`, for the
errors the `authAPI` call can throw. -/
def Register.caughtMessage : FetchOutcome → JSVal
  | .response false (.object data) =>
    (getProp data "message").or (.str "Registration failed. Try again.")
  | _ => .str "Registration failed. Try again."

/-- `Register.handleSubmit`, run to completion against the outcome `net` of
the registration request (which is only consulted when a request is sent). -/
def Register.handleSubmit (env : Option String) (st : RegisterState) (net : FetchOutcome) :
    RegisterResult :=
  let validationErrors := Register.validate st.formData st.role
  if validationErrors.length > 0 then
    { state := { st with errors := validationErrors }, requests := [], timeouts := [] }
  else
    let req := Register.request env st
    match net with
    | .response true (.object _) =>
      { state := { st with apiError := .str "",
                           success := "Registration successful! Redirecting to login...",
                           loading := false },
        requests := [req], timeouts := [(2000, "/login")] }
    | .response true .null =>
      { state := { st with apiError := .str "",
                           success := "Registration successful! Redirecting to login...",
                           loading := false },
        requests := [req], timeouts := [(2000, "/login")] }
    | failure =>
      { state := { st with apiError := Register.caughtMessage failure,
                           success := "", loading := false },
        requests := [req], timeouts := [] }

/-- The strings matched by an expression (its language). -/
inductive Regex.Matches : Regex → List Char → Prop where
  | eps : Regex.Matches .eps []
  | cls (p : Char → Bool) (c : Char) : p c = true → Regex.Matches (.cls p) [c]
  | seq {r s : Regex} {u v : List Char} :
      Regex.Matches r u → Regex.Matches s v → Regex.Matches (.seq r s) (u ++ v)
  | altLeft {r s : Regex} {u : List Char} : Regex.Matches r u → Regex.Matches (.alt r s) u
  | altRight {r s : Regex} {u : List Char} : Regex.Matches s u → Regex.Matches (.alt r s) u
  | starNil {r : Regex} : Regex.Matches (.star r) []
  | starCons {r : Regex} {u v : List Char} :
      Regex.Matches r u → Regex.Matches (.star r) v → Regex.Matches (.star r) (u ++ v)

/-- A non-empty run of characters none of which is white space. -/
def NonSpaceRun (w : List Char) : Prop := w ≠ [] ∧ ∀ c ∈ w, isWhiteSpace c = false

/-- The email rule in the words of the specification: the text contains a run
of non-space characters, an `@`, a run of non-space characters, a `.` and a
run of non-space characters. -/
def ContainsEmailShape (s : List Char) : Prop :=
  ∃ pre a b c post : List Char,
    s = pre ++ (a ++ '@' :: (b ++ '.' :: c)) ++ post ∧
      NonSpaceRun a ∧ NonSpaceRun b ∧ NonSpaceRun c

/-! ## JavaScript numbers: binary64 arithmetic

A finite double is written `m * 2^e` with integers `m` and `e`.  The results of
the arithmetic operations are the exact results rounded to the nearest value
with a 53-bit significand, ties to even, as IEEE 754 prescribes.  Overflow,
subnormal results, `NaN` and the sign of zero are outside the model: the
quantities computed by the dashboards (ratios of array lengths, differences
of time stamps) are far from those ranges. -/

/-- A finite double, `m * 2^e`. -/
structure Double where
  m : Int
  e : Int
  deriving DecidableEq, Repr

/-- The rational number a double stands for. -/
def Double.toRat (x : Double) : ℚ := (x.m : ℚ) * (2 : ℚ) ^ x.e

/-- Floor of the binary logarithm by repeated halving, at most `fuel` times. -/
def log2Aux : Nat → Nat → Nat
  | 0, _ => 0
  | fuel + 1, n => if 2 ≤ n then log2Aux fuel (n / 2) + 1 else 0

/-- Floor of the binary logarithm of a positive natural number. -/
def ilog2 (n : Nat) : Nat := log2Aux n n

/-- The quotient `n / d` rounded to the nearest integer, ties to the even one. -/
def roundNearestEven (n d : Nat) : Nat :=
  let q := n / d
  let r := n % d
  if 2 * r < d then q
  else if d < 2 * r then q + 1
  else if q % 2 = 0 then q else q + 1

/-- Numerator and denominator of `(n / d) / 2^e`. -/
def scaleBy (n d : Nat) (e : Int) : Nat × Nat :=
  if 0 ≤ e then (n, d * 2 ^ e.toNat) else (n * 2 ^ (-e).toNat, d)

/-- The exponent `e` for which `(n / d) / 2^e` lies in `[2^52, 2^53)`. -/
def binadeExp (n d : Nat) : Int :=
  let e0 : Int := (ilog2 n : Int) - (ilog2 d : Int) - 52
  let s := scaleBy n d e0
  if 2 ^ 52 * s.2 ≤ s.1 then e0 else e0 - 1

/-- The double nearest to `± (n / d) * 2^x` (`neg` gives the sign). -/
def Double.round (neg : Bool) (n d : Nat) (x : Int) : Double :=
  if n = 0 then ⟨0, 0⟩
  else
    let e := binadeExp n d
    let s := scaleBy n d e
    let m : Int := roundNearestEven s.1 s.2
    ⟨if neg then -m else m, e + x⟩

/-- An integer below 2^53 in absolute value as a double (exact). -/
def Double.ofInt (i : Int) : Double := ⟨i, 0⟩

/-- A natural number below 2^53 as a double (exact). -/
def Double.ofNat (n : Nat) : Double := ⟨n, 0⟩

/-- The operator `a - b`. -/
def Double.sub (a b : Double) : Double :=
  let e := min a.e b.e
  let v : Int := a.m * 2 ^ (a.e - e).toNat - b.m * 2 ^ (b.e - e).toNat
  Double.round (decide (v < 0)) v.natAbs 1 e

/-- The operator `a * b`. -/
def Double.mul (a b : Double) : Double :=
  let v : Int := a.m * b.m
  Double.round (decide (v < 0)) v.natAbs 1 (a.e + b.e)

/-- The operator `a / b` for a divisor that is not zero. -/
def Double.div (a b : Double) (_ : b.m ≠ 0) : Double :=
  Double.round (decide (a.m < 0) != decide (b.m < 0)) a.m.natAbs b.m.natAbs (a.e - b.e)

/-- `Math.floor`: the largest integer not above the value. -/
def Math.floor (x : Double) : Int :=
  if 0 ≤ x.e then x.m * 2 ^ x.e.toNat else x.m / 2 ^ (-x.e).toNat

/-- `Math.round`: the nearest integer, a tie going to the larger one; that is
`⌊x + 1/2⌋`. -/
def Math.round (x : Double) : Int :=
  if 0 ≤ x.e then x.m * 2 ^ x.e.toNat
  else (2 * x.m + 2 ^ (-x.e).toNat) / 2 ^ ((-x.e).toNat + 1)

/-! ## `StudentDashboard.jsx`: attendance percentage -/

/-- An attendance record as returned by the backend. -/
structure AttendanceRecord where
  id : Nat
  courseId : Nat
  courseCode : String
  sessionName : String
  markedAt : String
  status : String
  deriving DecidableEq, Repr

/-- The function `getPercentage(courseId)` of `StudentDashboard`, over the
component's `attendanceHistory` state. -/
def getPercentage (attendanceHistory : List AttendanceRecord) (courseId : Nat) : Int :=
  let records := attendanceHistory.filter (fun a => a.courseId == courseId)
  if h : records.length = 0 then 0
  else
    let present :=
      (records.filter (fun a => a.status == "PRESENT" || a.status == "LATE")).length
    Math.round
      (Double.mul
        (Double.div (Double.ofNat present) (Double.ofNat records.length)
          (by simpa [Double.ofNat] using h))
        (Double.ofNat 100))

/-- The percentage in the words of the specification: `100 * p / n` rounded to
the nearest integer, halves up. -/
def specPercentage (p n : Nat) : Int := ((200 * p + n) / (2 * n) : Nat)

/-! ## `TeacherDashboard.jsx`: the countdown of the QR session -/

/-- The `activeSession` object.  A field is `none` when the property is
`undefined`, as in the object `{ ...null, isActive: false }`.  `expiryTime` is
the time value in milliseconds of `new Date(activeSession.expiryTime)`. -/
structure ActiveSession where
  sessionId : Option Nat
  courseId : Option Nat
  courseName : Option String
  sessionName : Option String
  qrCodeImage : Option String
  expiryTime : Option Int
  isActive : Option Bool
  totalScans : Option Nat
  deriving DecidableEq, Repr

/-- The object `{ ...null }`: no property is set. -/
def ActiveSession.empty : ActiveSession :=
  { sessionId := none, courseId := none, courseName := none, sessionName := none,
    qrCodeImage := none, expiryTime := none, isActive := none, totalScans := none }

/-- The updater `prev => ({ ...prev, isActive: false })`. -/
def markInactive (prev : Option ActiveSession) : Option ActiveSession :=
  some { (prev.getD ActiveSession.empty) with isActive := some false }

/-- A course of the teacher. -/
structure Course where
  id : Nat
  courseCode : String
  courseName : String
  deriving DecidableEq, Repr

/-- The `qrForm` state.  `durationMinutes` is the text `parseInt` reads (the
number 5 of the initial and of the reset form reads as "5"); `location` is
`none` while the property is absent, as in the initial form. -/
structure QrForm where
  sessionName : String
  durationMinutes : String
  location : Option String
  deriving DecidableEq, Repr

/-- State of the `TeacherDashboard` component. -/
structure TeacherState where
  courses : List Course
  selectedCourse : Option Course
  activeSession : Option ActiveSession
  sessionAttendance : List AttendanceRecord
  loading : Bool
  generating : Bool
  timeLeft : Option String
  qrForm : QrForm
  deriving DecidableEq, Repr

/-- `s.padStart(n, c)` for a one-character pad string. -/
def padStart (s : String) (n : Nat) (c : Char) : String :=
  String.mk (List.replicate (n - s.length) c) ++ s

/-- Whole seconds left: `Math.floor((expiry - now) / 1000)` for the time values
of the two dates. -/
def secondsLeft (expiry now : Int) : Int :=
  Math.floor
    (Double.div (Double.sub (Double.ofInt expiry) (Double.ofInt now)) (Double.ofNat 1000)
      (by decide))

/-- One run of the countdown interval callback at time `now`.  `expiryTime` is
the expiry captured by the effect (`none` when the date is invalid, so that the
difference is `NaN`); the flag tells whether the callback cleared the interval. -/
def countdownTick (expiryTime : Option Int) (now : Int) (st : TeacherState) :
    TeacherState × Bool :=
  match expiryTime with
  | none => ({ st with timeLeft := some "NaN:NaN" }, false)
  | some expiry =>
    let diff := secondsLeft expiry now
    if diff ≤ 0 then
      ({ st with timeLeft := some "Expired", activeSession := markInactive st.activeSession },
        true)
    else
      let mins := Math.floor (Double.div (Double.ofInt diff) (Double.ofNat 60) (by decide))
      let secs := diff % 60
      ({ st with timeLeft := some (toString mins ++ ":" ++ padStart (toString secs) 2 '0') },
        false)

/-! ## `services/api.js`: the axios instance and the API objects -/

/-- The text a value contributes to a template literal. -/
def JSVal.toStr : JSVal → String
  | .undefined => "undefined"
  | .null => "null"
  | .bool b => if b then "true" else "false"
  | .num n => toString n
  | .str s => s

/-- The part of the browser the API wrapper touches: local storage and the
current location. -/
structure Browser where
  localStorage : List (String × String)
  location : String
  deriving DecidableEq, Repr

/-- `localStorage.getItem(key)`; `none` is `null`. -/
def Browser.getItem (b : Browser) (key : String) : Option String :=
  (b.localStorage.find? (fun kv => kv.1 == key)).map (fun kv => kv.2)

/-- The assignment `config.headers[name] = value`. -/
def setHeader (headers : List (String × String)) (name value : String) :
    List (String × String) :=
  headers.filter (fun h => h.1 != name) ++ [(name, value)]

/-- The request interceptor of `api`: attaches the stored token when there is
a non-empty one. -/
def api.requestInterceptor (b : Browser) (config : Request) : Request :=
  match b.getItem "token" with
  | some token =>
    if token ≠ "" then
      { config with headers := setHeader config.headers "Authorization" ("Bearer " ++ token) }
    else config
  | none => config

/-- A request sent through the `api` instance: the instance defaults (base URL,
content type) followed by the request interceptor.  The base URL and the path
are concatenated; the removal of a duplicate slash by axios is not modelled. -/
def api.request (env : Option String) (b : Browser) (method path : String)
    (data : List (String × JSVal)) : Request :=
  api.requestInterceptor b
    { method := method, url := BASE_URL env ++ path,
      headers := [("Content-Type", "application/json")], body := data }

/-- The call `api.get(path)`. -/
def api.get (env : Option String) (b : Browser) (path : String) : Request :=
  api.request env b "GET" path []

/-- The call `api.post(path, data)`. -/
def api.post (env : Option String) (b : Browser) (path : String)
    (data : List (String × JSVal)) : Request :=
  api.request env b "POST" path data

/-- The call `api.put(path)`. -/
def api.put (env : Option String) (b : Browser) (path : String) : Request :=
  api.request env b "PUT" path []

/-- The call `api.delete(path)`. -/
def api.delete (env : Option String) (b : Browser) (path : String) : Request :=
  api.request env b "DELETE" path []

/-- The error object an `api` call rejects with. -/
inductive AxiosError where
  /-- No response arrived (`error.response` is `undefined`). -/
  | noResponse
  /-- The server answered with an error status; `data` is the parsed body. -/
  | response (status : Int) (data : ResponseBody)
  deriving DecidableEq, Repr

/-- The value of `error.response?.status`; `none` is `undefined`. -/
def AxiosError.status : AxiosError → Option Int
  | .noResponse => none
  | .response status _ => some status

/-- The value of `error.response?.data?.message`. -/
def AxiosError.message : AxiosError → JSVal
  | .response _ (.object data) => getProp data "message"
  | _ => .undefined

/-- What the browser is asked to do by the response interceptor. -/
inductive BrowserEffect where
  | clearStorage
  | setLocation (href : String)
  deriving DecidableEq, Repr

/-- The error handler of the response interceptor of `api`: the effects it
performs and the browser afterwards.  The error is passed on (the promise
stays rejected) in every case. -/
def api.responseErrorInterceptor (error : AxiosError) (b : Browser) :
    List BrowserEffect × Browser :=
  if error.status = some 401 then
    ([.clearStorage, .setLocation "/login"], { localStorage := [], location := "/login" })
  else ([], b)

/-- The request of `authAPI.login(credentials)`. -/
def authAPI.login (env : Option String) (credentials : List (String × JSVal)) : Request :=
  { method := "POST", url := BASE_URL env ++ "/api/auth/login",
    headers := [("Content-Type", "application/json")], body := credentials }

/-- The request of `studentAPI.getEnrolledCourses(studentId)`. -/
def studentAPI.getEnrolledCourses (env : Option String) (b : Browser) (studentId : JSVal) :
    Request :=
  api.get env b ("/api/students/" ++ studentId.toStr ++ "/courses")

/-- The request of `studentAPI.getAttendanceHistory(studentId)`. -/
def studentAPI.getAttendanceHistory (env : Option String) (b : Browser) (studentId : JSVal) :
    Request :=
  api.get env b ("/api/attendance/student/" ++ studentId.toStr)

/-- The request of `studentAPI.getAttendanceByCourse(studentId, courseId)`. -/
def studentAPI.getAttendanceByCourse (env : Option String) (b : Browser)
    (studentId courseId : JSVal) : Request :=
  api.get env b
    ("/api/attendance/student/" ++ studentId.toStr ++ "/course/" ++ courseId.toStr)

/-- The request of `studentAPI.markAttendance(data)`. -/
def studentAPI.markAttendance (env : Option String) (b : Browser)
    (data : List (String × JSVal)) : Request :=
  api.post env b "/api/attendance/mark" data

/-- The request of `studentAPI.getAvailableCourses(studentId)`. -/
def studentAPI.getAvailableCourses (env : Option String) (b : Browser) (studentId : JSVal) :
    Request :=
  api.get env b ("/api/students/" ++ studentId.toStr ++ "/available-courses")

/-- The request of `studentAPI.selfEnroll(studentId, courseId)`. -/
def studentAPI.selfEnroll (env : Option String) (b : Browser) (studentId courseId : JSVal) :
    Request :=
  api.post env b ("/api/students/" ++ studentId.toStr ++ "/enroll/" ++ courseId.toStr) []

/-- The request of `studentAPI.unenroll(studentId, courseId)`. -/
def studentAPI.unenroll (env : Option String) (b : Browser) (studentId courseId : JSVal) :
    Request :=
  api.delete env b ("/api/enrollment/" ++ studentId.toStr ++ "/" ++ courseId.toStr)

/-- The request of `teacherAPI.getCourses(teacherId)`. -/
def teacherAPI.getCourses (env : Option String) (b : Browser) (teacherId : JSVal) : Request :=
  api.get env b ("/api/teachers/" ++ teacherId.toStr ++ "/courses")

/-- The request of `teacherAPI.generateQR(data)`. -/
def teacherAPI.generateQR (env : Option String) (b : Browser)
    (data : List (String × JSVal)) : Request :=
  api.post env b "/api/qr/generate" data

/-- The request of `teacherAPI.getSessionDetails(sessionId)`. -/
def teacherAPI.getSessionDetails (env : Option String) (b : Browser) (sessionId : JSVal) :
    Request :=
  api.get env b ("/api/qr/session/" ++ sessionId.toStr)

/-- The request of `teacherAPI.getSessionAttendance(sessionId)`. -/
def teacherAPI.getSessionAttendance (env : Option String) (b : Browser) (sessionId : JSVal) :
    Request :=
  api.get env b ("/api/attendance/session/" ++ sessionId.toStr)

/-- The request of `teacherAPI.deactivateSession(sessionId)`. -/
def teacherAPI.deactivateSession (env : Option String) (b : Browser) (sessionId : JSVal) :
    Request :=
  api.put env b ("/api/qr/session/" ++ sessionId.toStr ++ "/deactivate")

/-- The request of `adminAPI.getAllDepartments()`. -/
def adminAPI.getAllDepartments (env : Option String) (b : Browser) : Request :=
  api.get env b "/api/admin/departments"

/-- The request of `adminAPI.createDepartment(data)`. -/
def adminAPI.createDepartment (env : Option String) (b : Browser)
    (data : List (String × JSVal)) : Request :=
  api.post env b "/api/admin/departments" data

/-- The request of `adminAPI.deleteDepartment(id)`. -/
def adminAPI.deleteDepartment (env : Option String) (b : Browser) (id : JSVal) : Request :=
  api.delete env b ("/api/admin/departments/" ++ id.toStr)

/-- The request of `adminAPI.getAllCourses()`. -/
def adminAPI.getAllCourses (env : Option String) (b : Browser) : Request :=
  api.get env b "/api/admin/courses"

/-- The request of `adminAPI.createCourse(data)`. -/
def adminAPI.createCourse (env : Option String) (b : Browser)
    (data : List (String × JSVal)) : Request :=
  api.post env b "/api/admin/courses" data

/-- The request of `adminAPI.deleteCourse(id)`. -/
def adminAPI.deleteCourse (env : Option String) (b : Browser) (id : JSVal) : Request :=
  api.delete env b ("/api/admin/courses/" ++ id.toStr)

/-- The request of `adminAPI.getAllStudents()`. -/
def adminAPI.getAllStudents (env : Option String) (b : Browser) : Request :=
  api.get env b "/api/admin/students"

/-- The request of `adminAPI.enrollStudent(data)`. -/
def adminAPI.enrollStudent (env : Option String) (b : Browser)
    (data : List (String × JSVal)) : Request :=
  api.post env b "/api/admin/enroll" data

/-- The request of `adminAPI.getAllTeachers()`. -/
def adminAPI.getAllTeachers (env : Option String) (b : Browser) : Request :=
  api.get env b "/api/admin/teachers"

/-- The request of `adminAPI.getAllAttendance()`. -/
def adminAPI.getAllAttendance (env : Option String) (b : Browser) : Request :=
  api.get env b "/api/admin/attendance"

/-- Every backend call the client can make: the methods of `studentAPI`,
`teacherAPI`, `adminAPI` and `authAPI`, and the request of the login page. -/
inductive BackendCall where
  | getEnrolledCourses (studentId : JSVal)
  | getAttendanceHistory (studentId : JSVal)
  | getAttendanceByCourse (studentId courseId : JSVal)
  | markAttendance (data : List (String × JSVal))
  | getAvailableCourses (studentId : JSVal)
  | selfEnroll (studentId courseId : JSVal)
  | unenroll (studentId courseId : JSVal)
  | getCourses (teacherId : JSVal)
  | generateQR (data : List (String × JSVal))
  | getSessionDetails (sessionId : JSVal)
  | getSessionAttendance (sessionId : JSVal)
  | deactivateSession (sessionId : JSVal)
  | getAllDepartments
  | createDepartment (data : List (String × JSVal))
  | deleteDepartment (id : JSVal)
  | getAllCourses
  | createCourse (data : List (String × JSVal))
  | deleteCourse (id : JSVal)
  | getAllStudents
  | enrollStudent (data : List (String × JSVal))
  | getAllTeachers
  | getAllAttendance
  | login (credentials : List (String × JSVal))
  | registerStudent (studentData : List (String × JSVal))
  | registerTeacher (teacherData : List (String × JSVal))
  | loginPage (st : LoginState)
  deriving DecidableEq, Repr

/-- The request a backend call sends. -/
def BackendCall.request (env : Option String) (b : Browser) : BackendCall → Request
  | .getEnrolledCourses studentId => studentAPI.getEnrolledCourses env b studentId
  | .getAttendanceHistory studentId => studentAPI.getAttendanceHistory env b studentId
  | .getAttendanceByCourse studentId courseId =>
    studentAPI.getAttendanceByCourse env b studentId courseId
  | .markAttendance data => studentAPI.markAttendance env b data
  | .getAvailableCourses studentId => studentAPI.getAvailableCourses env b studentId
  | .selfEnroll studentId courseId => studentAPI.selfEnroll env b studentId courseId
  | .unenroll studentId courseId => studentAPI.unenroll env b studentId courseId
  | .getCourses teacherId => teacherAPI.getCourses env b teacherId
  | .generateQR data => teacherAPI.generateQR env b data
  | .getSessionDetails sessionId => teacherAPI.getSessionDetails env b sessionId
  | .getSessionAttendance sessionId => teacherAPI.getSessionAttendance env b sessionId
  | .deactivateSession sessionId => teacherAPI.deactivateSession env b sessionId
  | .getAllDepartments => adminAPI.getAllDepartments env b
  | .createDepartment data => adminAPI.createDepartment env b data
  | .deleteDepartment id => adminAPI.deleteDepartment env b id
  | .getAllCourses => adminAPI.getAllCourses env b
  | .createCourse data => adminAPI.createCourse env b data
  | .deleteCourse id => adminAPI.deleteCourse env b id
  | .getAllStudents => adminAPI.getAllStudents env b
  | .enrollStudent data => adminAPI.enrollStudent env b data
  | .getAllTeachers => adminAPI.getAllTeachers env b
  | .getAllAttendance => adminAPI.getAllAttendance env b
  | .login credentials => authAPI.login env credentials
  | .registerStudent studentData => authAPI.registerStudent env studentData
  | .registerTeacher teacherData => authAPI.registerTeacher env teacherData
  | .loginPage st => Login.request st

/-- Whether the call goes through the axios instance `api` (the methods of
`studentAPI`, `teacherAPI` and `adminAPI`) rather than through `fetch`. -/
def BackendCall.viaApi : BackendCall → Bool
  | .login _ => false
  | .registerStudent _ => false
  | .registerTeacher _ => false
  | .loginPage _ => false
  | _ => true

/-- The endpoint path of a backend call. -/
def BackendCall.path : BackendCall → String
  | .getEnrolledCourses studentId => "/api/students/" ++ studentId.toStr ++ "/courses"
  | .getAttendanceHistory studentId => "/api/attendance/student/" ++ studentId.toStr
  | .getAttendanceByCourse studentId courseId =>
    "/api/attendance/student/" ++ studentId.toStr ++ "/course/" ++ courseId.toStr
  | .markAttendance _ => "/api/attendance/mark"
  | .getAvailableCourses studentId =>
    "/api/students/" ++ studentId.toStr ++ "/available-courses"
  | .selfEnroll studentId courseId =>
    "/api/students/" ++ studentId.toStr ++ "/enroll/" ++ courseId.toStr
  | .unenroll studentId courseId =>
    "/api/enrollment/" ++ studentId.toStr ++ "/" ++ courseId.toStr
  | .getCourses teacherId => "/api/teachers/" ++ teacherId.toStr ++ "/courses"
  | .generateQR _ => "/api/qr/generate"
  | .getSessionDetails sessionId => "/api/qr/session/" ++ sessionId.toStr
  | .getSessionAttendance sessionId => "/api/attendance/session/" ++ sessionId.toStr
  | .deactivateSession sessionId => "/api/qr/session/" ++ sessionId.toStr ++ "/deactivate"
  | .getAllDepartments => "/api/admin/departments"
  | .createDepartment _ => "/api/admin/departments"
  | .deleteDepartment id => "/api/admin/departments/" ++ id.toStr
  | .getAllCourses => "/api/admin/courses"
  | .createCourse _ => "/api/admin/courses"
  | .deleteCourse id => "/api/admin/courses/" ++ id.toStr
  | .getAllStudents => "/api/admin/students"
  | .enrollStudent _ => "/api/admin/enroll"
  | .getAllTeachers => "/api/admin/teachers"
  | .getAllAttendance => "/api/admin/attendance"
  | .login _ => "/api/auth/login"
  | .registerStudent _ => "/api/students/register"
  | .registerTeacher _ => "/api/teachers/register"
  | .loginPage _ => "/api/auth/login"

/-- How an `api` call settles: with the response data, or rejected with an
error. -/
inductive AxiosOutcome where
  | ok (data : ResponseBody)
  | error (e : AxiosError)
  deriving DecidableEq, Repr

/-! ## `TeacherDashboard.jsx`: effects, timers and `handleDeactivate` -/

/-- A numeric property that may be `undefined`, as a value. -/
def optNum : Option Nat → JSVal
  | some n => .num n
  | none => .undefined

/-- The two intervals of the dashboard.  `countdown` is the live 1-second
interval together with the expiry its callback captured; `poll` is the live
5-second interval together with the session id its callback captured. -/
structure TeacherTimers where
  countdown : Option (Option Int)
  poll : Option (Option Nat)
  deriving DecidableEq, Repr

/-- The dependency `activeSession?.expiryTime` of the countdown effect. -/
def countdownDep (st : TeacherState) : Option Int :=
  st.activeSession.bind (fun s => s.expiryTime)

/-- The dependencies `activeSession?.isActive`, `activeSession?.sessionId` of
the poll effect. -/
def pollDeps (st : TeacherState) : Option Bool × Option Nat :=
  (st.activeSession.bind (fun s => s.isActive), st.activeSession.bind (fun s => s.sessionId))

/-- The effects after a render that took the state from `old` to `new`: an
effect whose dependencies changed runs its cleanup (`clearInterval`) and then
its body again; the others keep their interval. -/
def runEffects (old new : TeacherState) (t : TeacherTimers) : TeacherTimers :=
  { countdown :=
      if countdownDep new = countdownDep old then t.countdown
      else if new.activeSession.isSome then some (countdownDep new)
      else none,
    poll :=
      if pollDeps new = pollDeps old then t.poll
      else if new.activeSession.bind (fun s => s.isActive) = some true then
        some (new.activeSession.bind (fun s => s.sessionId))
      else none }

/-- The mounted dashboard: component state and live intervals. -/
structure Teacher where
  st : TeacherState
  timers : TeacherTimers
  deriving DecidableEq, Repr

/-- A state update followed by the render and its effects. -/
def Teacher.render (d : Teacher) (new : TeacherState) : Teacher :=
  { st := new, timers := runEffects d.st new d.timers }

/-- The 1-second interval fires at time `now`, if it is live. -/
def Teacher.countdownFires (now : Int) (d : Teacher) : Teacher :=
  match d.timers.countdown with
  | none => d
  | some expiry =>
    let r := countdownTick expiry now d.st
    let timers := if r.2 then { d.timers with countdown := none } else d.timers
    { st := r.1, timers := runEffects d.st r.1 timers }

/-- The 5-second interval fires, if it is live: the request it sends. -/
def Teacher.pollFires (env : Option String) (b : Browser) (d : Teacher) : List Request :=
  match d.timers.poll with
  | none => []
  | some sessionId => [teacherAPI.getSessionAttendance env b (optNum sessionId)]

/-- What `handleDeactivate` leaves behind: the state, the request sent and the
native alerts shown. -/
structure DeactivateResult where
  state : TeacherState
  requests : List Request
  alerts : List String
  deriving DecidableEq, Repr

/-- `handleDeactivate`, run to completion against the outcome of the
deactivate call. -/
def handleDeactivate (env : Option String) (b : Browser) (st : TeacherState)
    (outcome : AxiosOutcome) : DeactivateResult :=
  match st.activeSession with
  | none => { state := st, requests := [], alerts := [] }
  | some session =>
    let req := teacherAPI.deactivateSession env b (optNum session.sessionId)
    match outcome with
    | .ok _ =>
      { state := { st with activeSession := markInactive st.activeSession,
                           timeLeft := some "Ended" },
        requests := [req], alerts := [] }
    | .error _ =>
      { state := st, requests := [req], alerts := ["Failed to deactivate session"] }

/-- The dashboard after `handleDeactivate` has settled. -/
def Teacher.deactivate (env : Option String) (b : Browser) (outcome : AxiosOutcome)
    (d : Teacher) : Teacher :=
  d.render (handleDeactivate env b d.st outcome).state

/-! ## `AdminDashboard.jsx` -/

/-- A department row. -/
structure Department where
  id : Nat
  departmentName : String
  description : String
  totalCourses : Nat
  deriving DecidableEq, Repr

/-- A student row. -/
structure Student where
  id : Nat
  studentId : String
  fullName : String
  email : String
  departmentName : String
  yearOfStudy : Nat
  totalEnrolledCourses : Nat
  deriving DecidableEq, Repr

/-- A teacher row. -/
structure TeacherRow where
  id : Nat
  employeeId : String
  fullName : String
  email : String
  departmentName : String
  totalCourses : Nat
  deriving DecidableEq, Repr

/-- The four collections the server holds and `fetchAll` loads. -/
structure Collections where
  departments : List Department
  courses : List Course
  students : List Student
  teachers : List TeacherRow
  deriving DecidableEq, Repr

/-- How the `Promise.all` of `fetchAll` settles: with the four collections, or
rejected because one of the four calls failed. -/
inductive FetchAllOutcome where
  | loaded (server : Collections)
  | failed
  deriving DecidableEq, Repr

/-- The `deptForm` state. -/
structure DeptForm where
  departmentName : String
  description : String
  deriving DecidableEq, Repr

/-- The `courseForm` state. -/
structure CourseForm where
  courseCode : String
  courseName : String
  description : String
  credits : String
  semester : String
  teacherId : String
  departmentId : String
  deriving DecidableEq, Repr

/-- The `enrollForm` state. -/
structure EnrollForm where
  studentId : String
  courseId : String
  deriving DecidableEq, Repr

/-- The `alert` state set by `showAlert(type, message)`. -/
structure Alert where
  type : String
  message : JSVal
  deriving DecidableEq, Repr

/-- State of the `AdminDashboard` component. -/
structure AdminState where
  activeTab : String
  departments : List Department
  courses : List Course
  students : List Student
  teachers : List TeacherRow
  loading : Bool
  deptForm : DeptForm
  deptLoading : Bool
  courseForm : CourseForm
  courseLoading : Bool
  enrollForm : EnrollForm
  enrollLoading : Bool
  alert : Option Alert
  deriving DecidableEq, Repr

/-- What a handler of the admin dashboard leaves behind: the state, the
requests sent in order, the alerts shown in order (each is cleared again after
4 s) and the confirmation dialogs shown. -/
structure AdminResult where
  state : AdminState
  requests : List Request
  alerts : List Alert
  confirms : List String
  deriving DecidableEq, Repr

/-- The four requests of `fetchAll`. -/
def fetchAll.requests (env : Option String) (b : Browser) : List Request :=
  [adminAPI.getAllDepartments env b, adminAPI.getAllCourses env b,
    adminAPI.getAllStudents env b, adminAPI.getAllTeachers env b]

/-- `fetchAll`, run to completion: the state afterwards and the alerts shown.
It never rejects: a failure is caught and reported with an alert. -/
def fetchAll (st : AdminState) (outcome : FetchAllOutcome) : AdminState × List Alert :=
  match outcome with
  | .loaded server =>
    ({ st with departments := server.departments, courses := server.courses,
               students := server.students, teachers := server.teachers,
               loading := false }, [])
  | .failed =>
    ({ st with loading := false, alert := some ⟨"error", .str "Failed to load data"⟩ },
      [⟨"error", .str "Failed to load data"⟩])

/-- `handleCreateDept`, run to completion. -/
def handleCreateDept (env : Option String) (b : Browser) (st : AdminState)
    (create : AxiosOutcome) (refetch : FetchAllOutcome) : AdminResult :=
  let req := adminAPI.createDepartment env b
    [("departmentName", .str st.deptForm.departmentName),
      ("description", .str st.deptForm.description)]
  match create with
  | .ok _ =>
    let r := fetchAll { st with deptForm := { departmentName := "", description := "" } } refetch
    let done : Alert :=
      ⟨"success", .str ("Department \"" ++ st.deptForm.departmentName ++ "\" created!")⟩
    { state := { r.1 with alert := some done, deptLoading := false },
      requests := req :: fetchAll.requests env b, alerts := r.2 ++ [done], confirms := [] }
  | .error e =>
    let failed : Alert := ⟨"error", e.message.or (.str "Failed to create department")⟩
    { state := { st with alert := some failed, deptLoading := false },
      requests := [req], alerts := [failed], confirms := [] }

/-- `handleDeleteDept(id, name)`, run to completion; `confirmed` is the answer
to `window.confirm`. -/
def handleDeleteDept (env : Option String) (b : Browser) (st : AdminState) (id : Nat)
    (name : String) (confirmed : Bool) (delete : AxiosOutcome) (refetch : FetchAllOutcome) :
    AdminResult :=
  let question := "Delete department \"" ++ name ++ "\"?"
  if !confirmed then { state := st, requests := [], alerts := [], confirms := [question] }
  else
    let req := adminAPI.deleteDepartment env b (.num id)
    match delete with
    | .ok _ =>
      let r := fetchAll st refetch
      let done : Alert := ⟨"success", .str "Department deleted"⟩
      { state := { r.1 with alert := some done },
        requests := req :: fetchAll.requests env b, alerts := r.2 ++ [done],
        confirms := [question] }
    | .error _ =>
      let failed : Alert := ⟨"error", .str "Failed to delete department"⟩
      { state := { st with alert := some failed }, requests := [req], alerts := [failed],
        confirms := [question] }

/-- `handleCreateCourse`, run to completion. -/
def handleCreateCourse (env : Option String) (b : Browser) (st : AdminState)
    (create : AxiosOutcome) (refetch : FetchAllOutcome) : AdminResult :=
  let req := adminAPI.createCourse env b
    [("courseCode", .str st.courseForm.courseCode),
      ("courseName", .str st.courseForm.courseName),
      ("description", .str st.courseForm.description),
      ("credits", jsonNumber (parseInt st.courseForm.credits)),
      ("semester", .str st.courseForm.semester),
      ("teacherId", jsonNumber (parseInt st.courseForm.teacherId)),
      ("departmentId", jsonNumber (parseInt st.courseForm.departmentId))]
  match create with
  | .ok _ =>
    let blank : CourseForm :=
      { courseCode := "", courseName := "", description := "", credits := "", semester := "",
        teacherId := "", departmentId := "" }
    let r := fetchAll { st with courseForm := blank } refetch
    let done : Alert :=
      ⟨"success", .str ("Course \"" ++ st.courseForm.courseCode ++ "\" created!")⟩
    { state := { r.1 with alert := some done, courseLoading := false },
      requests := req :: fetchAll.requests env b, alerts := r.2 ++ [done], confirms := [] }
  | .error e =>
    let failed : Alert := ⟨"error", e.message.or (.str "Failed to create course")⟩
    { state := { st with alert := some failed, courseLoading := false },
      requests := [req], alerts := [failed], confirms := [] }

/-- `handleDeleteCourse(id, code)`, run to completion. -/
def handleDeleteCourse (env : Option String) (b : Browser) (st : AdminState) (id : Nat)
    (code : String) (confirmed : Bool) (delete : AxiosOutcome) (refetch : FetchAllOutcome) :
    AdminResult :=
  let question := "Delete course \"" ++ code ++ "\"?"
  if !confirmed then { state := st, requests := [], alerts := [], confirms := [question] }
  else
    let req := adminAPI.deleteCourse env b (.num id)
    match delete with
    | .ok _ =>
      let r := fetchAll st refetch
      let done : Alert := ⟨"success", .str "Course deleted"⟩
      { state := { r.1 with alert := some done },
        requests := req :: fetchAll.requests env b, alerts := r.2 ++ [done],
        confirms := [question] }
    | .error _ =>
      let failed : Alert := ⟨"error", .str "Failed to delete course"⟩
      { state := { st with alert := some failed }, requests := [req], alerts := [failed],
        confirms := [question] }

/-- `handleEnroll` of the admin dashboard, run to completion. -/
def AdminDashboard.handleEnroll (env : Option String) (b : Browser) (st : AdminState)
    (enroll : AxiosOutcome) : AdminResult :=
  let req := adminAPI.enrollStudent env b
    [("studentId", jsonNumber (parseInt st.enrollForm.studentId)),
      ("courseId", jsonNumber (parseInt st.enrollForm.courseId))]
  match enroll with
  | .ok _ =>
    let done : Alert := ⟨"success", .str "Student enrolled successfully!"⟩
    { state := { st with enrollForm := { studentId := "", courseId := "" },
                         alert := some done, enrollLoading := false },
      requests := [req], alerts := [done], confirms := [] }
  | .error e =>
    let failed : Alert := ⟨"error", e.message.or (.str "Enrollment failed")⟩
    { state := { st with alert := some failed, enrollLoading := false },
      requests := [req], alerts := [failed], confirms := [] }

/-! ## `StudentDashboard.jsx`: marking attendance -/

/-- The `scanResult` state. -/
structure ScanResult where
  type : String
  message : String
  deriving DecidableEq, Repr

/-- State of the `StudentDashboard` component; `scannerStarted` stands for the
two refs of the camera scanner. -/
structure StudentState where
  activeTab : String
  enrolledCourses : List Course
  availableCourses : List Course
  attendanceHistory : List AttendanceRecord
  selectedCourse : Option Course
  loading : Bool
  enrollingId : Option JSVal
  showScanner : Bool
  scanResult : Option ScanResult
  manualToken : String
  scannerStarted : Bool
  deriving DecidableEq, Repr

/-- The constant `studentId = user.studentId || user.userId`. -/
def StudentDashboard.studentId (user : User) : JSVal := user.studentId.or user.userId

/-- The three requests `fetchData` sends. -/
def fetchData.requests (env : Option String) (b : Browser) (user : User) : List Request :=
  [studentAPI.getEnrolledCourses env b (StudentDashboard.studentId user),
    studentAPI.getAvailableCourses env b (StudentDashboard.studentId user),
    studentAPI.getAttendanceHistory env b (StudentDashboard.studentId user)]

/-- What a scan or a manual submission leaves behind. -/
structure MarkResult where
  state : StudentState
  requests : List Request
  deriving DecidableEq, Repr

/-- `handleAttendanceMark(token)`, run until its promise has settled.  After a
success `fetchData()` has been started (not awaited): its three requests are
out and `loading` is set. -/
def handleAttendanceMark (env : Option String) (b : Browser) (user : User)
    (st : StudentState) (token : String) (outcome : AxiosOutcome) : MarkResult :=
  let req := studentAPI.markAttendance env b
    [("qrToken", .str token), ("studentId", StudentDashboard.studentId user)]
  let failed (message : JSVal) : MarkResult :=
    { state := { st with scanResult := some ⟨"error", "❌ " ++ message.toStr⟩ },
      requests := [req] }
  let marked (courseName status : JSVal) : MarkResult :=
    { state := { st with
        scanResult := some ⟨"success",
          "✅ Attendance marked! Course: " ++ courseName.toStr ++ " | Status: " ++ status.toStr⟩,
        loading := true },
      requests := req :: fetchData.requests env b user }
  match outcome with
  | .ok (.object data) => marked (getProp data "courseName") (getProp data "status")
  | .ok .unparseable => marked .undefined .undefined
  | .ok .null => failed (.str "Failed to mark attendance")
  | .error e => failed (e.message.or (.str "Failed to mark attendance"))

/-- `stopScanner()`: when the scanner runs and stopping it succeeds, the refs
are reset; a failure to stop is swallowed. -/
def stopScanner (stopSucceeds : Bool) (st : StudentState) : StudentState :=
  if st.scannerStarted && stopSucceeds then { st with scannerStarted := false } else st

/-- The success callback of the camera scanner:
`(decodedText) => { handleAttendanceMark(decodedText); stopScanner(); }`. -/
def onScanDecoded (env : Option String) (b : Browser) (user : User) (st : StudentState)
    (decodedText : String) (stopSucceeds : Bool) (outcome : AxiosOutcome) : MarkResult :=
  let r := handleAttendanceMark env b user st decodedText outcome
  { r with state := stopScanner stopSucceeds r.state }

/-- The `onClick` of the manual Submit button. -/
def onManualSubmit (env : Option String) (b : Browser) (user : User) (st : StudentState)
    (outcome : AxiosOutcome) : MarkResult :=
  handleAttendanceMark env b user st st.manualToken outcome

/-- The `onKeyDown` of the manual token input. -/
def onManualKeyDown (env : Option String) (b : Browser) (user : User) (st : StudentState)
    (key : String) (outcome : AxiosOutcome) : MarkResult :=
  if key = "Enter" then handleAttendanceMark env b user st st.manualToken outcome
  else { state := st, requests := [] }

/-! ## `TeacherDashboard.jsx`: polling, generating and selecting a course -/

/-- How the attendance poll settles: with the list in `response.data`, or
rejected with an error. -/
inductive PollOutcome where
  | loaded (data : List AttendanceRecord)
  | failed (e : AxiosError)
  deriving DecidableEq, Repr

/-- The updater `prev => ({ ...prev, totalScans: n })`. -/
def withTotalScans (n : Nat) (prev : Option ActiveSession) : Option ActiveSession :=
  some { (prev.getD ActiveSession.empty) with totalScans := some n }

/-- The state updates of `fetchSessionAttendance` once its call has settled,
applied to the state of that moment (`setActiveSession` is given an updater).
A rejected call is only logged to the console. -/
def fetchSessionAttendance (outcome : PollOutcome) (st : TeacherState) : TeacherState :=
  match outcome with
  | .loaded data =>
    { st with sessionAttendance := data,
              activeSession := withTotalScans data.length st.activeSession }
  | .failed _ => st

/-- How the generate call settles: with the session in `response.data`, or
rejected with an error. -/
inductive GenerateOutcome where
  | created (session : ActiveSession)
  | failed (e : AxiosError)
  deriving DecidableEq, Repr

/-- What `handleGenerateQR` leaves behind: the state, the request sent and the
native alerts shown. -/
structure GenerateResult where
  state : TeacherState
  requests : List Request
  alerts : List JSVal
  deriving DecidableEq, Repr

/-- `handleGenerateQR`, run to completion against the outcome of the generate
call; the `finally` block resets `generating`. -/
def handleGenerateQR (env : Option String) (b : Browser) (st : TeacherState)
    (outcome : GenerateOutcome) : GenerateResult :=
  match st.selectedCourse with
  | none => { state := st, requests := [], alerts := [] }
  | some selectedCourse =>
    let req := teacherAPI.generateQR env b
      [("courseId", .num selectedCourse.id),
        ("sessionName", .str st.qrForm.sessionName),
        ("durationMinutes", jsonNumber (parseInt st.qrForm.durationMinutes))]
    match outcome with
    | .created session =>
      { state := { st with activeSession := some session, sessionAttendance := [],
                           qrForm := { sessionName := "", durationMinutes := "5",
                                       location := some "" },
                           generating := false },
        requests := [req], alerts := [] }
    | .failed e =>
      { state := { st with generating := false }, requests := [req],
        alerts := [e.message.or (.str "Failed to generate QR code")] }

/-- The click handler `handleCourseSelect(course)`. -/
def handleCourseSelect (course : Course) (st : TeacherState) : TeacherState :=
  { st with selectedCourse := some course, activeSession := none, sessionAttendance := [] }

/-- The state updates of `handleDeactivate` after its awaited call has settled,
applied to the state of that moment; the guard `if (!activeSession) return` was
evaluated when the handler started. -/
def handleDeactivate.settled (outcome : AxiosOutcome) (st : TeacherState) : TeacherState :=
  match outcome with
  | .ok _ => { st with activeSession := markInactive st.activeSession, timeLeft := some "Ended" }
  | .error _ => st

/-- The dashboard after a click on a course. -/
def Teacher.courseSelect (course : Course) (d : Teacher) : Teacher :=
  d.render (handleCourseSelect course d.st)

/-- The dashboard after `handleGenerateQR` has settled. -/
def Teacher.generate (env : Option String) (b : Browser) (outcome : GenerateOutcome)
    (d : Teacher) : Teacher :=
  d.render (handleGenerateQR env b d.st outcome).state

/-- The dashboard after a poll request has settled. -/
def Teacher.pollSettled (outcome : PollOutcome) (d : Teacher) : Teacher :=
  d.render (fetchSessionAttendance outcome d.st)

/-- The dashboard after a pending deactivate call has settled. -/
def Teacher.deactivateSettled (outcome : AxiosOutcome) (d : Teacher) : Teacher :=
  d.render (handleDeactivate.settled outcome d.st)

/-- Value of a string of decimal digits, most significant digit first. -/
def decimalValue (cs : List Char) : Nat :=
  cs.foldl (fun v c => 10 * v + (c.toNat - 48)) 0

/-! ## `StudentDashboard.jsx`: overall percentage and bar colour -/

/-- The function `getBarColor(p)`. -/
def getBarColor (p : Int) : String :=
  if p ≥ 75 then "fill-green" else if p ≥ 50 then "fill-orange" else "fill-red"

/-- The value `overallPct` of `StudentDashboard`, over the component's
`attendanceHistory` state. -/
def overallPct (attendanceHistory : List AttendanceRecord) : Int :=
  let presentCount :=
    (attendanceHistory.filter (fun a => a.status == "PRESENT" || a.status == "LATE")).length
  if h : attendanceHistory.length > 0 then
    Math.round
      (Double.mul
        (Double.div (Double.ofNat presentCount) (Double.ofNat attendanceHistory.length)
          (by simp only [Double.ofNat]; omega))
        (Double.ofNat 100))
  else 0

/-- The `width` style of the attendance bar for a percentage. -/
def barWidth (pct : Int) : String := toString pct ++ "%"

/-- The order of the bar colours in the words of the specification: red is
worse than orange, orange is worse than green. -/
def colourRank (colour : String) : Nat :=
  if colour = "fill-green" then 2 else if colour = "fill-orange" then 1 else 0

/-! ## `App.js`: the route table of the second entry file -/

/-- The `<Routes>` table of `App.js`, in source order. -/
def AppJs.routes : List (String × RouteElement) :=
  [ ("/login", .page .Login),
    ("/register", .page .Register),
    ("/student/dashboard", .protectedRoute [.str "STUDENT"] .StudentDashboard),
    ("/teacher/dashboard", .protectedRoute [.str "TEACHER"] .TeacherDashboard),
    ("/admin/dashboard", .protectedRoute [.str "ADMIN"] .AdminDashboard),
    ("/", .navigateTo "/login"),
    ("*", .navigateTo "/login") ]

/-- The element `App.js` selects for a location: the route whose path is the
location, otherwise the catch-all `*` route. -/
def AppJs.element (path : String) : RouteElement :=
  match AppJs.routes.find? (fun r => r.1 == path) with
  | some r => r.2
  | none => .navigateTo "/login"

/-- The acceptance rule of the registration form in the words of the
specification: what has to hold for `validate` to report no error. -/
def Register.SpecValid (fd : FormData) (role : String) : Prop :=
  jsTrim fd.fullName ≠ "" ∧
  ContainsEmailShape fd.email.data ∧
  8 ≤ jsLength fd.password ∧
  fd.confirmPassword ≠ "" ∧ fd.confirmPassword = fd.password ∧
  fd.departmentId ≠ "" ∧ fd.phoneNumber ≠ "" ∧
  (role = "STUDENT" → jsTrim fd.studentId ≠ "" ∧ fd.yearOfStudy ≠ "") ∧
  (role = "TEACHER" → jsTrim fd.employeeId ≠ "")

/-! ## Concrete inputs -/

/-- A registration form with all fields filled in correctly for a student. -/
def sampleForm : FormData :=
  { email := "ann@school.edu", password := "12345678", confirmPassword := "12345678",
    fullName := "Ann Lee", studentId := "S-17", yearOfStudy := "2", departmentId := "1",
    phoneNumber := "5550100", employeeId := "" }

/-- A `Register` state holding the given form for the given role. -/
def registerState (role : String) (fd : FormData) : RegisterState :=
  { role := role, formData := fd, errors := [], apiError := .str "", success := "",
    loading := false }

/-- A `Login` state with credentials typed in. -/
def sampleLogin : LoginState :=
  { email := "ann@school.edu", password := "12345678", apiError := .str "",
    loading := false, showPassword := false }

/-- The auth context before anybody has logged in. -/
def loggedOut : AuthState := { user := none, token := .null, loading := false }

/-- An attendance record of the given course with the given status. -/
def attendanceOf (courseId : Nat) (status : String) : AttendanceRecord :=
  { id := 0, courseId := courseId, courseCode := "CS101", sessionName := "Lecture",
    markedAt := "2024-01-15T09:00:00", status := status }

/-- The history of the specification's example: 3 PRESENT and 1 ABSENT record
of course 7. -/
def exampleHistory : List AttendanceRecord :=
  List.replicate 3 (attendanceOf 7 "PRESENT") ++ [attendanceOf 7 "ABSENT"]

/-- A history with 23 PRESENT and 17 ABSENT records of course 7: exactly 57.5 %. -/
def tieHistory : List AttendanceRecord :=
  List.replicate 23 (attendanceOf 7 "PRESENT") ++ List.replicate 17 (attendanceOf 7 "ABSENT")

/-- A teacher dashboard showing an active session that expires at the given
time value. -/
def teacherWithSession (expiry : Int) : TeacherState :=
  { courses := [], selectedCourse := none,
    activeSession := some
      { sessionId := some 1, courseId := some 7, courseName := some "Algorithms",
        sessionName := some "Lecture", qrCodeImage := some "data:image/png;base64,",
        expiryTime := some expiry, isActive := some true, totalScans := some 0 },
    sessionAttendance := [], loading := false, generating := false, timeLeft := none,
    qrForm := { sessionName := "", durationMinutes := "5", location := none } }

/-- An administrator session used as a concrete input. -/
def adminAuth : AuthState :=
  { user := some { userId := .num 1, studentId := .null, teacherId := .null,
                   email := .str "admin@school.edu", fullName := .str "Admin",
                   role := .str "ADMIN" },
    token := .str "t", loading := false }

/-- A student session used as a concrete input. -/
def studentAuth : AuthState :=
  { user := some { userId := .num 7, studentId := .num 3, teacherId := .null,
                   email := .str "s@school.edu", fullName := .str "Sam",
                   role := .str "STUDENT" },
    token := .str "t", loading := false }

/-- A browser in which a session token is stored. -/
def browserWithToken : Browser :=
  { localStorage := [("token", "jwt-123"), ("user", "ann")], location := "/student/dashboard" }

/-- The teacher dashboard before any session was generated. -/
def teacherIdle : TeacherState :=
  { courses := [], selectedCourse := none, activeSession := none, sessionAttendance := [],
    loading := false, generating := false, timeLeft := none,
    qrForm := { sessionName := "", durationMinutes := "5", location := none } }

/-- The mounted teacher dashboard right after a session with the given expiry
was generated: both effects have run for the new session. -/
def dashboardAfterGenerate (expiry : Int) : Teacher :=
  Teacher.render { st := teacherIdle, timers := { countdown := none, poll := none } }
    (teacherWithSession expiry)

/-- An error response of the server that carries a message. -/
def conflictError : AxiosError :=
  .response 409 (.object [("message", .str "Department still has courses")])

/-- An admin dashboard with one department and one student loaded. -/
def adminLoaded : AdminState :=
  { activeTab := "departments",
    departments := [{ id := 3, departmentName := "Physics", description := "", totalCourses := 0 }],
    courses := [{ id := 7, courseCode := "CS101", courseName := "Algorithms" }],
    students := [{ id := 5, studentId := "S-17", fullName := "Ann Lee",
                   email := "ann@school.edu", departmentName := "Physics", yearOfStudy := 2,
                   totalEnrolledCourses := 0 }],
    teachers := [], loading := false,
    deptForm := { departmentName := "", description := "" }, deptLoading := false,
    courseForm := { courseCode := "", courseName := "", description := "", credits := "",
                    semester := "", teacherId := "", departmentId := "" },
    courseLoading := false,
    enrollForm := { studentId := "5", courseId := "7" }, enrollLoading := false,
    alert := none }

/-- The student dashboard with the scanner open and a token typed in. -/
def studentScanning (token : String) : StudentState :=
  { activeTab := "enrolled", enrolledCourses := [], availableCourses := [],
    attendanceHistory := [], selectedCourse := none, loading := false, enrollingId := none,
    showScanner := true, scanResult := none, manualToken := token, scannerStarted := true }

/-- The user object of a logged-in student. -/
def studentUser : User :=
  { userId := .num 7, studentId := .num 3, teacherId := .null,
    email := .str "s@school.edu", fullName := .str "Sam", role := .str "STUDENT" }

/-- The server's collections after student 5 was enrolled in a course: the
student's count of enrolled courses went up. -/
def serverAfterEnroll : Collections :=
  { departments := adminLoaded.departments, courses := adminLoaded.courses,
    students := [{ id := 5, studentId := "S-17", fullName := "Ann Lee",
                   email := "ann@school.edu", departmentName := "Physics", yearOfStudy := 2,
                   totalEnrolledCourses := 1 }],
    teachers := [] }

/-- A course of the teacher used as a concrete input. -/
def algorithms : Course := { id := 7, courseCode := "CS201", courseName := "Algorithms" }

/-- Another course of the teacher. -/
def databases : Course := { id := 8, courseCode := "CS202", courseName := "Databases" }

/-- The session the server returns for a generate call: active, with the given
id and expiry. -/
def serverSession (sessionId : Nat) (expiry : Int) : ActiveSession :=
  { sessionId := some sessionId, courseId := some 7, courseName := some "Algorithms",
    sessionName := some "Lecture", qrCodeImage := some "iVBORw0KGgo=",
    expiryTime := some expiry, isActive := some true, totalScans := some 0 }

/-- The mounted dashboard with its courses loaded and nothing selected. -/
def dashboardIdle : Teacher :=
  { st := teacherIdle, timers := { countdown := none, poll := none } }

/-- The dashboard after the teacher picked a course and generated session 1,
which expires at time value 60000. -/
def dashboardFirstSession : Teacher :=
  (dashboardIdle.courseSelect algorithms).generate none browserWithToken
    (.created (serverSession 1 60000))

/-- Two scans as returned by the attendance poll. -/
def twoScans : List AttendanceRecord := [attendanceOf 7 "PRESENT", attendanceOf 7 "LATE"]

/-! ## Route guard: checked properties -/

/-- C1 (the code departs from the claim): a logged-in ADMIN whose role is not in
the allow-list `['TEACHER']` is nevertheless given the protected children, so
the children are rendered to a user outside the allow-list. -/
theorem ProtectedRoute_admin_gets_teacher_children :
    ProtectedRoute adminAuth (some [.str "TEACHER"]) Page.TeacherDashboard
        = .children Page.TeacherDashboard
      ∧ includes [.str "TEACHER"] (.str "ADMIN") = false
      ∧ adminAuth.user.map (fun u => u.role) = some (.str "ADMIN") := by
  decide

/-- C2 (the code departs from the claim): for a logged-in ADMIN at the student
route (allow-list `['STUDENT']`) the guard issues no redirect to
`/admin/dashboard`; it renders the student dashboard instead. -/
theorem App_admin_at_student_route_not_redirected :
    App.render adminAuth "/student/dashboard" ≠ .navigate "/admin/dashboard"
      ∧ App.render adminAuth "/student/dashboard" = .children Page.StudentDashboard := by
  decide

/-- C3: a logged-in user with role STUDENT at `/teacher/dashboard` (allow-list
`['TEACHER']`) is redirected to `/student/dashboard`, and the teacher dashboard
is not rendered. -/
theorem App_student_at_teacher_dashboard (auth : AuthState) (user : User)
    (hload : auth.loading = false) (huser : auth.user = some user)
    (hrole : user.role = .str "STUDENT") :
    App.element "/teacher/dashboard" = .protectedRoute [.str "TEACHER"] .TeacherDashboard
      ∧ App.render auth "/teacher/dashboard" = .navigate "/student/dashboard"
      ∧ App.render auth "/teacher/dashboard" ≠ .children Page.TeacherDashboard := by
  have he : App.element "/teacher/dashboard"
      = .protectedRoute [.str "TEACHER"] .TeacherDashboard := by decide
  have h : App.render auth "/teacher/dashboard" = .navigate "/student/dashboard" := by
    simp [App.render, he, RouteElement.render, ProtectedRoute, hload, huser, hrole, includes]
  exact ⟨he, h, by rw [h]; exact fun h' => Rendered.noConfusion h'⟩

/-- Witness for C3 at a concrete student session. -/
theorem App_student_at_teacher_dashboard_witness :
    App.render studentAuth "/teacher/dashboard" = .navigate "/student/dashboard"
      ∧ App.render studentAuth "/teacher/dashboard" ≠ .children Page.TeacherDashboard :=
  (App_student_at_teacher_dashboard studentAuth
    { userId := .num 7, studentId := .num 3, teacherId := .null,
      email := .str "s@school.edu", fullName := .str "Sam", role := .str "STUDENT" }
    rfl rfl rfl).2

/-- C4: for every allow-list (also a missing one) and every children, once
loading has finished and there is no user the guard returns the redirect to
`/login`; it is neither the children nor a dashboard redirect. -/
theorem ProtectedRoute_no_user_redirects_to_login {α : Type} (auth : AuthState)
    (allowedRoles : Option (List JSVal)) (children : α)
    (hload : auth.loading = false) (huser : auth.user = none) :
    ProtectedRoute auth allowedRoles children = .navigate "/login"
      ∧ (∀ c : α, ProtectedRoute auth allowedRoles children ≠ .children c)
      ∧ ProtectedRoute auth allowedRoles children ≠ .navigate "/student/dashboard"
      ∧ ProtectedRoute auth allowedRoles children ≠ .navigate "/teacher/dashboard"
      ∧ ProtectedRoute auth allowedRoles children ≠ .navigate "/admin/dashboard" := by
  have h : ProtectedRoute auth allowedRoles children = .navigate "/login" := by
    simp [ProtectedRoute, hload, huser]
  rw [h]
  refine ⟨rfl, fun c h' => Rendered.noConfusion h', ?_, ?_, ?_⟩ <;>
    · intro h'
      injection h' with h''
      exact absurd h'' (by decide)

/-- Witness for C4: no user, loading finished, allow-list `['ADMIN']`. -/
theorem ProtectedRoute_no_user_redirects_to_login_witness :
    ProtectedRoute { user := none, token := .null, loading := false }
        (some [.str "ADMIN"]) Page.AdminDashboard = .navigate "/login" :=
  (ProtectedRoute_no_user_redirects_to_login
    { user := none, token := .null, loading := false }
    (some [.str "ADMIN"]) Page.AdminDashboard rfl rfl).1

/-! ## Regular expression matching: correctness of the derivative matcher -/

theorem Regex.matches_seq_iff {r s : Regex} {x : List Char} :
    Regex.Matches (.seq r s) x ↔
      ∃ u v, x = u ++ v ∧ Regex.Matches r u ∧ Regex.Matches s v := by
  constructor
  · intro h
    cases h with
    | seq h1 h2 => exact ⟨_, _, rfl, h1, h2⟩
  · rintro ⟨u, v, rfl, h1, h2⟩
    exact .seq h1 h2

theorem Regex.matches_alt_iff {r s : Regex} {x : List Char} :
    Regex.Matches (.alt r s) x ↔ Regex.Matches r x ∨ Regex.Matches s x := by
  constructor
  · intro h
    cases h with
    | altLeft h1 => exact Or.inl h1
    | altRight h1 => exact Or.inr h1
  · rintro (h | h)
    · exact .altLeft h
    · exact .altRight h

theorem Regex.matches_cls_iff {p : Char → Bool} {x : List Char} :
    Regex.Matches (.cls p) x ↔ ∃ c, x = [c] ∧ p c = true := by
  constructor
  · intro h
    cases h with
    | cls _ c hc => exact ⟨c, rfl, hc⟩
  · rintro ⟨c, rfl, hc⟩
    exact .cls p c hc

theorem Regex.matches_eps_iff {x : List Char} : Regex.Matches .eps x ↔ x = [] := by
  constructor
  · intro h
    cases h
    rfl
  · rintro rfl
    exact .eps

theorem Regex.not_matches_nothing {x : List Char} : ¬ Regex.Matches .nothing x := by
  intro h
  cases h

theorem Regex.nullable_of_matches {r : Regex} {x : List Char} (h : Regex.Matches r x) :
    x = [] → r.nullable = true := by
  induction h with
  | eps => intro _; rfl
  | cls p c hc => intro h; cases h
  | seq _ _ ih1 ih2 =>
    intro h
    rw [List.append_eq_nil] at h
    simp [Regex.nullable, ih1 h.1, ih2 h.2]
  | altLeft _ ih => intro h; simp [Regex.nullable, ih h]
  | altRight _ ih => intro h; simp [Regex.nullable, ih h]
  | starNil => intro _; rfl
  | starCons _ _ _ _ => intro _; rfl

theorem Regex.nullable_iff (r : Regex) : r.nullable = true ↔ Regex.Matches r [] := by
  constructor
  · intro h
    induction r with
    | nothing => simp [Regex.nullable] at h
    | eps => exact .eps
    | cls p => simp [Regex.nullable] at h
    | seq r s ihr ihs =>
      simp only [Regex.nullable, Bool.and_eq_true] at h
      exact .seq (u := []) (v := []) (ihr h.1) (ihs h.2)
    | alt r s ihr ihs =>
      simp only [Regex.nullable, Bool.or_eq_true] at h
      rcases h with h | h
      · exact .altLeft (ihr h)
      · exact .altRight (ihs h)
    | star r _ => exact .starNil
  · intro h
    exact Regex.nullable_of_matches h rfl

/-- A non-empty match of `r*` starts with a non-empty match of `r`. -/
theorem Regex.star_cons_inv {e : Regex} {x : List Char} (h : Regex.Matches e x) :
    ∀ (r : Regex) (c : Char) (w : List Char), e = .star r → x = c :: w →
      ∃ u v, w = u ++ v ∧ Regex.Matches r (c :: u) ∧ Regex.Matches (.star r) v := by
  induction h with
  | eps => intro r c w he; cases he
  | cls p c hc => intro r c w he; cases he
  | seq _ _ _ _ => intro r c w he; cases he
  | altLeft _ _ => intro r c w he; cases he
  | altRight _ _ => intro r c w he; cases he
  | starNil => intro r c w _ hx; cases hx
  | @starCons r0 u v h1 h2 _ ih2 =>
    intro r c w he hx
    cases he
    cases u with
    | nil => exact ih2 r0 c w rfl (by simpa using hx)
    | cons a u' =>
      simp only [List.cons_append, List.cons.injEq] at hx
      obtain ⟨rfl, rfl⟩ := hx
      exact ⟨u', v, rfl, h1, h2⟩

theorem Regex.deriv_iff (r : Regex) (c : Char) :
    ∀ w : List Char, Regex.Matches (r.deriv c) w ↔ Regex.Matches r (c :: w) := by
  induction r with
  | nothing =>
    intro w
    exact ⟨fun h => absurd h Regex.not_matches_nothing,
      fun h => absurd h Regex.not_matches_nothing⟩
  | eps =>
    intro w
    constructor
    · intro h; exact absurd h Regex.not_matches_nothing
    · intro h; cases h
  | cls p =>
    intro w
    simp only [Regex.deriv]
    constructor
    · intro h
      by_cases hp : p c = true
      · rw [if_pos hp, Regex.matches_eps_iff] at h
        subst h
        exact .cls p c hp
      · rw [if_neg hp] at h
        exact absurd h Regex.not_matches_nothing
    · intro h
      rw [Regex.matches_cls_iff] at h
      obtain ⟨d, hd, hp⟩ := h
      simp only [List.cons.injEq] at hd
      obtain ⟨rfl, rfl⟩ := hd
      rw [if_pos hp]
      exact .eps
  | seq r s ihr ihs =>
    intro w
    have key : Regex.Matches (.seq r s) (c :: w) ↔
        (Regex.Matches (.seq (r.deriv c) s) w ∨
          (r.nullable = true ∧ Regex.Matches (s.deriv c) w)) := by
      constructor
      · intro h
        rw [Regex.matches_seq_iff] at h
        obtain ⟨u, v, huv, h1, h2⟩ := h
        cases u with
        | nil =>
          simp only [List.nil_append] at huv
          subst huv
          exact Or.inr ⟨(Regex.nullable_iff r).2 h1, (ihs w).2 h2⟩
        | cons a u' =>
          simp only [List.cons_append, List.cons.injEq] at huv
          obtain ⟨rfl, rfl⟩ := huv
          exact Or.inl (.seq ((ihr u').2 h1) h2)
      · rintro (h | ⟨hn, h⟩)
        · rw [Regex.matches_seq_iff] at h
          obtain ⟨u, v, rfl, h1, h2⟩ := h
          have := Regex.Matches.seq ((ihr u).1 h1) h2
          simpa using this
        · have := Regex.Matches.seq ((Regex.nullable_iff r).1 hn) ((ihs w).1 h)
          simpa using this
    rw [key]
    simp only [Regex.deriv]
    by_cases hn : r.nullable = true
    · rw [if_pos hn, Regex.matches_alt_iff]
      simp [hn]
    · rw [if_neg hn]
      simp [hn]
  | alt r s ihr ihs =>
    intro w
    simp only [Regex.deriv, Regex.matches_alt_iff, ihr w, ihs w]
  | star r ih =>
    intro w
    simp only [Regex.deriv]
    constructor
    · intro h
      rw [Regex.matches_seq_iff] at h
      obtain ⟨u, v, rfl, h1, h2⟩ := h
      have := Regex.Matches.starCons ((ih u).1 h1) h2
      simpa using this
    · intro h
      obtain ⟨u, v, rfl, h1, h2⟩ := Regex.star_cons_inv h r c w rfl rfl
      exact .seq ((ih u).2 h1) h2

theorem Regex.matchPrefix_iff (s : List Char) :
    ∀ r : Regex, r.matchPrefix s = true ↔ ∃ u v, s = u ++ v ∧ Regex.Matches r u := by
  induction s with
  | nil =>
    intro r
    simp only [Regex.matchPrefix, Regex.nullable_iff]
    constructor
    · intro h; exact ⟨[], [], rfl, h⟩
    · rintro ⟨u, v, huv, h⟩
      have hu : u = [] := (List.append_eq_nil.1 huv.symm).1
      subst hu
      exact h
  | cons c cs ih =>
    intro r
    simp only [Regex.matchPrefix, Bool.or_eq_true, Regex.nullable_iff, ih]
    constructor
    · rintro (h | ⟨u, v, rfl, h⟩)
      · exact ⟨[], c :: cs, rfl, h⟩
      · exact ⟨c :: u, v, rfl, (Regex.deriv_iff r c u).1 h⟩
    · rintro ⟨u, v, huv, h⟩
      cases u with
      | nil => exact Or.inl h
      | cons a u' =>
        simp only [List.cons_append, List.cons.injEq] at huv
        obtain ⟨rfl, rfl⟩ := huv
        exact Or.inr ⟨u', v, rfl, (Regex.deriv_iff r c u').2 h⟩

/-- The matcher `test` finds exactly the inputs that contain a match. -/
theorem Regex.test_iff (r : Regex) (s : List Char) :
    r.test s = true ↔ ∃ pre u post, s = pre ++ u ++ post ∧ Regex.Matches r u := by
  induction s with
  | nil =>
    simp only [Regex.test, Regex.matchPrefix_iff]
    constructor
    · rintro ⟨u, v, huv, h⟩
      exact ⟨[], u, v, by simpa using huv, h⟩
    · rintro ⟨pre, u, post, hs, h⟩
      have h1 := List.append_eq_nil.1 hs.symm
      have h2 := List.append_eq_nil.1 h1.1
      exact ⟨u, [], by simp [h2.2], h⟩
  | cons c cs ih =>
    simp only [Regex.test, Bool.or_eq_true, Regex.matchPrefix_iff, ih]
    constructor
    · rintro (⟨u, v, huv, h⟩ | ⟨pre, u, post, rfl, h⟩)
      · exact ⟨[], u, v, by simpa using huv, h⟩
      · exact ⟨c :: pre, u, post, by simp, h⟩
    · rintro ⟨pre, u, post, hs, h⟩
      cases pre with
      | nil => exact Or.inl ⟨u, post, by simpa using hs, h⟩
      | cons a pre' =>
        simp only [List.cons_append, List.cons.injEq] at hs
        obtain ⟨rfl, rfl⟩ := hs
        exact Or.inr ⟨pre', u, post, rfl, h⟩

theorem Regex.star_cls_forall {e : Regex} {x : List Char} (h : Regex.Matches e x) :
    ∀ p : Char → Bool, e = .star (.cls p) → ∀ c ∈ x, p c = true := by
  induction h with
  | eps => intro p he; cases he
  | cls p c hc => intro q he; cases he
  | seq _ _ _ _ => intro p he; cases he
  | altLeft _ _ => intro p he; cases he
  | altRight _ _ => intro p he; cases he
  | starNil => intro p _ c hc; cases hc
  | @starCons r0 u v h1 _ _ ih2 =>
    intro p he c hc
    cases he
    rw [Regex.matches_cls_iff] at h1
    obtain ⟨d, rfl, hd⟩ := h1
    rcases List.mem_append.1 hc with hc | hc
    · rw [List.mem_singleton] at hc
      rw [hc]
      exact hd
    · exact ih2 p rfl c hc

theorem Regex.matches_star_cls_iff (p : Char → Bool) (w : List Char) :
    Regex.Matches (.star (.cls p)) w ↔ ∀ c ∈ w, p c = true := by
  constructor
  · intro h
    exact Regex.star_cls_forall h p rfl
  · intro h
    induction w with
    | nil => exact .starNil
    | cons a w ih =>
      have h1 : Regex.Matches (.cls p) [a] := .cls p a (h a (List.mem_cons_self a w))
      have h2 := ih (fun c hc => h c (List.mem_cons_of_mem a hc))
      exact Regex.Matches.starCons h1 h2

theorem Regex.matches_plus_nonSpace_iff (w : List Char) :
    Regex.Matches nonSpace.plus w ↔ NonSpaceRun w := by
  unfold Regex.plus nonSpace NonSpaceRun
  rw [Regex.matches_seq_iff]
  constructor
  · rintro ⟨u, v, rfl, h1, h2⟩
    rw [Regex.matches_cls_iff] at h1
    obtain ⟨d, rfl, hd⟩ := h1
    rw [Regex.matches_star_cls_iff] at h2
    refine ⟨by simp, ?_⟩
    intro c hc
    rcases List.mem_append.1 hc with hc | hc
    · rw [List.mem_singleton] at hc
      subst hc
      simpa using hd
    · simpa using h2 c hc
  · rintro ⟨hne, hall⟩
    cases w with
    | nil => exact absurd rfl hne
    | cons a w =>
      refine ⟨[a], w, rfl, .cls _ a ?_, ?_⟩
      · simpa using hall a (List.mem_cons_self a w)
      · rw [Regex.matches_star_cls_iff]
        intro c hc
        simpa using hall c (List.mem_cons_of_mem a hc)

theorem Regex.matches_chr_iff (c : Char) (w : List Char) :
    Regex.Matches (.chr c) w ↔ w = [c] := by
  unfold Regex.chr
  rw [Regex.matches_cls_iff]
  constructor
  · rintro ⟨d, rfl, hd⟩
    simp only [beq_iff_eq] at hd
    rw [hd]
  · rintro rfl
    exact ⟨c, rfl, by simp⟩

theorem emailRegex_matches_iff (m : List Char) :
    Regex.Matches emailRegex m ↔
      ∃ a b c : List Char, m = a ++ '@' :: (b ++ '.' :: c) ∧
        NonSpaceRun a ∧ NonSpaceRun b ∧ NonSpaceRun c := by
  unfold emailRegex
  simp only [Regex.matches_seq_iff, Regex.matches_chr_iff, Regex.matches_plus_nonSpace_iff]
  constructor
  · rintro ⟨a, _, rfl, ha, _, _, rfl, rfl, b, _, rfl, hb, _, c, rfl, rfl, hc⟩
    exact ⟨a, b, c, by simp, ha, hb, hc⟩
  · rintro ⟨a, b, c, rfl, ha, hb, hc⟩
    exact ⟨a, _, rfl, ha, ['@'], _, rfl, rfl, b, _, rfl, hb, ['.'], c, rfl, rfl, hc⟩

/-- The email test of `validate` accepts exactly the texts of the shape the
specification describes. -/
theorem emailRegex_test_iff (s : List Char) :
    emailRegex.test s = true ↔ ContainsEmailShape s := by
  rw [Regex.test_iff]
  unfold ContainsEmailShape
  constructor
  · rintro ⟨pre, u, post, rfl, h⟩
    obtain ⟨a, b, c, rfl, ha, hb, hc⟩ := (emailRegex_matches_iff u).1 h
    exact ⟨pre, a, b, c, post, rfl, ha, hb, hc⟩
  · rintro ⟨pre, a, b, c, post, rfl, ha, hb, hc⟩
    exact ⟨pre, _, post, rfl, (emailRegex_matches_iff _).2 ⟨a, b, c, rfl, ha, hb, hc⟩⟩

/-! ## Registration form: checked properties -/

theorem Errors.assign_ne_nil (o : Errors) (k v : String) : Errors.assign o k v ≠ [] := by
  unfold Errors.assign
  split
  · rename_i h
    cases o with
    | nil => simp at h
    | cons a o => simp
  · simp

theorem Errors.get_ite (c : Prop) [Decidable c] (X Y : Errors) (k : String) :
    Errors.get (if c then X else Y) k = if c then Errors.get X k else Errors.get Y k := by
  by_cases h : c <;> simp [h]

theorem Errors.get_replace (o : Errors) (k' v k : String) :
    Errors.get (o.map (fun kv => if kv.1 == k' then (k', v) else kv)) k =
      if k' = k then (if o.any (fun kv => kv.1 == k') then some v else none)
      else Errors.get o k := by
  induction o with
  | nil => simp [Errors.get]
  | cons a o ih =>
    unfold Errors.get at ih ⊢
    rw [List.map_cons, List.any_cons]
    by_cases ha : a.1 = k'
    · have hb : (a.1 == k') = true := by simpa using ha
      rw [if_pos hb]
      by_cases hk : k' = k
      · rw [List.find?_cons_of_pos _ (by simpa using hk), if_pos hk, hb]
        simp
      · rw [List.find?_cons_of_neg _ (by simpa using hk), if_neg hk, ih, if_neg hk,
          List.find?_cons_of_neg _ (by simpa using fun h : a.1 = k => hk (ha ▸ h))]
    · have hb : ¬ (a.1 == k') = true := by simpa using ha
      rw [if_neg hb]
      by_cases hk : k' = k
      · have hak : ¬ a.1 = k := fun h => ha (hk ▸ h)
        have hb' : (a.1 == k') = false := by simpa using ha
        rw [List.find?_cons_of_neg _ (by simpa using hak), ih, if_pos hk, if_pos hk, hb',
          Bool.false_or]
      · rw [if_neg hk]
        by_cases hak : a.1 = k
        · rw [List.find?_cons_of_pos _ (by simpa using hak),
            List.find?_cons_of_pos _ (by simpa using hak)]
        · rw [List.find?_cons_of_neg _ (by simpa using hak),
            List.find?_cons_of_neg _ (by simpa using hak), ih, if_neg hk]

theorem Errors.get_append (o : Errors) (k' v k : String) :
    Errors.get (o ++ [(k', v)]) k = (Errors.get o k).or (if k' = k then some v else none) := by
  unfold Errors.get
  rw [List.find?_append]
  cases h : List.find? (fun kv => kv.1 == k) o with
  | some x => simp
  | none =>
    by_cases hk : k' = k
    · simp [hk]
    · simp [hk]

theorem Errors.get_of_not_any (o : Errors) (k : String)
    (h : ¬ (o.any (fun kv => kv.1 == k)) = true) : Errors.get o k = none := by
  unfold Errors.get
  rw [Option.map_eq_none', List.find?_eq_none]
  intro x hx hxk
  exact h (List.any_eq_true.2 ⟨x, hx, hxk⟩)

theorem Errors.get_assign (o : Errors) (k' v k : String) :
    Errors.get (Errors.assign o k' v) k = if k' = k then some v else Errors.get o k := by
  unfold Errors.assign
  by_cases hany : (o.any (fun kv => kv.1 == k')) = true
  · rw [if_pos hany, Errors.get_replace]
    by_cases hk : k' = k
    · subst hk
      simp [hany]
    · simp [hk]
  · rw [if_neg hany, Errors.get_append]
    by_cases hk : k' = k
    · rw [← hk, Errors.get_of_not_any o k' hany]
      simp
    · simp [hk]

theorem Errors.get_assign_same (o : Errors) (k v : String) :
    Errors.get (Errors.assign o k v) k = some v := by
  rw [Errors.get_assign, if_pos rfl]

theorem Errors.get_assign_ne (o : Errors) (k' v k : String) (h : k' ≠ k) :
    Errors.get (Errors.assign o k' v) k = Errors.get o k := by
  rw [Errors.get_assign, if_neg h]

/-- With differing passwords `validate` reports an error for `confirmPassword`. -/
theorem Register.validate_confirmPassword (fd : FormData) (role : String)
    (h : fd.password ≠ fd.confirmPassword) :
    (Register.validate fd role).get "confirmPassword" =
      some (if fd.confirmPassword = "" then "Please confirm your password"
            else "Passwords do not match") := by
  unfold Register.validate
  lift_lets
  intro e0 e1 e2 e3 e4 e5 e6 e7 e8 e9
  have h4 : e4.get "confirmPassword" =
      some (if fd.confirmPassword = "" then "Please confirm your password"
            else "Passwords do not match") := by
    simp only [e4, Errors.get_ite, Errors.get_assign_same, h, ne_eq, not_false_eq_true, if_true]
    split <;> rfl
  have h5 : e5.get "confirmPassword" = e4.get "confirmPassword" := by
    simp (disch := decide) only [e5, Errors.get_ite, Errors.get_assign_ne, ite_self]
  have h6 : e6.get "confirmPassword" = e5.get "confirmPassword" := by
    simp (disch := decide) only [e6, Errors.get_ite, Errors.get_assign_ne, ite_self]
  have h7 : e7.get "confirmPassword" = e6.get "confirmPassword" := by
    simp (disch := decide) only [e7, Errors.get_ite, Errors.get_assign_ne, ite_self]
  have h8 : e8.get "confirmPassword" = e6.get "confirmPassword" := by
    simp (disch := decide) only [e8, Errors.get_ite, Errors.get_assign_ne, ite_self, h7]
  have h9 : e9.get "confirmPassword" = e8.get "confirmPassword" := by
    simp (disch := decide) only [e9, Errors.get_ite, Errors.get_assign_ne, ite_self]
  rw [h9, h8, h6, h5, h4]

theorem jsLength_empty : jsLength "" = 0 := by decide

theorem ContainsEmailShape.ne_nil {s : List Char} (h : ContainsEmailShape s) : s ≠ [] := by
  obtain ⟨pre, a, b, c, post, rfl, ha, _, _⟩ := h
  intro hnil
  have h1 := (List.append_eq_nil.1 hnil).1
  have h2 := (List.append_eq_nil.1 h1).2
  exact ha.1 (List.append_eq_nil.1 h2).1

theorem Errors.step_eq_nil (c : Prop) [Decidable c] (o : Errors) (k v : String) :
    (if c then Errors.assign o k v else o) = [] ↔ ¬ c ∧ o = [] := by
  by_cases h : c
  · simp [h, Errors.assign_ne_nil]
  · simp [h]

theorem Errors.step2_eq_nil (c d : Prop) [Decidable c] [Decidable d] (o : Errors)
    (k v k' v' : String) :
    (if c then Errors.assign o k v else if d then Errors.assign o k' v' else o) = [] ↔
      ¬ c ∧ ¬ d ∧ o = [] := by
  by_cases h : c
  · simp [h, Errors.assign_ne_nil]
  · by_cases h' : d
    · simp [h, h', Errors.assign_ne_nil]
    · simp [h, h']

/-- `validate` reports no error exactly on the forms the specification accepts. -/
theorem Register.validate_eq_nil_iff (fd : FormData) (role : String) :
    Register.validate fd role = [] ↔ Register.SpecValid fd role := by
  have hemail : (¬ fd.email = "" ∧ ¬ (!emailRegex.test fd.email.data) = true) ↔
      ContainsEmailShape fd.email.data := by
    rw [← emailRegex_test_iff]
    constructor
    · intro h
      simpa using h.2
    · intro h
      refine ⟨?_, by simpa using h⟩
      intro he
      exact ((emailRegex_test_iff _).1 h).ne_nil (by rw [he])
  have hpw : (¬ fd.password = "" ∧ ¬ jsLength fd.password < 8) ↔ 8 ≤ jsLength fd.password := by
    constructor
    · intro h
      exact Nat.le_of_not_lt h.2
    · intro h
      refine ⟨?_, Nat.not_lt.2 h⟩
      intro he
      rw [he, jsLength_empty] at h
      exact absurd h (by decide)
  unfold Register.SpecValid Register.validate
  lift_lets
  intro e0 e1 e2 e3 e4 e5 e6 e7 e8 e9
  have h1 : e1 = [] ↔ ¬ jsTrim fd.fullName = "" ∧ e0 = [] := Errors.step_eq_nil _ _ _ _
  have h2 : e2 = [] ↔ ¬ fd.email = "" ∧ ¬ (!emailRegex.test fd.email.data) = true ∧ e1 = [] :=
    Errors.step2_eq_nil _ _ _ _ _ _ _
  have h3 : e3 = [] ↔ ¬ fd.password = "" ∧ ¬ jsLength fd.password < 8 ∧ e2 = [] :=
    Errors.step2_eq_nil _ _ _ _ _ _ _
  have h4 : e4 = [] ↔
      ¬ fd.confirmPassword = "" ∧ ¬ fd.password ≠ fd.confirmPassword ∧ e3 = [] :=
    Errors.step2_eq_nil _ _ _ _ _ _ _
  have h5 : e5 = [] ↔ ¬ fd.departmentId = "" ∧ e4 = [] := Errors.step_eq_nil _ _ _ _
  have h6 : e6 = [] ↔ ¬ fd.phoneNumber = "" ∧ e5 = [] := Errors.step_eq_nil _ _ _ _
  have h7 : e7 = [] ↔ ¬ jsTrim fd.studentId = "" ∧ e6 = [] := Errors.step_eq_nil _ _ _ _
  have h8 : e8 = [] ↔
      (role = "STUDENT" → ¬ jsTrim fd.studentId = "" ∧ ¬ fd.yearOfStudy = "") ∧ e6 = [] := by
    by_cases hr : role = "STUDENT"
    · have h8' : e8 = [] ↔ ¬ fd.yearOfStudy = "" ∧ e7 = [] := by
        show (if role = "STUDENT" then _ else _) = [] ↔ _
        rw [if_pos hr]
        exact Errors.step_eq_nil _ _ _ _
      rw [h8', h7]
      constructor
      · rintro ⟨a, b, c⟩
        exact ⟨fun _ => ⟨b, a⟩, c⟩
      · rintro ⟨a, c⟩
        exact ⟨(a hr).2, (a hr).1, c⟩
    · have h8' : e8 = e6 := by
        show (if role = "STUDENT" then _ else _) = _
        rw [if_neg hr]
      rw [h8']
      constructor
      · intro c
        exact ⟨fun h => absurd h hr, c⟩
      · exact fun h => h.2
  have h9 : e9 = [] ↔ (role = "TEACHER" → ¬ jsTrim fd.employeeId = "") ∧ e8 = [] := by
    by_cases hr : role = "TEACHER"
    · have h9' : e9 = [] ↔ ¬ jsTrim fd.employeeId = "" ∧ e8 = [] := by
        show (if role = "TEACHER" then _ else _) = [] ↔ _
        rw [if_pos hr]
        exact Errors.step_eq_nil _ _ _ _
      rw [h9']
      constructor
      · rintro ⟨a, c⟩
        exact ⟨fun _ => a, c⟩
      · rintro ⟨a, c⟩
        exact ⟨a hr, c⟩
    · have h9' : e9 = e8 := by
        show (if role = "TEACHER" then _ else _) = _
        rw [if_neg hr]
      rw [h9']
      constructor
      · intro c
        exact ⟨fun h => absurd h hr, c⟩
      · exact fun h => h.2
  have h0 : e0 = [] := rfl
  show e9 = [] ↔ _
  rw [h9, h8, h6, h5, h4, h3, h2, h1, ← hemail, ← hpw]
  constructor
  · rintro ⟨t, s, ph, d, c1, c2, p1, p2, m1, m2, f, _⟩
    exact ⟨f, ⟨m1, m2⟩, ⟨p1, p2⟩, c1, (not_not.1 c2).symm, d, ph, s, t⟩
  · rintro ⟨f, ⟨m1, m2⟩, ⟨p1, p2⟩, c1, c2, d, ph, s, t⟩
    exact ⟨t, s, ph, d, c1, not_not.2 c2.symm, p1, p2, m1, m2, f, h0⟩

theorem Register.handleSubmit_of_errors (env : Option String) (st : RegisterState)
    (net : FetchOutcome) (h : Register.validate st.formData st.role ≠ []) :
    Register.handleSubmit env st net =
      { state := { st with errors := Register.validate st.formData st.role },
        requests := [], timeouts := [] } := by
  unfold Register.handleSubmit
  have hlen : (Register.validate st.formData st.role).length > 0 :=
    List.length_pos.2 h
  simp only [hlen, if_true]

theorem Register.handleSubmit_of_valid (env : Option String) (st : RegisterState)
    (net : FetchOutcome) (h : Register.validate st.formData st.role = []) :
    (Register.handleSubmit env st net).requests = [Register.request env st] := by
  unfold Register.handleSubmit
  simp only [h, List.length_nil, gt_iff_lt, lt_self_iff_false, if_false]
  split <;> rfl

/-- C7: for every registration state and either role, when `password` differs
from `confirmPassword`, `validate` returns an error for the field
`confirmPassword`, and `handleSubmit` stores the errors and returns without
sending a registration request (nothing else changes, nothing is scheduled). -/
theorem Register_mismatch_blocks_submission (env : Option String) (st : RegisterState)
    (net : FetchOutcome) (h : st.formData.password ≠ st.formData.confirmPassword) :
    (∃ msg, (Register.validate st.formData st.role).get "confirmPassword" = some msg) ∧
      Register.handleSubmit env st net =
        { state := { st with errors := Register.validate st.formData st.role },
          requests := [], timeouts := [] } ∧
      (Register.handleSubmit env st net).requests = [] := by
  have hget := Register.validate_confirmPassword st.formData st.role h
  have hne : Register.validate st.formData st.role ≠ [] := by
    intro hnil
    rw [hnil] at hget
    simp [Errors.get] at hget
  have hsub := Register.handleSubmit_of_errors env st net hne
  refine ⟨⟨_, hget⟩, hsub, ?_⟩
  rw [hsub]

/-- Witness for C7: a student form whose confirmation differs. -/
theorem Register_mismatch_blocks_submission_witness :
    (Register.handleSubmit none
        (registerState "STUDENT" { sampleForm with confirmPassword := "1234567" })
        (.response true (.object []))).requests = [] :=
  (Register_mismatch_blocks_submission none
    (registerState "STUDENT" { sampleForm with confirmPassword := "1234567" })
    (.response true (.object [])) (by decide)).2.2

/-- C8: `validate` returns the empty error object, and `handleSubmit` therefore
sends the registration request, exactly when the form satisfies the rule of the
specification (`Register.SpecValid`): full name non-blank after trimming, email
containing non-space+ `@` non-space+ `.` non-space+, password of at least 8
characters, a non-empty confirmation equal to the password, department and
phone number non-empty, and only for STUDENT a non-blank student id and a year
of study, only for TEACHER a non-blank employee id. -/
theorem Register_validate_empty_iff_spec (env : Option String) (st : RegisterState)
    (net : FetchOutcome) :
    (Register.validate st.formData st.role = [] ↔ Register.SpecValid st.formData st.role) ∧
      ((Register.handleSubmit env st net).requests ≠ [] ↔
        Register.SpecValid st.formData st.role) := by
  refine ⟨Register.validate_eq_nil_iff _ _, ?_⟩
  rw [← Register.validate_eq_nil_iff]
  constructor
  · intro hreq
    by_contra hne
    rw [Register.handleSubmit_of_errors env st net hne] at hreq
    exact hreq rfl
  · intro hnil
    rw [Register.handleSubmit_of_valid env st net hnil]
    simp

/-! ## Login: checked properties -/

/-- C9: on an ok response whose body carries role STUDENT, TEACHER or ADMIN,
`handleSubmit` calls `login(user, token)` once, with the user built from the
response's userId, studentId, teacherId, email, fullName and role and with the
response's token, the session holds that user and token afterwards, and the
only navigation is to the dashboard of the role. -/
theorem Login_ok_stores_session_and_navigates (st : LoginState) (auth : AuthState)
    (data : List (String × JSVal)) (r path : String)
    (hr : (r, path) ∈ [("STUDENT", "/student/dashboard"), ("TEACHER", "/teacher/dashboard"),
      ("ADMIN", "/admin/dashboard")])
    (hrole : getProp data "role" = .str r) :
    let user : User :=
      { userId := getProp data "userId", studentId := getProp data "studentId",
        teacherId := getProp data "teacherId", email := getProp data "email",
        fullName := getProp data "fullName", role := .str r }
    let res := Login.handleSubmit st auth (.response true (.object data))
    res.loginCalls = [(user, getProp data "token")] ∧
      res.auth.user = some user ∧ res.auth.token = getProp data "token" ∧
      res.navigations = [path] ∧ res.state.loading = false := by
  intro user res
  simp only [List.mem_cons, Prod.mk.injEq, List.mem_singleton, List.not_mem_nil, or_false] at hr
  rcases hr with ⟨rfl, rfl⟩ | ⟨rfl, rfl⟩ | ⟨rfl, rfl⟩ <;>
    simp [res, user, Login.handleSubmit, Login.redirect, AuthContext.login, hrole]

/-- Witness for C9: a teacher logs in. -/
theorem Login_ok_stores_session_and_navigates_witness :
    (Login.handleSubmit sampleLogin loggedOut
      (.response true (.object [("userId", .num 4), ("teacherId", .num 2),
        ("role", .str "TEACHER"), ("token", .str "jwt")]))).navigations
      = ["/teacher/dashboard"] :=
  (Login_ok_stores_session_and_navigates sampleLogin loggedOut
    [("userId", .num 4), ("teacherId", .num 2), ("role", .str "TEACHER"),
      ("token", .str "jwt")] "TEACHER" "/teacher/dashboard" (by decide) (by decide)).2.2.2.1

/-- C10, as stated, fails: a non-ok response whose body is not JSON (for
instance an empty body) has no message field, yet the error set is the
cannot-connect text and not `'Login failed'`; and a message field that is
present but empty is replaced by `'Login failed'`. -/
theorem Login_not_ok_message_counterexample :
    (Login.handleSubmit sampleLogin loggedOut (.response false .unparseable)).state.apiError
        = .str "Cannot connect to server. Is Spring Boot running?"
      ∧ (Login.handleSubmit sampleLogin loggedOut (.response false .unparseable)).state.apiError
        ≠ .str "Login failed"
      ∧ (Login.handleSubmit sampleLogin loggedOut
          (.response false (.object [("message", .str "")]))).state.apiError
        ≠ getProp [("message", .str "")] "message" := by
  decide

/-- C10 (amended): on a non-ok response `handleSubmit` sets an error message:
for a JSON object body the message field when it is truthy (a non-empty
string) and `'Login failed'` otherwise, for a body that is not a JSON object
the cannot-connect text.  In every case the message is non-empty, `login` is
not called, the session is unchanged, nothing is navigated and `loading` is
false. -/
theorem Login_not_ok_sets_error (st : LoginState) (auth : AuthState) (body : ResponseBody) :
    let res := Login.handleSubmit st auth (.response false body)
    res.state.apiError =
        (match body with
         | .object data =>
           if (getProp data "message").truthy then getProp data "message"
           else .str "Login failed"
         | _ => .str "Cannot connect to server. Is Spring Boot running?") ∧
      res.state.apiError.truthy = true ∧
      res.loginCalls = [] ∧ res.auth = auth ∧ res.navigations = [] ∧
      res.state.loading = false := by
  intro res
  cases body with
  | unparseable => simp [res, Login.handleSubmit]; decide
  | null => simp [res, Login.handleSubmit]; decide
  | object data =>
    simp only [res, Login.handleSubmit, JSVal.or, Bool.not_false, if_true, and_true, true_and]
    by_cases ht : (getProp data "message").truthy = true
    · simp [ht]
    · simp [ht]
      decide

theorem log2Aux_spec : ∀ (fuel n : Nat), 1 ≤ n → n ≤ fuel →
    2 ^ log2Aux fuel n ≤ n ∧ n < 2 ^ (log2Aux fuel n + 1) := by
  intro fuel
  induction fuel with
  | zero => intro n h1 h2; omega
  | succ fuel ih =>
    intro n h1 h2
    unfold log2Aux
    by_cases h : 2 ≤ n
    · rw [if_pos h]
      have := ih (n / 2) (by omega) (by omega)
      obtain ⟨ha, hb⟩ := this
      constructor
      · rw [pow_succ]
        omega
      · rw [pow_succ]
        omega
    · rw [if_neg h]
      have : n = 1 := by omega
      subst this
      simp

theorem ilog2_spec (n : Nat) (h : 1 ≤ n) : 2 ^ ilog2 n ≤ n ∧ n < 2 ^ (ilog2 n + 1) :=
  log2Aux_spec n n h (le_refl n)

theorem roundNearestEven_err (n d : Nat) (hd : 0 < d) :
    |((roundNearestEven n d : Nat) : ℚ) - (n : ℚ) / d| ≤ 1 / 2 := by
  have hdq : (0 : ℚ) < d := by exact_mod_cast hd
  have hdiv : (n : ℚ) = (d : ℚ) * ((n / d : Nat) : ℚ) + ((n % d : Nat) : ℚ) := by
    exact_mod_cast (Nat.div_add_mod n d).symm
  have hq : (n : ℚ) / d = ((n / d : Nat) : ℚ) + ((n % d : Nat) : ℚ) / d := by
    rw [eq_comm, ← sub_eq_zero]
    field_simp
    linarith
  have hρ0 : (0 : ℚ) ≤ ((n % d : Nat) : ℚ) / d := by positivity
  rw [hq, abs_le]
  unfold roundNearestEven
  simp only []
  split_ifs with h1 h2 h3
  · have h1q : ((n % d : Nat) : ℚ) / d < 1 / 2 := by
      rw [div_lt_iff₀ hdq]
      have : (2 : ℚ) * ((n % d : Nat) : ℚ) < d := by exact_mod_cast h1
      linarith
    constructor <;> linarith
  · have h2q : 1 / 2 < ((n % d : Nat) : ℚ) / d := by
      rw [lt_div_iff₀ hdq]
      have : (d : ℚ) < 2 * ((n % d : Nat) : ℚ) := by exact_mod_cast h2
      linarith
    have h3q : ((n % d : Nat) : ℚ) / d < 1 := by
      rw [div_lt_iff₀ hdq]
      have : ((n % d : Nat) : ℚ) < d := by exact_mod_cast Nat.mod_lt n hd
      linarith
    push_cast
    constructor <;> linarith
  · have h2q : ((n % d : Nat) : ℚ) / d = 1 / 2 := by
      rw [div_eq_iff hdq.ne']
      have : 2 * (n % d) = d := by omega
      have : (2 : ℚ) * ((n % d : Nat) : ℚ) = d := by exact_mod_cast this
      linarith
    constructor <;> linarith
  · have h2q : ((n % d : Nat) : ℚ) / d = 1 / 2 := by
      rw [div_eq_iff hdq.ne']
      have : 2 * (n % d) = d := by omega
      have : (2 : ℚ) * ((n % d : Nat) : ℚ) = d := by exact_mod_cast this
      linarith
    push_cast
    constructor <;> linarith

theorem scaleBy_spec (n d : Nat) (e : Int) (hd : 0 < d) :
    0 < (scaleBy n d e).2 ∧
      ((scaleBy n d e).1 : ℚ) / ((scaleBy n d e).2 : ℚ) = (n : ℚ) / d * (2 : ℚ) ^ (-e) := by
  have hdq : (0 : ℚ) < d := by exact_mod_cast hd
  unfold scaleBy
  by_cases h : 0 ≤ e
  · rw [if_pos h]
    refine ⟨by positivity, ?_⟩
    obtain ⟨k, rfl⟩ := Int.eq_ofNat_of_zero_le h
    simp only [Int.toNat_ofNat, Nat.cast_mul, Nat.cast_pow, Nat.cast_ofNat, zpow_neg,
      zpow_natCast]
    field_simp
  · rw [if_neg h]
    refine ⟨hd, ?_⟩
    obtain ⟨k, hk⟩ := Int.eq_ofNat_of_zero_le (show 0 ≤ -e by omega)
    rw [hk]
    simp only [Int.toNat_ofNat, Nat.cast_mul, Nat.cast_pow, Nat.cast_ofNat, zpow_natCast]
    field_simp

theorem binadeExp_spec (n d : Nat) (hn : 0 < n) (hd : 0 < d) :
    (2 : ℚ) ^ (52 : ℕ) ≤ (n : ℚ) / d * (2 : ℚ) ^ (-(binadeExp n d)) := by
  have hdq : (0 : ℚ) < d := by exact_mod_cast hd
  unfold binadeExp
  simp only []
  split_ifs with h
  · obtain ⟨hpos, hs⟩ := scaleBy_spec n d ((ilog2 n : Int) - (ilog2 d : Int) - 52) hd
    rw [← hs, le_div_iff₀ (by exact_mod_cast hpos)]
    exact_mod_cast h
  · have ha := (ilog2_spec n hn).1
    have hb := (ilog2_spec d hd).2
    have haq : (2 : ℚ) ^ (ilog2 n : ℤ) ≤ n := by
      rw [zpow_natCast]
      exact_mod_cast ha
    have hbq : (d : ℚ) ≤ (2 : ℚ) ^ ((ilog2 d : ℤ) + 1) := by
      have : (d : ℚ) ≤ (2 : ℚ) ^ (ilog2 d + 1) := by exact_mod_cast hb.le
      rw [show ((ilog2 d : ℤ) + 1) = ((ilog2 d + 1 : ℕ) : ℤ) by push_cast; ring, zpow_natCast]
      exact this
    have h2 : (0 : ℚ) < (2 : ℚ) ^ (ilog2 n : ℤ) := by positivity
    have hdiv : (2 : ℚ) ^ (ilog2 n : ℤ) / (2 : ℚ) ^ ((ilog2 d : ℤ) + 1) ≤ (n : ℚ) / d :=
      div_le_div₀ (by positivity) haq hdq hbq
    have hpow : (2 : ℚ) ^ (52 : ℕ) =
        (2 : ℚ) ^ (ilog2 n : ℤ) / (2 : ℚ) ^ ((ilog2 d : ℤ) + 1) *
          (2 : ℚ) ^ (-((ilog2 n : ℤ) - (ilog2 d : ℤ) - 52 - 1)) := by
      rw [← zpow_sub₀ (by norm_num : (2 : ℚ) ≠ 0), ← zpow_add₀ (by norm_num : (2 : ℚ) ≠ 0),
        ← zpow_natCast]
      congr 1
      push_cast
      ring
    rw [hpow]
    exact mul_le_mul_of_nonneg_right hdiv (by positivity)

/-- The rounded result is within relative error 2^-53 of the exact value. -/
theorem Double.round_err (neg : Bool) (n d : Nat) (x : Int) (hn : 0 < n) (hd : 0 < d) :
    |(Double.round neg n d x).toRat - (if neg then -1 else 1) * ((n : ℚ) / d * (2 : ℚ) ^ x)|
      ≤ (n : ℚ) / d * (2 : ℚ) ^ x / (2 : ℚ) ^ (53 : ℕ) := by
  have hdq : (0 : ℚ) < d := by exact_mod_cast hd
  obtain ⟨hpos, hs⟩ := scaleBy_spec n d (binadeExp n d) hd
  have hb := binadeExp_spec n d hn hd
  have hr := roundNearestEven_err (scaleBy n d (binadeExp n d)).1 (scaleBy n d (binadeExp n d)).2 hpos
  rw [hs] at hr
  set e := binadeExp n d with he
  set m : ℕ := roundNearestEven (scaleBy n d e).1 (scaleBy n d e).2 with hm
  set w : ℚ := (n : ℚ) / d * (2 : ℚ) ^ (-e) with hw
  have hv : (n : ℚ) / d * (2 : ℚ) ^ x = w * (2 : ℚ) ^ (e + x) := by
    rw [hw, mul_assoc, ← zpow_add₀ (by norm_num : (2 : ℚ) ≠ 0)]
    congr 2
    ring
  have hR : Double.round neg n d x = ⟨if neg then -(m : Int) else m, e + x⟩ := by
    unfold Double.round
    rw [if_neg (by omega)]
  have hT : (Double.round neg n d x).toRat
      = (if neg then -1 else 1) * ((m : ℚ) * (2 : ℚ) ^ (e + x)) := by
    rw [hR]
    unfold Double.toRat
    cases neg <;> simp
  have hp : (0 : ℚ) < (2 : ℚ) ^ (e + x) := by positivity
  rw [hT, hv, ← mul_sub, abs_mul, ← sub_mul, abs_mul, abs_of_pos hp]
  have hsgn : |(if neg then (-1 : ℚ) else 1)| = 1 := by cases neg <;> simp
  rw [hsgn, one_mul]
  have h1 : |(m : ℚ) - w| * (2 : ℚ) ^ (e + x) ≤ 1 / 2 * (2 : ℚ) ^ (e + x) :=
    mul_le_mul_of_nonneg_right hr hp.le
  have h2 : 1 / 2 * (2 : ℚ) ^ (e + x) ≤ w * (2 : ℚ) ^ (e + x) / (2 : ℚ) ^ (53 : ℕ) := by
    rw [le_div_iff₀ (by positivity)]
    have : (1 : ℚ) / 2 * (2 : ℚ) ^ (53 : ℕ) = (2 : ℚ) ^ (52 : ℕ) := by norm_num
    calc 1 / 2 * (2 : ℚ) ^ (e + x) * (2 : ℚ) ^ (53 : ℕ)
        = (2 : ℚ) ^ (52 : ℕ) * (2 : ℚ) ^ (e + x) := by rw [← this]; ring
      _ ≤ w * (2 : ℚ) ^ (e + x) := mul_le_mul_of_nonneg_right hb hp.le
  exact h1.trans h2

theorem Double.round_sign (n d : Nat) (x : Int) : 0 ≤ (Double.round false n d x).m := by
  unfold Double.round
  by_cases hn : n = 0
  · rw [if_pos hn]
  · rw [if_neg hn]
    simp only [Bool.false_eq_true, if_false]
    exact Int.natCast_nonneg _

theorem Double.round_neg_sign (n d : Nat) (x : Int) : (Double.round true n d x).m ≤ 0 := by
  unfold Double.round
  by_cases hn : n = 0
  · rw [if_pos hn]
  · rw [if_neg hn]
    simp only [if_true]
    exact neg_nonpos.2 (Int.natCast_nonneg _)

theorem Math.floor_eq (x : Double) : Math.floor x = ⌊x.toRat⌋ := by
  unfold Math.floor Double.toRat
  by_cases h : 0 ≤ x.e
  · rw [if_pos h]
    obtain ⟨k, hk⟩ := Int.eq_ofNat_of_zero_le h
    rw [hk, Int.toNat_ofNat, zpow_natCast]
    have : ((x.m : ℚ) * (2 : ℚ) ^ k) = ((x.m * 2 ^ k : ℤ) : ℚ) := by push_cast; ring
    rw [this, Int.floor_intCast]
  · rw [if_neg h]
    obtain ⟨k, hk⟩ := Int.eq_ofNat_of_zero_le (show 0 ≤ -x.e by omega)
    have hxe : x.e = -(k : ℤ) := by omega
    rw [hk, Int.toNat_ofNat, hxe, zpow_neg, zpow_natCast]
    have : (x.m : ℚ) * ((2 : ℚ) ^ k)⁻¹ = (x.m : ℚ) / ((2 ^ k : ℕ) : ℚ) := by
      push_cast
      rw [div_eq_mul_inv]
    rw [this, Rat.floor_intCast_div_natCast]
    push_cast
    rfl

theorem Math.round_eq (x : Double) : Math.round x = ⌊x.toRat + 1 / 2⌋ := by
  unfold Math.round Double.toRat
  by_cases h : 0 ≤ x.e
  · rw [if_pos h]
    obtain ⟨k, hk⟩ := Int.eq_ofNat_of_zero_le h
    rw [hk, Int.toNat_ofNat, zpow_natCast]
    have : ((x.m : ℚ) * (2 : ℚ) ^ k) = ((x.m * 2 ^ k : ℤ) : ℚ) := by push_cast; ring
    rw [this, Int.floor_int_add]
    have : ⌊(1 / 2 : ℚ)⌋ = 0 := by
      rw [Int.floor_eq_iff]
      norm_num
    rw [this, add_zero]
  · rw [if_neg h]
    obtain ⟨k, hk⟩ := Int.eq_ofNat_of_zero_le (show 0 ≤ -x.e by omega)
    have hxe : x.e = -(k : ℤ) := by omega
    rw [hk, Int.toNat_ofNat, hxe, zpow_neg, zpow_natCast]
    have : (x.m : ℚ) * ((2 : ℚ) ^ k)⁻¹ + 1 / 2
        = ((2 * x.m + 2 ^ k : ℤ) : ℚ) / ((2 ^ (k + 1) : ℕ) : ℚ) := by
      push_cast
      field_simp
      ring
    rw [this, Rat.floor_intCast_div_natCast]
    push_cast
    rfl

theorem Double.toRat_pos_iff (x : Double) : 0 < x.toRat ↔ 0 < x.m := by
  unfold Double.toRat
  have hp : (0 : ℚ) < (2 : ℚ) ^ x.e := by positivity
  constructor
  · intro h
    have := (mul_pos_iff_of_pos_right hp).1 h
    exact_mod_cast this
  · intro h
    exact mul_pos (by exact_mod_cast h) hp

/-- The quotient of two natural numbers as computed in binary64. -/
theorem Double.div_ofNat_err (p n : Nat) (hp : 0 < p) (hn : 0 < n)
    (hb : (Double.ofNat n).m ≠ 0) :
    |(Double.div (Double.ofNat p) (Double.ofNat n) hb).toRat - (p : ℚ) / n|
        ≤ (p : ℚ) / n / (2 : ℚ) ^ (53 : ℕ)
      ∧ 0 < (Double.div (Double.ofNat p) (Double.ofNat n) hb).m := by
  have hdiv : Double.div (Double.ofNat p) (Double.ofNat n) hb = Double.round false p n 0 := by
    have h1 : ¬ ((p : ℤ) < 0) := not_lt.2 (Int.natCast_nonneg p)
    have h2 : ¬ ((n : ℤ) < 0) := not_lt.2 (Int.natCast_nonneg n)
    simp [Double.div, Double.ofNat, h1, h2]
  have herr := Double.round_err false p n 0 hp hn
  simp only [Bool.false_eq_true, if_false, one_mul, zpow_zero, mul_one] at herr
  rw [hdiv]
  refine ⟨herr, ?_⟩
  rw [← Double.toRat_pos_iff]
  have hq : (0 : ℚ) < (p : ℚ) / n := by positivity
  have hlt : (p : ℚ) / n / (2 : ℚ) ^ (53 : ℕ) < (p : ℚ) / n := by
    rw [div_lt_iff₀ (by positivity)]
    have : (1 : ℚ) < (2 : ℚ) ^ (53 : ℕ) := by norm_num
    nlinarith
  have := (abs_le.1 herr).1
  linarith

/-- The product of a positive double with a positive natural number. -/
theorem Double.mul_ofNat_err (a : Double) (k : Nat) (ha : 0 < a.m) (hk : 0 < k) :
    |(Double.mul a (Double.ofNat k)).toRat - a.toRat * k|
      ≤ a.toRat * k / (2 : ℚ) ^ (53 : ℕ) := by
  have hv : 0 < a.m * (k : Int) := mul_pos ha (by exact_mod_cast hk)
  have hmul : Double.mul a (Double.ofNat k)
      = Double.round false (a.m * (k : Int)).natAbs 1 (a.e + 0) := by
    unfold Double.mul Double.ofNat
    simp only []
    rw [decide_eq_false (by omega)]
  have hnat : 0 < (a.m * (k : Int)).natAbs := Int.natAbs_pos.2 hv.ne'
  have herr := Double.round_err false (a.m * (k : Int)).natAbs 1 (a.e + 0) hnat Nat.one_pos
  simp only [Bool.false_eq_true, if_false, one_mul, Nat.cast_one, div_one, add_zero] at herr
  have hcast : (((a.m * (k : Int)).natAbs : ℕ) : ℚ) = (a.m : ℚ) * k := by
    rw [← Int.cast_natCast, Int.natAbs_of_nonneg hv.le]
    push_cast
    ring
  rw [hcast] at herr
  have hval : (a.m : ℚ) * k * (2 : ℚ) ^ a.e = a.toRat * k := by
    unfold Double.toRat
    ring
  rw [hval] at herr
  rw [hmul]
  simpa using herr

theorem percent_arith (x1 y q u : ℚ) (hq0 : 0 ≤ q) (hq1 : q ≤ 1) (hu0 : 0 ≤ u)
    (hu1 : u ≤ 1 / 100) (h1 : |x1 - q| ≤ q * u) (h2 : |y - x1 * 100| ≤ x1 * 100 * u) :
    |y - 100 * q| ≤ 201 * u := by
  rw [abs_le] at h1 h2 ⊢
  obtain ⟨h1a, h1b⟩ := h1
  obtain ⟨h2a, h2b⟩ := h2
  have hqu : q * u ≤ u := by nlinarith
  have hqu0 : 0 ≤ q * u := mul_nonneg hq0 hu0
  have hx1 : x1 ≤ 1 + u := by linarith
  have hx0 : 0 ≤ x1 := by nlinarith
  have hxu : x1 * 100 * u ≤ 100 * u + u := by nlinarith
  constructor <;> linarith

/-- The value `(p / n) * 100` computed in binary64 is within `201 / 2^53` of
the exact percentage. -/
theorem percent_err (p n : Nat) (hp : 0 < p) (hpn : p ≤ n)
    (hb : (Double.ofNat n).m ≠ 0) :
    |(Double.mul (Double.div (Double.ofNat p) (Double.ofNat n) hb) (Double.ofNat 100)).toRat
        - 100 * ((p : ℚ) / n)| ≤ 201 * (1 / (2 : ℚ) ^ (53 : ℕ)) := by
  have hn : 0 < n := lt_of_lt_of_le hp hpn
  have hnq : (0 : ℚ) < n := by exact_mod_cast hn
  obtain ⟨h1, hm⟩ := Double.div_ofNat_err p n hp hn hb
  have h2 := Double.mul_ofNat_err _ 100 hm (by norm_num)
  have hq0 : (0 : ℚ) ≤ (p : ℚ) / n := by positivity
  have hq1 : (p : ℚ) / n ≤ 1 := by
    rw [div_le_one hnq]
    exact_mod_cast hpn
  apply percent_arith _ _ _ _ hq0 hq1 (by positivity) (by norm_num)
  · rw [mul_one_div]
    exact h1
  · rw [mul_one_div]
    have h2c := h2
    push_cast at h2c
    exact h2c

/-- The specification's rounding is `⌊100 p / n + 1/2⌋`. -/
theorem specPercentage_eq_floor (p n : Nat) (hn : 0 < n) :
    specPercentage p n = ⌊100 * ((p : ℚ) / n) + 1 / 2⌋ := by
  have hnq : (0 : ℚ) < n := by exact_mod_cast hn
  unfold specPercentage
  have : 100 * ((p : ℚ) / n) + 1 / 2 = ((200 * p + n : ℕ) : ℚ) / ((2 * n : ℕ) : ℚ) := by
    push_cast
    field_simp
    ring
  rw [this, Rat.floor_natCast_div_natCast]
  norm_cast

/-- A value close enough to `100 p / n` rounds like `100 p / n`, except possibly
downwards at a tie. -/
theorem round_stable (p n : Nat) (hn : 0 < n) (hnb : n < 2 ^ 32) (y : ℚ)
    (hy : |y - 100 * ((p : ℚ) / n)| ≤ 201 * (1 / (2 : ℚ) ^ (53 : ℕ))) :
    ((200 * p + n) % (2 * n) ≠ 0 → ⌊y + 1 / 2⌋ = specPercentage p n) ∧
      (⌊y + 1 / 2⌋ = specPercentage p n ∨ ⌊y + 1 / 2⌋ = specPercentage p n - 1) := by
  have hnq : (0 : ℚ) < n := by exact_mod_cast hn
  have hD : (0 : ℚ) < ((2 * n : ℕ) : ℚ) := by positivity
  have hDb : ((2 * n : ℕ) : ℚ) ≤ (2 : ℚ) ^ (33 : ℕ) := by
    have : 2 * n ≤ 2 ^ 33 := by omega
    exact_mod_cast this
  have hT : 100 * ((p : ℚ) / n) + 1 / 2
      = (((200 * p + n) / (2 * n) : ℕ) : ℚ)
        + (((200 * p + n) % (2 * n) : ℕ) : ℚ) / ((2 * n : ℕ) : ℚ) := by
    have hdm : ((200 * p + n : ℕ) : ℚ)
        = ((2 * n : ℕ) : ℚ) * (((200 * p + n) / (2 * n) : ℕ) : ℚ)
          + (((200 * p + n) % (2 * n) : ℕ) : ℚ) := by
      exact_mod_cast (Nat.div_add_mod (200 * p + n) (2 * n)).symm
    have h1 : 100 * ((p : ℚ) / n) + 1 / 2 = ((200 * p + n : ℕ) : ℚ) / ((2 * n : ℕ) : ℚ) := by
      push_cast
      field_simp
      ring
    rw [h1, hdm]
    field_simp
    ring
  have hε : 201 * (1 / (2 : ℚ) ^ (53 : ℕ)) < 1 / ((2 * n : ℕ) : ℚ) := by
    have h1 : (1 : ℚ) / (2 : ℚ) ^ (33 : ℕ) ≤ 1 / ((2 * n : ℕ) : ℚ) :=
      one_div_le_one_div_of_le hD hDb
    have h2 : 201 * (1 / (2 : ℚ) ^ (53 : ℕ)) < (1 : ℚ) / (2 : ℚ) ^ (33 : ℕ) := by norm_num
    exact lt_of_lt_of_le h2 h1
  have hspec : specPercentage p n = (((200 * p + n) / (2 * n) : ℕ) : ℤ) := rfl
  obtain ⟨hy1, hy2⟩ := abs_le.1 hy
  set q : ℕ := (200 * p + n) / (2 * n) with hq
  set r : ℕ := (200 * p + n) % (2 * n) with hr
  have hrlt : r < 2 * n := Nat.mod_lt _ (by omega)
  have hinv : (0 : ℚ) < 1 / ((2 * n : ℕ) : ℚ) := by positivity
  have hrD : (r : ℚ) / ((2 * n : ℕ) : ℚ) = r * (1 / ((2 * n : ℕ) : ℚ)) := by ring
  have hDD : ((2 * n : ℕ) : ℚ) * (1 / ((2 * n : ℕ) : ℚ)) = 1 := by
    field_simp
  rw [hspec]
  have hr0 : (0 : ℚ) ≤ (r : ℚ) := by positivity
  constructor
  · intro hne
    rw [Int.floor_eq_iff]
    have hr1 : (1 : ℚ) ≤ r := by
      have : 1 ≤ r := Nat.one_le_iff_ne_zero.2 hne
      exact_mod_cast this
    have hr2 : (r : ℚ) + 1 ≤ ((2 * n : ℕ) : ℚ) := by
      have : r + 1 ≤ 2 * n := hrlt
      exact_mod_cast this
    push_cast
    constructor
    · nlinarith
    · nlinarith
  · by_cases hr0' : r = 0
    · have hrq : (r : ℚ) = 0 := by exact_mod_cast hr0'
      rw [hrq, zero_div, add_zero] at hT
      have hD1 : (1 : ℚ) / ((2 * n : ℕ) : ℚ) ≤ 1 := by
        rw [div_le_one hD]
        have : 1 ≤ 2 * n := by omega
        exact_mod_cast this
      by_cases hge : (q : ℚ) ≤ y + 1 / 2
      · left
        rw [Int.floor_eq_iff]
        push_cast
        constructor
        · exact hge
        · linarith
      · right
        rw [Int.floor_eq_iff]
        push_cast
        constructor
        · linarith
        · linarith
    · left
      rw [Int.floor_eq_iff]
      have hr1 : (1 : ℚ) ≤ r := by
        have : 1 ≤ r := Nat.one_le_iff_ne_zero.2 hr0'
        exact_mod_cast this
      have hr2 : (r : ℚ) + 1 ≤ ((2 * n : ℕ) : ℚ) := by
        have : r + 1 ≤ 2 * n := hrlt
        exact_mod_cast this
      push_cast
      constructor
      · nlinarith
      · nlinarith

theorem percent_zero (n : Nat) (hb : (Double.ofNat n).m ≠ 0) :
    (Double.mul (Double.div (Double.ofNat 0) (Double.ofNat n) hb) (Double.ofNat 100)).toRat
      = 0 := by
  simp [Double.div, Double.ofNat, Double.round, Double.mul, Double.toRat]

/-- `getPercentage` in terms of the two counts. -/
theorem getPercentage_eq_floor (attendanceHistory : List AttendanceRecord) (courseId : Nat)
    (hpos : 0 < (attendanceHistory.filter (fun a => a.courseId == courseId)).length) :
    ∃ y : ℚ, getPercentage attendanceHistory courseId = ⌊y + 1 / 2⌋ ∧
      |y - 100 *
          ((((attendanceHistory.filter (fun a => a.courseId == courseId)).filter
              (fun a => a.status == "PRESENT" || a.status == "LATE")).length : ℚ) /
            ((attendanceHistory.filter (fun a => a.courseId == courseId)).length : ℚ))|
        ≤ 201 * (1 / (2 : ℚ) ^ (53 : ℕ)) := by
  unfold getPercentage
  simp only []
  rw [dif_neg (by omega)]
  refine ⟨_, Math.round_eq _, ?_⟩
  set records := attendanceHistory.filter (fun a => a.courseId == courseId) with hrec
  by_cases hp : 0 < (records.filter (fun a => a.status == "PRESENT" || a.status == "LATE")).length
  · exact percent_err _ _ hp (List.length_filter_le _ _) _
  · have hp0 : (records.filter (fun a => a.status == "PRESENT" || a.status == "LATE")).length
        = 0 := by omega
    rw [hp0, percent_zero]
    simp

theorem Double.round_zero (neg : Bool) (d : Nat) (x : Int) :
    Double.round neg 0 d x = ⟨0, 0⟩ := by
  simp [Double.round]

theorem Double.toRat_nonpos (x : Double) (h : x.m ≤ 0) : x.toRat ≤ 0 := by
  unfold Double.toRat
  have hp : (0 : ℚ) ≤ (2 : ℚ) ^ x.e := by positivity
  have hm : (x.m : ℚ) ≤ 0 := by exact_mod_cast h
  exact mul_nonpos_of_nonpos_of_nonneg hm hp

theorem Double.sub_ofInt (a b : Int) :
    Double.sub (Double.ofInt a) (Double.ofInt b)
      = Double.round (decide (a - b < 0)) (a - b).natAbs 1 0 := by
  simp [Double.sub, Double.ofInt]

/-- A positive double divided by a positive natural number. -/
theorem Double.div_ofNat_pos_err (a : Double) (k : Nat) (ha : 0 < a.m) (hk : 0 < k)
    (hb : (Double.ofNat k).m ≠ 0) :
    |(Double.div a (Double.ofNat k) hb).toRat - a.toRat / k|
      ≤ a.toRat / k / (2 : ℚ) ^ (53 : ℕ) := by
  have hkq : (0 : ℚ) < k := by exact_mod_cast hk
  have hdiv : Double.div a (Double.ofNat k) hb
      = Double.round false a.m.natAbs k a.e := by
    have h1 : ¬ ((k : ℤ) < 0) := not_lt.2 (Int.natCast_nonneg k)
    have h2 : ¬ (a.m < 0) := not_lt.2 ha.le
    simp [Double.div, Double.ofNat, h1, h2]
  have hnat : 0 < a.m.natAbs := Int.natAbs_pos.2 ha.ne'
  have herr := Double.round_err false a.m.natAbs k a.e hnat hk
  simp only [Bool.false_eq_true, if_false, one_mul] at herr
  have hcast : ((a.m.natAbs : ℕ) : ℚ) = (a.m : ℚ) := by
    rw [← Int.cast_natCast, Int.natAbs_of_nonneg ha.le]
  rw [hcast] at herr
  have hval : (a.m : ℚ) / k * (2 : ℚ) ^ a.e = a.toRat / k := by
    unfold Double.toRat
    ring
  rw [hval] at herr
  rw [hdiv]
  exact herr

theorem seconds_arith (d s q u : ℚ) (hd : 0 < d) (hu0 : 0 ≤ u) (hu1 : u ≤ 1 / 10000)
    (h1 : |s - d| ≤ d * u) (h2 : |q - s / 1000| ≤ s / 1000 * u) :
    (d ≤ 999 → q < 1) ∧ (1001 ≤ d → 1 ≤ q) := by
  rw [abs_le] at h1 h2
  obtain ⟨h1a, h1b⟩ := h1
  obtain ⟨h2a, h2b⟩ := h2
  have hdu : 0 ≤ d * u := mul_nonneg hd.le hu0
  have hs0 : 0 ≤ s := by nlinarith
  have hsu : 0 ≤ s * u := mul_nonneg hs0 hu0
  constructor
  · intro hd9
    have hs : s ≤ 999 + 999 * u := by nlinarith
    nlinarith
  · intro hd1
    have hs : 1001 - 1001 * u ≤ s := by nlinarith
    nlinarith

theorem Double.div_nonpos (a : Double) (k : Nat) (hb : (Double.ofNat k).m ≠ 0)
    (ha : a.m ≤ 0) : (Double.div a (Double.ofNat k) hb).toRat ≤ 0 := by
  apply Double.toRat_nonpos
  unfold Double.div
  rcases lt_or_eq_of_le ha with hlt | heq
  · have h1 : ¬ ((k : ℤ) < 0) := not_lt.2 (Int.natCast_nonneg k)
    have hneg : (decide (a.m < 0) != decide ((Double.ofNat k).m < 0)) = true := by
      simp [Double.ofNat, hlt, h1]
    rw [hneg]
    exact Double.round_neg_sign _ _ _
  · rw [heq, Int.natAbs_zero, Double.round_zero]

theorem Double.round_pos_err (n : Nat) (hn : 0 < n) :
    |(Double.round false n 1 0).toRat - (n : ℚ)| ≤ (n : ℚ) * (1 / (2 : ℚ) ^ (53 : ℕ))
      ∧ 0 < (Double.round false n 1 0).m := by
  have herr := Double.round_err false n 1 0 hn Nat.one_pos
  simp only [Bool.false_eq_true, if_false, one_mul, Nat.cast_one, div_one, zpow_zero,
    mul_one] at herr
  have hnq : (0 : ℚ) < n := by exact_mod_cast hn
  refine ⟨by rw [mul_one_div]; exact herr, ?_⟩
  rw [← Double.toRat_pos_iff]
  have hlt : (n : ℚ) / (2 : ℚ) ^ (53 : ℕ) < n := by
    rw [div_lt_iff₀ (by positivity)]
    have : (1 : ℚ) < (2 : ℚ) ^ (53 : ℕ) := by norm_num
    nlinarith
  have := (abs_le.1 herr).1
  linarith

theorem secondsLeft_at_1000 :
    Double.div (Double.round false 1000 1 0) (Double.ofNat 1000) (by decide)
      = ⟨4503599627370496, -52⟩ := by
  decide

/-- Fewer than one whole second is left exactly when `expiry - now < 1000`. -/
theorem secondsLeft_le_zero_iff (expiry now : Int) :
    secondsLeft expiry now ≤ 0 ↔ expiry - now < 1000 := by
  unfold secondsLeft
  rw [Math.floor_eq, ← Int.lt_add_one_iff, zero_add, Int.floor_lt, Double.sub_ofInt]
  push_cast
  rcases lt_trichotomy (expiry - now) 0 with hneg | hzero | hpos
  · have hS : (Double.round (decide (expiry - now < 0)) (expiry - now).natAbs 1 0).m ≤ 0 := by
      rw [decide_eq_true hneg]
      exact Double.round_neg_sign _ _ _
    have hQ := Double.div_nonpos _ 1000 (by decide) hS
    constructor
    · intro _
      omega
    · intro _
      linarith
  · have hS : (Double.round (decide (expiry - now < 0)) (expiry - now).natAbs 1 0).m ≤ 0 := by
      rw [hzero, Int.natAbs_zero, Double.round_zero]
    have hQ := Double.div_nonpos _ 1000 (by decide) hS
    constructor
    · intro _
      omega
    · intro _
      linarith
  · have hdec : decide (expiry - now < 0) = false := decide_eq_false (by omega)
    have hnat : 0 < (expiry - now).natAbs := Int.natAbs_pos.2 hpos.ne'
    have hcast : (((expiry - now).natAbs : ℕ) : ℚ) = ((expiry - now : ℤ) : ℚ) := by
      rw [← Int.cast_natCast, Int.natAbs_of_nonneg hpos.le]
    by_cases h1000 : expiry - now = 1000
    · have hval : (Double.div (Double.round (decide (expiry - now < 0))
          (expiry - now).natAbs 1 0) (Double.ofNat 1000) (by decide)).toRat = 1 := by
        rw [hdec, h1000]
        show (Double.div (Double.round false 1000 1 0) (Double.ofNat 1000) _).toRat = 1
        rw [secondsLeft_at_1000]
        norm_num [Double.toRat]
      rw [hval]
      constructor
      · intro h
        exact absurd h (lt_irrefl 1)
      · intro h
        omega
    · rw [hdec]
      obtain ⟨hS, hSm⟩ := Double.round_pos_err (expiry - now).natAbs hnat
      have hQ := Double.div_ofNat_pos_err _ 1000 hSm (by norm_num) (by decide)
      rw [hcast] at hS
      have hdq : (0 : ℚ) < ((expiry - now : ℤ) : ℚ) := by exact_mod_cast hpos
      have harith := seconds_arith _ _ _ (1 / (2 : ℚ) ^ (53 : ℕ)) hdq (by positivity)
        (by norm_num) hS (by rw [mul_one_div]; exact_mod_cast hQ)
      constructor
      · intro hlt
        by_contra hge
        have h1001 : 1001 ≤ expiry - now := by omega
        have : (1001 : ℚ) ≤ ((expiry - now : ℤ) : ℚ) := by exact_mod_cast h1001
        have := harith.2 this
        linarith
      · intro hlt
        have h999 : expiry - now ≤ 999 := by omega
        have : ((expiry - now : ℤ) : ℚ) ≤ 999 := by exact_mod_cast h999
        exact harith.1 this

theorem timeLeft_ne_expired (a b : String) : a ++ ":" ++ b ≠ "Expired" := by
  intro h
  have hd : (a ++ ":" ++ b).data = "Expired".data := by rw [h]
  have hmem : ':' ∈ (a ++ ":" ++ b).data := by
    simp [String.data_append]
  rw [hd] at hmem
  exact absurd hmem (by decide)

/-! ## Attendance percentage: checked properties -/

/-- C5, as stated, fails: with 23 of 40 records PRESENT the exact percentage is
57.5, which rounds (halves up) to 58, but `(23 / 40) * 100` is
57.49999999999999 in binary64 and `getPercentage` returns 57. -/
theorem getPercentage_tie_counterexample :
    getPercentage tieHistory 7 = 57
      ∧ specPercentage 23 40 = 58
      ∧ (tieHistory.filter (fun a => a.courseId == 7)).length = 40
      ∧ ((tieHistory.filter (fun a => a.courseId == 7)).filter
          (fun a => a.status == "PRESENT" || a.status == "LATE")).length = 23 := by
  decide

/-- C5 (amended): for every attendance history (of fewer than 2^32 records, the
limit of a JavaScript array) and every course id with at least one record,
where `n` counts the records of the course and `p` those with status PRESENT
or LATE: `getPercentage` equals `100 p / n` rounded to the nearest integer
whenever `100 p / n` is not exactly halfway between two integers, and at a
halfway value it is that rounded value or the integer below it. -/
theorem getPercentage_eq_spec_off_ties (attendanceHistory : List AttendanceRecord)
    (courseId : Nat) (hlen : attendanceHistory.length < 2 ^ 32)
    (hrec : 0 < (attendanceHistory.filter (fun a => a.courseId == courseId)).length) :
    let records := attendanceHistory.filter (fun a => a.courseId == courseId)
    let n := records.length
    let p := (records.filter (fun a => a.status == "PRESENT" || a.status == "LATE")).length
    ((200 * p + n) % (2 * n) ≠ 0 →
        getPercentage attendanceHistory courseId = specPercentage p n) ∧
      (getPercentage attendanceHistory courseId = specPercentage p n ∨
        getPercentage attendanceHistory courseId = specPercentage p n - 1) := by
  intro records n p
  obtain ⟨y, hy, herr⟩ := getPercentage_eq_floor attendanceHistory courseId hrec
  have hnb : n < 2 ^ 32 :=
    lt_of_le_of_lt (List.length_filter_le _ attendanceHistory) hlen
  have := round_stable p n hrec hnb y herr
  rw [hy]
  exact this

/-- Witness for C5: the specification's example, 3 PRESENT and 1 ABSENT give 75. -/
theorem getPercentage_eq_spec_off_ties_witness : getPercentage exampleHistory 7 = 75 :=
  (getPercentage_eq_spec_off_ties exampleHistory 7 (by decide) (by decide)).1 (by decide)

/-! ## Countdown: checked properties -/

/-- C6, as stated, fails: half a second before the expiry the tick already sets
`'Expired'` and marks the session inactive, although the current time is not
yet at the expiry. -/
theorem countdownTick_expired_early_counterexample :
    (countdownTick (some 1700000000500) 1700000000000
        (teacherWithSession 1700000000500)).1.timeLeft = some "Expired"
      ∧ ((countdownTick (some 1700000000500) 1700000000000
        (teacherWithSession 1700000000500)).1.activeSession.map (fun s => s.isActive))
          = some (some false)
      ∧ ¬ ((1700000000000 : Int) ≥ 1700000000500) := by
  decide

/-- C6 (amended): for every expiry and current time in milliseconds, one
countdown tick sets `timeLeft` to `'Expired'` exactly when
`expiry - now < 1000`, that is as soon as less than one whole second is left
(so in particular whenever `now ≥ expiry`); it then marks the session inactive
and clears the interval; and the value of `timeLeft` after the tick is the
same whatever the rest of the state is (poll results included). -/
theorem countdownTick_expired_iff (expiry now : Int) (st : TeacherState) :
    ((countdownTick (some expiry) now st).1.timeLeft = some "Expired" ↔
        expiry - now < 1000) ∧
      ((countdownTick (some expiry) now st).1.timeLeft = some "Expired" →
        (countdownTick (some expiry) now st).1.activeSession = markInactive st.activeSession ∧
        ((countdownTick (some expiry) now st).1.activeSession.map (fun s => s.isActive))
          = some (some false) ∧
        (countdownTick (some expiry) now st).2 = true) ∧
      (∀ st' : TeacherState,
        (countdownTick (some expiry) now st').1.timeLeft
          = (countdownTick (some expiry) now st).1.timeLeft) := by
  have hiff := secondsLeft_le_zero_iff expiry now
  by_cases h : secondsLeft expiry now ≤ 0
  · have key : ∀ s : TeacherState, countdownTick (some expiry) now s =
        ({ s with timeLeft := some "Expired",
                  activeSession := markInactive s.activeSession }, true) := by
      intro s
      simp [countdownTick, h]
    rw [key st]
    refine ⟨⟨fun _ => hiff.1 h, fun _ => rfl⟩, fun _ => ⟨rfl, ?_, rfl⟩, fun st' => ?_⟩
    · simp [markInactive]
    · rw [key st']
  · have key : ∀ s : TeacherState, (countdownTick (some expiry) now s).1.timeLeft =
        some (toString (Math.floor (Double.div (Double.ofInt (secondsLeft expiry now))
            (Double.ofNat 60) (by decide)))
          ++ ":" ++ padStart (toString (secondsLeft expiry now % 60)) 2 '0') := by
      intro s
      simp [countdownTick, h]
    have hne : ∀ a b : String, some (a ++ ":" ++ b) ≠ some "Expired" := by
      intro a b hab
      exact timeLeft_ne_expired a b (Option.some.inj hab)
    rw [key st]
    refine ⟨⟨fun hx => absurd hx (hne _ _), fun hx => absurd (hiff.2 hx) h⟩,
      fun hx => absurd hx (hne _ _), fun st' => ?_⟩
    rw [key st']

/-! ## API wrapper: checked properties -/

/-- C11: the error handler of the response interceptor clears local storage and
sets the location to `/login` exactly when the status of the failed response
is 401; for every other status, and when there is no response, it performs no
effect and leaves storage and location as they are. -/
theorem api_responseInterceptor_401_iff (error : AxiosError) (b : Browser) :
    ((api.responseErrorInterceptor error b).1 = [.clearStorage, .setLocation "/login"] ↔
        error.status = some 401) ∧
      (error.status = some 401 →
        (api.responseErrorInterceptor error b).2 = { localStorage := [], location := "/login" }) ∧
      (error.status ≠ some 401 → api.responseErrorInterceptor error b = ([], b)) := by
  unfold api.responseErrorInterceptor
  by_cases h : error.status = some 401
  · simp [h]
  · simp [h]

theorem api_request_headers (env : Option String) (b : Browser) (method path : String)
    (data : List (String × JSVal)) (token : String) (htok : b.getItem "token" = some token)
    (hne : token ≠ "") :
    (api.request env b method path data).headers =
      [("Content-Type", "application/json"), ("Authorization", "Bearer " ++ token)] := by
  simp [api.request, api.requestInterceptor, htok, hne, setHeader]

theorem api_request_url (env : Option String) (b : Browser) (method path : String)
    (data : List (String × JSVal)) :
    (api.request env b method path data).url = BASE_URL env ++ path := by
  unfold api.request api.requestInterceptor
  split
  · split <;> rfl
  · rfl

/-- C12, as stated, fails: with a token in local storage the request of the
login page, and likewise the requests of `authAPI`, carry no `Authorization`
header; they are sent with `fetch`, not through the `api` instance. -/
theorem fetch_calls_carry_no_token_counterexample :
    browserWithToken.getItem "token" = some "jwt-123"
      ∧ ((BackendCall.loginPage sampleLogin).request none browserWithToken).headers
          = [("Content-Type", "application/json")]
      ∧ ("Authorization", "Bearer jwt-123") ∉
          ((BackendCall.loginPage sampleLogin).request none browserWithToken).headers
      ∧ ("Authorization", "Bearer jwt-123") ∉
          ((BackendCall.registerStudent []).request none browserWithToken).headers := by
  decide

/-- C12 (amended): when a non-empty token is stored in local storage, every
call made through the `api` instance (every method of `studentAPI`,
`teacherAPI` and `adminAPI`) carries the header `Authorization: Bearer <token>`
next to the content type, while the calls made with `fetch` (the methods of
`authAPI` and the request of the login page) carry the content type only. -/
theorem api_calls_carry_token (env : Option String) (b : Browser) (c : BackendCall)
    (token : String) (htok : b.getItem "token" = some token) (hne : token ≠ "") :
    (c.viaApi = true →
        (c.request env b).headers =
          [("Content-Type", "application/json"), ("Authorization", "Bearer " ++ token)]) ∧
      (c.viaApi = false →
        (c.request env b).headers = [("Content-Type", "application/json")]) := by
  have h := fun method path data => api_request_headers env b method path data token htok hne
  cases c <;>
    simp [BackendCall.viaApi, BackendCall.request, studentAPI.getEnrolledCourses,
      studentAPI.getAttendanceHistory, studentAPI.getAttendanceByCourse,
      studentAPI.markAttendance, studentAPI.getAvailableCourses, studentAPI.selfEnroll,
      studentAPI.unenroll, teacherAPI.getCourses, teacherAPI.generateQR,
      teacherAPI.getSessionDetails, teacherAPI.getSessionAttendance,
      teacherAPI.deactivateSession, adminAPI.getAllDepartments, adminAPI.createDepartment,
      adminAPI.deleteDepartment, adminAPI.getAllCourses, adminAPI.createCourse,
      adminAPI.deleteCourse, adminAPI.getAllStudents, adminAPI.enrollStudent,
      adminAPI.getAllTeachers, adminAPI.getAllAttendance, authAPI.login,
      authAPI.registerStudent, authAPI.registerTeacher, Login.request,
      api.get, api.post, api.put, api.delete, h]

/-- Witness for C12: the deactivate call of a teacher with a stored token. -/
theorem api_calls_carry_token_witness :
    ((BackendCall.deactivateSession (.num 12)).request none browserWithToken).headers =
      [("Content-Type", "application/json"), ("Authorization", "Bearer jwt-123")] :=
  (api_calls_carry_token none browserWithToken (.deactivateSession (.num 12)) "jwt-123"
    (by decide) (by decide)).1 (by decide)

/-- Every call except the request of the login page goes to the configured
base URL followed by its endpoint path. -/
theorem BackendCall.url_eq (env : Option String) (b : Browser) (c : BackendCall)
    (h : ∀ st, c ≠ .loginPage st) : (c.request env b).url = BASE_URL env ++ c.path := by
  have hu := fun method path data => api_request_url env b method path data
  cases c <;>
    first
    | exact absurd rfl (h _)
    | simp [BackendCall.path, BackendCall.request, studentAPI.getEnrolledCourses,
        studentAPI.getAttendanceHistory, studentAPI.getAttendanceByCourse,
        studentAPI.markAttendance, studentAPI.getAvailableCourses, studentAPI.selfEnroll,
        studentAPI.unenroll, teacherAPI.getCourses, teacherAPI.generateQR,
        teacherAPI.getSessionDetails, teacherAPI.getSessionAttendance,
        teacherAPI.deactivateSession, adminAPI.getAllDepartments, adminAPI.createDepartment,
        adminAPI.deleteDepartment, adminAPI.getAllCourses, adminAPI.createCourse,
        adminAPI.deleteCourse, adminAPI.getAllStudents, adminAPI.enrollStudent,
        adminAPI.getAllTeachers, adminAPI.getAllAttendance, authAPI.login,
        authAPI.registerStudent, authAPI.registerTeacher,
        api.get, api.post, api.put, api.delete, hu]

/-- C19 (the code departs from the claim): with the base URL configured as
`https://api.school.edu` the login page still posts to
`http://localhost:8080/api/auth/login`, which is not the configured base
followed by the endpoint path; `authAPI.login` does use the configured base. -/
theorem Login_request_ignores_base_url :
    ((BackendCall.loginPage sampleLogin).request (some "https://api.school.edu")
        browserWithToken).url = "http://localhost:8080/api/auth/login"
      ∧ ((BackendCall.loginPage sampleLogin).request (some "https://api.school.edu")
        browserWithToken).url
        ≠ BASE_URL (some "https://api.school.edu") ++ (BackendCall.loginPage sampleLogin).path
      ∧ ((BackendCall.login []).request (some "https://api.school.edu") browserWithToken).url
        = "https://api.school.edu/api/auth/login" := by
  decide

/-- C14, as stated, fails: when the registration request cannot reach the
server, the registration form shows `'Registration failed. Try again.'`, not
a cannot-connect message. -/
theorem Register_unreachable_counterexample :
    Register.validate sampleForm "STUDENT" = []
      ∧ (Register.handleSubmit none (registerState "STUDENT" sampleForm) .rejected).state.apiError
          = .str "Registration failed. Try again."
      ∧ (Register.handleSubmit none (registerState "STUDENT" sampleForm) .rejected).state.apiError
          ≠ .str "Cannot connect to server. Is Spring Boot running?" := by
  decide

/-- C14 (amended): when the request fails because the server is unreachable,
the login form shows the static message
`'Cannot connect to server. Is Spring Boot running?'`, and the registration
form (whose fields passed validation, so that a request was sent) shows its
generic fallback `'Registration failed. Try again.'`. -/
theorem unreachable_server_messages (lst : LoginState) (auth : AuthState)
    (env : Option String) (rst : RegisterState)
    (hvalid : Register.validate rst.formData rst.role = []) :
    (Login.handleSubmit lst auth .rejected).state.apiError
        = .str "Cannot connect to server. Is Spring Boot running?"
      ∧ (Register.handleSubmit env rst .rejected).state.apiError
        = .str "Registration failed. Try again."
      ∧ (Register.handleSubmit env rst .rejected).state.loading = false
      ∧ (Login.handleSubmit lst auth .rejected).state.loading = false := by
  refine ⟨rfl, ?_, ?_, rfl⟩ <;>
    simp [Register.handleSubmit, hvalid, Register.caughtMessage]

/-- Witness for C14: the sample login and the sample student registration. -/
theorem unreachable_server_messages_witness :
    (Register.handleSubmit none (registerState "STUDENT" sampleForm) .rejected).state.apiError
      = .str "Registration failed. Try again." :=
  (unreachable_server_messages sampleLogin loggedOut none (registerState "STUDENT" sampleForm)
    (by decide)).2.1

/-! ## Teacher session: checked properties -/

/-- C13 (the code departs from the claim): when the deactivate call, the
delete-department call or the delete-course call fails with a response that
carries a message, the alert shows a fixed text and not the server's message;
the create handlers next to them do show it. -/
theorem delete_and_deactivate_ignore_server_message :
    conflictError.message = .str "Department still has courses"
      ∧ (handleDeactivate none browserWithToken (teacherWithSession 1700000300000)
          (.error conflictError)).alerts = ["Failed to deactivate session"]
      ∧ (handleDeleteDept none browserWithToken adminLoaded 3 "Physics" true
          (.error conflictError) .failed).alerts
          = [⟨"error", .str "Failed to delete department"⟩]
      ∧ (handleDeleteCourse none browserWithToken adminLoaded 7 "CS101" true
          (.error conflictError) .failed).alerts
          = [⟨"error", .str "Failed to delete course"⟩]
      ∧ (handleCreateDept none browserWithToken adminLoaded (.error conflictError)
          .failed).alerts = [⟨"error", .str "Department still has courses"⟩] := by
  decide

/-- C15 (the code departs from the claim): a session that expires in five
minutes is deactivated successfully; `timeLeft` is `'Ended'` and the poll is
cancelled, but the countdown interval is still live (its dependency
`expiryTime` did not change), and its next tick one second later overwrites
`timeLeft` with `'4:59'`. -/
theorem countdown_survives_deactivate :
    (dashboardAfterGenerate 1700000300000).timers
        = { countdown := some (some 1700000300000), poll := some (some 1) }
      ∧ ((dashboardAfterGenerate 1700000300000).deactivate none browserWithToken
          (.ok .null)).st.timeLeft = some "Ended"
      ∧ ((dashboardAfterGenerate 1700000300000).deactivate none browserWithToken
          (.ok .null)).timers = { countdown := some (some 1700000300000), poll := none }
      ∧ (((dashboardAfterGenerate 1700000300000).deactivate none browserWithToken
          (.ok .null)).countdownFires 1700000001000).st.timeLeft = some "4:59" := by
  decide

/-- C16: `handleDeactivate` with an active session `s`.  When the call
succeeds, `isActive` becomes false, every other field of the session and of the
state is unchanged except `timeLeft`, which becomes `'Ended'`, and after the
render the poll interval is gone.  When the call fails, the state (so
`activeSession`, `timeLeft` and `sessionAttendance`) is unchanged, the alert is
shown and both intervals stay as they were. -/
theorem handleDeactivate_active_session (env : Option String) (b : Browser) (d : Teacher)
    (s : ActiveSession) (data : ResponseBody) (e : AxiosError)
    (hs : d.st.activeSession = some s) (hactive : s.isActive = some true) :
    (handleDeactivate env b d.st (.ok data)).state
        = { d.st with activeSession := some { s with isActive := some false },
                      timeLeft := some "Ended" }
      ∧ (d.deactivate env b (.ok data)).timers.poll = none
      ∧ (handleDeactivate env b d.st (.error e)).state = d.st
      ∧ (handleDeactivate env b d.st (.error e)).alerts = ["Failed to deactivate session"]
      ∧ (d.deactivate env b (.error e)) = d
      ∧ (handleDeactivate env b d.st (.ok data)).requests
          = [teacherAPI.deactivateSession env b (optNum s.sessionId)] := by
  have hok : (handleDeactivate env b d.st (.ok data)).state
      = { d.st with activeSession := some { s with isActive := some false },
                    timeLeft := some "Ended" } := by
    simp [handleDeactivate, hs, markInactive]
  have herr : (handleDeactivate env b d.st (.error e)).state = d.st := by
    simp [handleDeactivate, hs]
  refine ⟨hok, ?_, herr, ?_, ?_, ?_⟩
  · simp [Teacher.deactivate, Teacher.render, hok, runEffects, pollDeps, hs, hactive]
  · simp [handleDeactivate, hs]
  · simp [Teacher.deactivate, Teacher.render, herr, runEffects]
  · simp [handleDeactivate, hs]

/-- Witness for C16: the dashboard right after a session was generated. -/
theorem handleDeactivate_active_session_witness :
    ((dashboardAfterGenerate 1700000300000).deactivate none browserWithToken
      (.ok .null)).timers.poll = none :=
  (handleDeactivate_active_session none browserWithToken (dashboardAfterGenerate 1700000300000)
    { sessionId := some 1, courseId := some 7, courseName := some "Algorithms",
      sessionName := some "Lecture", qrCodeImage := some "data:image/png;base64,",
      expiryTime := some 1700000300000, isActive := some true, totalScans := some 0 }
    .null .noResponse (by decide) (by decide)).2.1

/-! ## Admin panels and student scanning: checked properties -/

/-- After a successful create or delete of a department or course, `fetchAll`
is requested, and when it succeeds the four collections are the server's. -/
theorem admin_mutations_refetch (env : Option String) (b : Browser) (st : AdminState)
    (id : Nat) (name : String) (data : ResponseBody) (server : Collections) :
    let rs := [handleCreateDept env b st (.ok data) (.loaded server),
      handleDeleteDept env b st id name true (.ok data) (.loaded server),
      handleCreateCourse env b st (.ok data) (.loaded server),
      handleDeleteCourse env b st id name true (.ok data) (.loaded server)]
    ∀ r ∈ rs, r.requests.tail = fetchAll.requests env b ∧
      r.state.departments = server.departments ∧ r.state.courses = server.courses ∧
      r.state.students = server.students ∧ r.state.teachers = server.teachers := by
  intro rs r hr
  simp only [rs, List.mem_cons, List.mem_singleton, List.not_mem_nil, or_false] at hr
  rcases hr with rfl | rfl | rfl | rfl <;>
    simp [handleCreateDept, handleDeleteDept, handleCreateCourse, handleDeleteCourse, fetchAll]

/-- C17 (the code departs from the claim): a successful enroll submission sends
the enroll request only; no `fetchAll` request follows, so the `students`
state keeps the stale row although the server's row has changed.  A successful
create department does refetch and ends with the server's collections. -/
theorem admin_enroll_does_not_refetch :
    (AdminDashboard.handleEnroll none browserWithToken adminLoaded (.ok .null)).requests
        = [adminAPI.enrollStudent none browserWithToken
            [("studentId", .num 5), ("courseId", .num 7)]]
      ∧ (∀ r ∈ fetchAll.requests none browserWithToken,
          r ∉ (AdminDashboard.handleEnroll none browserWithToken adminLoaded
            (.ok .null)).requests)
      ∧ (AdminDashboard.handleEnroll none browserWithToken adminLoaded (.ok .null)).state.students
          = adminLoaded.students
      ∧ (AdminDashboard.handleEnroll none browserWithToken adminLoaded (.ok .null)).state.students
          ≠ serverAfterEnroll.students
      ∧ (handleCreateDept none browserWithToken adminLoaded (.ok .null)
          (.loaded serverAfterEnroll)).state.students = serverAfterEnroll.students := by
  decide

/-- C18: for a department `d` of the rendered list: when the admin confirms,
the delete call succeeds and the refetch succeeds against a server that no
longer holds `d`, the `departments` state after `handleDeleteDept` is the
server's list and does not contain `d`; when the admin declines, no request is
sent and the state is unchanged. -/
theorem handleDeleteDept_removes_department (env : Option String) (b : Browser)
    (st : AdminState) (d : Department) (data : ResponseBody) (server : Collections)
    (delete : AxiosOutcome) (refetch : FetchAllOutcome)
    (hd : d ∈ st.departments) (hgone : d ∉ server.departments) :
    (handleDeleteDept env b st d.id d.departmentName true (.ok data)
        (.loaded server)).state.departments = server.departments
      ∧ d ∉ (handleDeleteDept env b st d.id d.departmentName true (.ok data)
        (.loaded server)).state.departments
      ∧ (handleDeleteDept env b st d.id d.departmentName true (.ok data)
        (.loaded server)).requests
          = adminAPI.deleteDepartment env b (.num d.id) :: fetchAll.requests env b
      ∧ (handleDeleteDept env b st d.id d.departmentName false delete refetch).requests = []
      ∧ (handleDeleteDept env b st d.id d.departmentName false delete refetch).state = st
      ∧ d ∈ (handleDeleteDept env b st d.id d.departmentName false delete
          refetch).state.departments := by
  have h1 : (handleDeleteDept env b st d.id d.departmentName true (.ok data)
      (.loaded server)).state.departments = server.departments := by
    simp [handleDeleteDept, fetchAll]
  have h2 : (handleDeleteDept env b st d.id d.departmentName false delete refetch).state = st := by
    simp [handleDeleteDept]
  refine ⟨h1, by rw [h1]; exact hgone, ?_, ?_, h2, by rw [h2]; exact hd⟩
  · simp [handleDeleteDept]
  · simp [handleDeleteDept]

/-- Witness for C18: the Physics department is deleted and the server's list is
empty afterwards. -/
theorem handleDeleteDept_removes_department_witness :
    (handleDeleteDept none browserWithToken adminLoaded 3 "Physics" true (.ok .null)
      (.loaded { serverAfterEnroll with departments := [] })).state.departments = [] :=
  (handleDeleteDept_removes_department none browserWithToken adminLoaded
    { id := 3, departmentName := "Physics", description := "", totalCourses := 0 } .null
    { serverAfterEnroll with departments := [] } (.ok .null) .failed
    (by decide) (by decide)).1

theorem stopScanner_scanResult (ok : Bool) (st : StudentState) :
    (stopScanner ok st).scanResult = st.scanResult := by
  unfold stopScanner
  split <;> rfl

/-- C20: for every token `t`, user and server outcome, the camera path
(decoding `t`) and the manual path (with `t` typed in; button click or Enter
key) send the same requests, the first of which is the `markAttendance` call
with `{qrToken: t, studentId}` where `studentId` is `user.studentId` when that
is set (truthy) and `user.userId` otherwise, and they end with the same
`scanResult`. -/
theorem scan_and_manual_submit_identically (env : Option String) (b : Browser) (user : User)
    (st : StudentState) (t : String) (stopSucceeds : Bool) (outcome : AxiosOutcome)
    (hm : st.manualToken = t) :
    (onScanDecoded env b user st t stopSucceeds outcome).requests
        = (onManualSubmit env b user st outcome).requests
      ∧ (onManualKeyDown env b user st "Enter" outcome).requests
        = (onManualSubmit env b user st outcome).requests
      ∧ (onManualSubmit env b user st outcome).requests.head?
        = some (studentAPI.markAttendance env b
            [("qrToken", .str t),
              ("studentId", if user.studentId.truthy then user.studentId else user.userId)])
      ∧ (onScanDecoded env b user st t stopSucceeds outcome).state.scanResult
        = (onManualSubmit env b user st outcome).state.scanResult
      ∧ (onManualKeyDown env b user st "Enter" outcome).state.scanResult
        = (onManualSubmit env b user st outcome).state.scanResult := by
  subst hm
  refine ⟨rfl, by simp [onManualKeyDown, onManualSubmit], ?_, ?_,
    by simp [onManualKeyDown, onManualSubmit]⟩
  · unfold onManualSubmit handleAttendanceMark
    simp only [StudentDashboard.studentId, JSVal.or]
    split <;> rfl
  · simp [onScanDecoded, onManualSubmit, stopScanner_scanResult]

/-- Witness for C20: a student pastes the token `tok-1`. -/
theorem scan_and_manual_submit_identically_witness :
    (onScanDecoded none browserWithToken studentUser (studentScanning "tok-1") "tok-1" true
        (.error .noResponse)).state.scanResult
      = (onManualSubmit none browserWithToken studentUser (studentScanning "tok-1")
        (.error .noResponse)).state.scanResult :=
  (scan_and_manual_submit_identically none browserWithToken studentUser
    (studentScanning "tok-1") "tok-1" true (.error .noResponse) rfl).2.2.2.1

/-! ## Teacher session: polling, generating and late results -/

/-- C21: while a session object is present, a successful attendance poll stores
the returned list in `sessionAttendance` and its length in the session's
`totalScans`; `sessionId`, `courseId`, `courseName`, `sessionName`,
`qrCodeImage`, `expiryTime` and `isActive` of the session and every other
state variable keep their values.  A failed poll leaves the state as it was. -/
theorem fetchSessionAttendance_active_session (st : TeacherState) (s : ActiveSession)
    (data : List AttendanceRecord) (e : AxiosError) (hs : st.activeSession = some s) :
    fetchSessionAttendance (.loaded data) st
        = { st with sessionAttendance := data,
                    activeSession := some { s with totalScans := some data.length } } ∧
      fetchSessionAttendance (.failed e) st = st := by
  simp [fetchSessionAttendance, withTotalScans, hs]

/-- Witness for C21: the poll returns two scans for the first session. -/
theorem fetchSessionAttendance_active_session_witness :
    dashboardFirstSession.st.activeSession = some (serverSession 1 60000) ∧
      (fetchSessionAttendance (.loaded twoScans) dashboardFirstSession.st
          = { dashboardFirstSession.st with
                sessionAttendance := twoScans,
                activeSession := some { serverSession 1 60000 with totalScans := some 2 } } ∧
        fetchSessionAttendance (.failed .noResponse) dashboardFirstSession.st
          = dashboardFirstSession.st) :=
  ⟨by decide,
    fetchSessionAttendance_active_session dashboardFirstSession.st (serverSession 1 60000)
      twoScans .noResponse (by decide)⟩

/-- C22: `handleGenerateQR` started while no generate call is pending (the
submit button is disabled while `generating`).  With no selected course there
is no request, no alert and the state is untouched.  With a selected course the
generate request is sent; on success `activeSession` is the server's response,
`sessionAttendance` is empty and the form is reset to session name `''` and
duration 5 (and an empty location); on failure the state, in particular
`activeSession` and `sessionAttendance`, is as before and the alert shows the
server's message or the fallback text.  In every case `generating` is false at
the end. -/
theorem handleGenerateQR_outcomes (env : Option String) (b : Browser) (st : TeacherState)
    (outcome : GenerateOutcome) (hg : st.generating = false) :
    (match st.selectedCourse, outcome with
      | none, _ =>
        handleGenerateQR env b st outcome = { state := st, requests := [], alerts := [] }
      | some course, .created session =>
        (handleGenerateQR env b st outcome).state
            = { st with activeSession := some session, sessionAttendance := [],
                        qrForm := { sessionName := "", durationMinutes := "5",
                                    location := some "" } } ∧
          (handleGenerateQR env b st outcome).requests
            = [teacherAPI.generateQR env b
                [("courseId", .num course.id), ("sessionName", .str st.qrForm.sessionName),
                  ("durationMinutes", jsonNumber (parseInt st.qrForm.durationMinutes))]] ∧
          (handleGenerateQR env b st outcome).alerts = []
      | some _, .failed e =>
        (handleGenerateQR env b st outcome).state = st ∧
          (handleGenerateQR env b st outcome).alerts
            = [e.message.or (.str "Failed to generate QR code")]) ∧
      (handleGenerateQR env b st outcome).state.generating = false := by
  cases hc : st.selectedCourse with
  | none => simp [handleGenerateQR, hc, hg]
  | some course =>
    cases outcome with
    | created session =>
      cases st
      simp_all [handleGenerateQR]
    | failed e =>
      cases st
      simp_all [handleGenerateQR]

/-- Witness for C22: a session is generated for the selected course. -/
theorem handleGenerateQR_outcomes_witness :
    (handleCourseSelect algorithms teacherIdle).generating = false ∧
      (handleGenerateQR none browserWithToken (handleCourseSelect algorithms teacherIdle)
        (.created (serverSession 1 60000))).state.generating = false :=
  ⟨by decide,
    (handleGenerateQR_outcomes none browserWithToken (handleCourseSelect algorithms teacherIdle)
      (.created (serverSession 1 60000)) (by decide)).2⟩

/-- C23 (the code departs from the claim): the teacher generates a session and
then selects another course, which sets `activeSession` to `null` and cancels
both intervals.  A poll response that arrives afterwards turns `activeSession`
into the object `{ totalScans: 2 }` and fills `sessionAttendance` with the
scans of the abandoned session; a deactivate call that settles afterwards, or
the update of an expiry tick, turns it into `{ isActive: false }`. -/
theorem late_results_revive_session :
    (dashboardFirstSession.courseSelect databases).st.activeSession = none
      ∧ (dashboardFirstSession.courseSelect databases).timers
          = { countdown := none, poll := none }
      ∧ ((dashboardFirstSession.courseSelect databases).pollSettled
          (.loaded twoScans)).st.activeSession
          = some { ActiveSession.empty with totalScans := some 2 }
      ∧ ((dashboardFirstSession.courseSelect databases).pollSettled
          (.loaded twoScans)).st.sessionAttendance = twoScans
      ∧ ((dashboardFirstSession.courseSelect databases).deactivateSettled
          (.ok .null)).st.activeSession
          = some { ActiveSession.empty with isActive := some false }
      ∧ (countdownTick (some 60000) 60000
          (dashboardFirstSession.courseSelect databases).st).1.activeSession
          = some { ActiveSession.empty with isActive := some false } := by
  decide

/-- C24 (the code departs from the claim): the first session expires at time
value 60000 and the tick at that time sets `timeLeft` to `'Expired'`.  The
teacher then generates a second session that expires at 400000: the session is
shown as active, its countdown interval has just been started and has not
ticked yet, and `timeLeft` is still `'Expired'`.  After a deactivated session
the same happens with `'Ended'`. -/
theorem generate_keeps_stale_timeLeft :
    (dashboardFirstSession.countdownFires 60000).st.timeLeft = some "Expired"
      ∧ ((dashboardFirstSession.countdownFires 60000).generate none browserWithToken
          (.created (serverSession 2 400000))).st.activeSession
          = some (serverSession 2 400000)
      ∧ (serverSession 2 400000).isActive = some true
      ∧ ((dashboardFirstSession.countdownFires 60000).generate none browserWithToken
          (.created (serverSession 2 400000))).st.timeLeft = some "Expired"
      ∧ ((dashboardFirstSession.countdownFires 60000).generate none browserWithToken
          (.created (serverSession 2 400000))).timers.countdown = some (some 400000)
      ∧ ((dashboardFirstSession.deactivate none browserWithToken (.ok .null)).generate none
          browserWithToken (.created (serverSession 2 400000))).st.activeSession
          = some (serverSession 2 400000)
      ∧ ((dashboardFirstSession.deactivate none browserWithToken (.ok .null)).generate none
          browserWithToken (.created (serverSession 2 400000))).st.timeLeft = some "Ended" := by
  decide

/-! ## Attendance percentages and bar colour: range and safety -/

theorem percent_round_bounds (p n : Nat) (hpn : p ≤ n) (hb : (Double.ofNat n).m ≠ 0) :
    0 ≤ Math.round (Double.mul (Double.div (Double.ofNat p) (Double.ofNat n) hb)
          (Double.ofNat 100)) ∧
      Math.round (Double.mul (Double.div (Double.ofNat p) (Double.ofNat n) hb)
          (Double.ofNat 100)) ≤ 100 := by
  have hn : 0 < n := by
    simp only [Double.ofNat] at hb
    omega
  have hnq : (0 : ℚ) < n := by exact_mod_cast hn
  rw [Math.round_eq]
  by_cases hp : 0 < p
  · have herr := percent_err p n hp hpn hb
    have hq0 : (0 : ℚ) ≤ (p : ℚ) / n := by positivity
    have hq1 : (p : ℚ) / n ≤ 1 := by
      rw [div_le_one hnq]
      exact_mod_cast hpn
    have hsmall : 201 * (1 / (2 : ℚ) ^ (53 : ℕ)) < 1 / 4 := by norm_num
    rw [abs_le] at herr
    obtain ⟨h1, h2⟩ := herr
    constructor
    · rw [Int.floor_nonneg]
      linarith
    · have : ⌊(Double.mul (Double.div (Double.ofNat p) (Double.ofNat n) hb)
          (Double.ofNat 100)).toRat + 1 / 2⌋ < 101 := by
        rw [Int.floor_lt]
        push_cast
        linarith
      omega
  · have hp0 : p = 0 := by omega
    subst hp0
    rw [percent_zero]
    norm_num

/-- C25: for every attendance history and every course id, `getPercentage` and
`overallPct` are integers between 0 and 100, and the width of the attendance
bar is `k%` for a natural number `k` of at most 100. -/
theorem percentages_in_range (attendanceHistory : List AttendanceRecord) (courseId : Nat) :
    0 ≤ getPercentage attendanceHistory courseId ∧
      getPercentage attendanceHistory courseId ≤ 100 ∧
      0 ≤ overallPct attendanceHistory ∧ overallPct attendanceHistory ≤ 100 ∧
      ∃ k : Nat, k ≤ 100 ∧
        barWidth (getPercentage attendanceHistory courseId) = toString k ++ "%" := by
  have hg : 0 ≤ getPercentage attendanceHistory courseId ∧
      getPercentage attendanceHistory courseId ≤ 100 := by
    unfold getPercentage
    simp only []
    split_ifs with h
    · exact ⟨le_refl 0, by norm_num⟩
    · exact percent_round_bounds _ _ (List.length_filter_le _ _) _
  have ho : 0 ≤ overallPct attendanceHistory ∧ overallPct attendanceHistory ≤ 100 := by
    unfold overallPct
    simp only []
    split_ifs with h
    · exact percent_round_bounds _ _ (List.length_filter_le _ _) _
    · exact ⟨le_refl 0, by norm_num⟩
  refine ⟨hg.1, hg.2, ho.1, ho.2, ?_⟩
  obtain ⟨k, hk⟩ := Int.eq_ofNat_of_zero_le hg.1
  refine ⟨k, ?_, ?_⟩
  · have := hg.2
    omega
  · unfold barWidth
    rw [hk]
    rfl

/-- C26: `getPercentage(courseId)` is 0 when no record of the history has that
course id and `overallPct` is 0 for the empty history; for every history each of
the two values is either the 0 of the guard or the rounded quotient computed
with a record count that is positive, so that the divisor is not zero. -/
theorem percentages_never_divide_by_zero (attendanceHistory other : List AttendanceRecord)
    (courseId : Nat) (hnone : ∀ a ∈ attendanceHistory, a.courseId ≠ courseId) :
    getPercentage attendanceHistory courseId = 0 ∧ overallPct [] = 0 ∧
      (getPercentage other courseId = 0 ∨
        ∃ (_ : 0 < (other.filter (fun a => a.courseId == courseId)).length)
          (hb : (Double.ofNat (other.filter (fun a => a.courseId == courseId)).length).m ≠ 0),
          getPercentage other courseId =
            Math.round (Double.mul
              (Double.div
                (Double.ofNat ((other.filter (fun a => a.courseId == courseId)).filter
                  (fun a => a.status == "PRESENT" || a.status == "LATE")).length)
                (Double.ofNat (other.filter (fun a => a.courseId == courseId)).length) hb)
              (Double.ofNat 100))) ∧
      (overallPct other = 0 ∨
        ∃ (_ : 0 < other.length) (hb : (Double.ofNat other.length).m ≠ 0),
          overallPct other =
            Math.round (Double.mul
              (Double.div
                (Double.ofNat (other.filter
                  (fun a => a.status == "PRESENT" || a.status == "LATE")).length)
                (Double.ofNat other.length) hb)
              (Double.ofNat 100))) := by
  refine ⟨?_, by decide, ?_, ?_⟩
  · have hnil : attendanceHistory.filter (fun a => a.courseId == courseId) = [] := by
      rw [List.filter_eq_nil_iff]
      intro a ha
      simpa using hnone a ha
    unfold getPercentage
    simp [hnil]
  · by_cases h : (other.filter (fun a => a.courseId == courseId)).length = 0
    · left
      unfold getPercentage
      simp only []
      rw [dif_pos h]
    · right
      refine ⟨by omega, by simpa [Double.ofNat] using h, ?_⟩
      unfold getPercentage
      simp only []
      rw [dif_neg h]
  · by_cases h : other.length > 0
    · right
      refine ⟨h, by simp only [Double.ofNat]; omega, ?_⟩
      unfold overallPct
      simp only []
      rw [dif_pos h]
    · left
      unfold overallPct
      simp only []
      rw [dif_neg h]

/-- Witness for C26: the example history has no record of course 9. -/
theorem percentages_never_divide_by_zero_witness :
    (∀ a ∈ exampleHistory, a.courseId ≠ 9) ∧ getPercentage exampleHistory 9 = 0 :=
  ⟨by decide, (percentages_never_divide_by_zero exampleHistory exampleHistory 9 (by decide)).1⟩

/-- C28: `getBarColor(p)` is `'fill-green'` exactly when `p ≥ 75`,
`'fill-orange'` exactly when `50 ≤ p < 75` and `'fill-red'` exactly when
`p < 50`; it always is one of the three, and a higher percentage never gets a
worse colour. -/
theorem getBarColor_classification (p : Int) :
    (getBarColor p = "fill-green" ↔ 75 ≤ p) ∧
      (getBarColor p = "fill-orange" ↔ 50 ≤ p ∧ p < 75) ∧
      (getBarColor p = "fill-red" ↔ p < 50) ∧
      (getBarColor p = "fill-green" ∨ getBarColor p = "fill-orange" ∨
        getBarColor p = "fill-red") ∧
      Monotone (fun q : Int => colourRank (getBarColor q)) := by
  have key : ∀ q : Int, getBarColor q =
      if 75 ≤ q then "fill-green" else if 50 ≤ q then "fill-orange" else "fill-red" := by
    intro q; rfl
  refine ⟨?_, ?_, ?_, ?_, ?_⟩
  · rw [key]; split_ifs <;> simp <;> omega
  · rw [key]; split_ifs <;> simp <;> omega
  · rw [key]; split_ifs <;> simp <;> omega
  · rw [key]; split_ifs <;> simp
  · intro a c hac
    simp only [key]
    split_ifs <;> simp [colourRank] <;> omega

/-! ## Countdown label: minutes and seconds -/

theorem roundNearestEven_ge (n d J : Nat) (hd : 0 < d) (h : J * d ≤ n) :
    J ≤ roundNearestEven n d := by
  have hq : J ≤ n / d := (Nat.le_div_iff_mul_le hd).2 h
  unfold roundNearestEven
  simp only []
  split_ifs <;> omega

theorem roundNearestEven_le (n d J : Nat) (hd : 0 < d) (h : n ≤ J * d) :
    roundNearestEven n d ≤ J := by
  have hdm := Nat.div_add_mod n d
  have hq : n / d ≤ J := by
    by_contra hlt
    have h1 : J + 1 ≤ n / d := by omega
    have h2 : (J + 1) * d ≤ n := (Nat.le_div_iff_mul_le hd).1 h1
    nlinarith
  have hq2 : 0 < n % d → n / d < J := by
    intro hr
    by_contra hge
    have hJ : J = n / d := by omega
    rw [hJ] at h
    nlinarith [Nat.mul_comm d (n / d)]
  unfold roundNearestEven
  simp only []
  split_ifs <;> omega

/-- Rounding does not cross an integer: below 2^53 every integer is a double. -/
theorem Double.round_int_mono (n d : Nat) (x : Int) (k : Nat) (hn : 0 < n) (hd : 0 < d)
    (hv : (n : ℚ) / d * (2 : ℚ) ^ x < (2 : ℚ) ^ (53 : ℕ)) :
    ((k : ℚ) ≤ (n : ℚ) / d * (2 : ℚ) ^ x → (k : ℚ) ≤ (Double.round false n d x).toRat) ∧
      ((n : ℚ) / d * (2 : ℚ) ^ x ≤ k → (Double.round false n d x).toRat ≤ k) := by
  have hdq : (0 : ℚ) < d := by exact_mod_cast hd
  obtain ⟨hpos, hs⟩ := scaleBy_spec n d (binadeExp n d) hd
  have hb := binadeExp_spec n d hn hd
  set e := binadeExp n d with he
  set s1 := (scaleBy n d e).1 with hs1
  set s2 := (scaleBy n d e).2 with hs2
  have hs2q : (0 : ℚ) < s2 := by exact_mod_cast hpos
  have hR : Double.round false n d x = ⟨(roundNearestEven s1 s2 : Nat), e + x⟩ := by
    unfold Double.round
    rw [if_neg (by omega)]
    simp
  have hvw : (n : ℚ) / d * (2 : ℚ) ^ x = (s1 : ℚ) / s2 * (2 : ℚ) ^ (e + x) := by
    rw [hs, mul_assoc, ← zpow_add₀ (by norm_num : (2 : ℚ) ≠ 0)]
    congr 2
    ring
  have hp : (0 : ℚ) < (2 : ℚ) ^ (e + x) := by positivity
  -- the exponent of the result is not positive
  have hex : e + x ≤ 0 := by
    by_contra hgt
    have h1 : (1 : ℤ) ≤ e + x := by omega
    have h2 : (2 : ℚ) ^ (1 : ℤ) ≤ (2 : ℚ) ^ (e + x) :=
      zpow_le_zpow_right₀ (by norm_num) h1
    have h3 : (2 : ℚ) ^ (52 : ℕ) * (2 : ℚ) ^ (e + x) ≤ (s1 : ℚ) / s2 * (2 : ℚ) ^ (e + x) := by
      rw [hs]
      exact mul_le_mul_of_nonneg_right hb hp.le
    rw [hvw] at hv
    have h4 : (2 : ℚ) ^ (52 : ℕ) * (2 : ℚ) ^ (1 : ℤ) = (2 : ℚ) ^ (53 : ℕ) := by norm_num
    have h5 : (2 : ℚ) ^ (52 : ℕ) * (2 : ℚ) ^ (1 : ℤ) ≤ (2 : ℚ) ^ (52 : ℕ) * (2 : ℚ) ^ (e + x) :=
      mul_le_mul_of_nonneg_left h2 (by positivity)
    linarith
  obtain ⟨t, ht⟩ := Int.eq_ofNat_of_zero_le (show 0 ≤ -(e + x) by omega)
  have hext : e + x = -(t : ℤ) := by omega
  have hpow : (2 : ℚ) ^ (e + x) = 1 / (2 : ℚ) ^ t := by
    rw [hext, zpow_neg, zpow_natCast, one_div]
  have h2t : (0 : ℚ) < (2 : ℚ) ^ t := by positivity
  have hT : (Double.round false n d x).toRat
      = ((roundNearestEven s1 s2 : Nat) : ℚ) / (2 : ℚ) ^ t := by
    rw [hR]
    unfold Double.toRat
    simp only [Int.cast_natCast]
    rw [hpow]
    ring
  rw [hT, hvw, hpow]
  constructor
  · intro hk
    have h1 : (k : ℚ) * (2 : ℚ) ^ t * s2 ≤ s1 := by
      have := mul_le_mul_of_nonneg_right hk (mul_pos h2t hs2q).le
      have e1 : (s1 : ℚ) / s2 * (1 / (2 : ℚ) ^ t) * ((2 : ℚ) ^ t * s2) = s1 := by
        field_simp
        left
        ring
      rw [e1] at this
      linarith
    have h2 : k * 2 ^ t * s2 ≤ s1 := by exact_mod_cast h1
    have h3 := roundNearestEven_ge s1 s2 (k * 2 ^ t) hpos h2
    rw [le_div_iff₀ h2t]
    exact_mod_cast h3
  · intro hk
    have h1 : (s1 : ℚ) ≤ (k : ℚ) * (2 : ℚ) ^ t * s2 := by
      have := mul_le_mul_of_nonneg_right hk (mul_pos h2t hs2q).le
      have e1 : (s1 : ℚ) / s2 * (1 / (2 : ℚ) ^ t) * ((2 : ℚ) ^ t * s2) = s1 := by
        field_simp
        left
        ring
      rw [e1] at this
      linarith
    have h2 : s1 ≤ k * 2 ^ t * s2 := by exact_mod_cast h1
    have h3 := roundNearestEven_le s1 s2 (k * 2 ^ t) hpos h2
    rw [div_le_iff₀ h2t]
    exact_mod_cast h3

/-- Floor of the quotient of a whole number below 2^53 by a positive natural
number, computed in binary64, is the exact integer quotient. -/
theorem Math.floor_div_ofNat (a : Double) (A k : Nat) (ha : 0 < a.m) (hA : a.toRat = A)
    (hk : 0 < k) (hlt : A < 2 ^ 53) (hb : (Double.ofNat k).m ≠ 0) :
    Math.floor (Double.div a (Double.ofNat k) hb) = ((A / k : Nat) : Int) := by
  have hkq : (0 : ℚ) < k := by exact_mod_cast hk
  have hdiv : Double.div a (Double.ofNat k) hb = Double.round false a.m.natAbs k a.e := by
    have h1 : ¬ ((k : ℤ) < 0) := not_lt.2 (Int.natCast_nonneg k)
    have h2 : ¬ (a.m < 0) := not_lt.2 ha.le
    simp [Double.div, Double.ofNat, h1, h2]
  have hnat : 0 < a.m.natAbs := Int.natAbs_pos.2 ha.ne'
  have hcast : ((a.m.natAbs : ℕ) : ℚ) = (a.m : ℚ) := by
    rw [← Int.cast_natCast, Int.natAbs_of_nonneg ha.le]
  have hval : ((a.m.natAbs : ℕ) : ℚ) / k * (2 : ℚ) ^ a.e = (A : ℚ) / k := by
    rw [hcast, ← hA]
    unfold Double.toRat
    ring
  have hAq : (A : ℚ) < (2 : ℚ) ^ (53 : ℕ) := by exact_mod_cast hlt
  have hA0 : (0 : ℚ) ≤ A := Nat.cast_nonneg A
  have hvlt : ((a.m.natAbs : ℕ) : ℚ) / k * (2 : ℚ) ^ a.e < (2 : ℚ) ^ (53 : ℕ) := by
    rw [hval]
    have : (A : ℚ) / k ≤ A := div_le_self hA0 (by exact_mod_cast hk)
    linarith
  have hmono := (Double.round_int_mono a.m.natAbs k a.e (A / k) hnat hk hvlt).1
  rw [hval] at hmono
  have hlow := hmono Nat.cast_div_le
  have herr := Double.div_ofNat_pos_err a k ha hk hb
  rw [hA] at herr
  rw [hdiv] at herr
  -- the exact quotient stays `1 / k` below the next integer
  have hdm := Nat.div_add_mod A k
  have hmod := Nat.mod_lt A hk
  have hup : (A : ℚ) / k ≤ ((A / k : Nat) : ℚ) + 1 - 1 / k := by
    have h1 : A + 1 ≤ k * (A / k) + k := by omega
    have h2 : (A : ℚ) + 1 ≤ (k : ℚ) * ((A / k : Nat) : ℚ) + k := by exact_mod_cast h1
    rw [div_le_iff₀ hkq]
    have : (((A / k : Nat) : ℚ) + 1 - 1 / k) * k = (k : ℚ) * ((A / k : Nat) : ℚ) + k - 1 := by
      field_simp
      ring
    rw [this]
    linarith
  have hsmall : (A : ℚ) / k / (2 : ℚ) ^ (53 : ℕ) < 1 / k := by
    rw [div_div, div_lt_div_iff₀ (by positivity) hkq]
    have : (A : ℚ) * k < 1 * (k * (2 : ℚ) ^ (53 : ℕ)) := by nlinarith
    linarith
  rw [hdiv, Math.floor_eq, Int.floor_eq_iff]
  have hub := (abs_le.1 herr).2
  rw [Int.cast_natCast]
  constructor
  · exact hlow
  · linarith

/-- The difference of two time values is exact below 2^53. -/
theorem Double.sub_ofInt_exact (a b : Int) (h0 : 0 < a - b) (hlt : a - b < 2 ^ 53) :
    (Double.sub (Double.ofInt a) (Double.ofInt b)).toRat = ((a - b).natAbs : ℚ) ∧
      0 < (Double.sub (Double.ofInt a) (Double.ofInt b)).m := by
  have hdec : decide (a - b < 0) = false := decide_eq_false (by omega)
  have hnat : 0 < (a - b).natAbs := Int.natAbs_pos.2 h0.ne'
  have hN : (a - b).natAbs < 2 ^ 53 := by omega
  have hNq : (((a - b).natAbs : ℕ) : ℚ) < (2 : ℚ) ^ (53 : ℕ) := by exact_mod_cast hN
  rw [Double.sub_ofInt, hdec]
  have hm := Double.round_int_mono (a - b).natAbs 1 0 (a - b).natAbs hnat Nat.one_pos
    (by simpa using hNq)
  simp only [Nat.cast_one, div_one, zpow_zero, mul_one] at hm
  have heq : (Double.round false (a - b).natAbs 1 0).toRat = ((a - b).natAbs : ℚ) :=
    le_antisymm (hm.2 (le_refl _)) (hm.1 (le_refl _))
  refine ⟨heq, ?_⟩
  rw [← Double.toRat_pos_iff, heq]
  exact_mod_cast hnat

/-- Below 2^53 milliseconds the whole seconds left are the exact quotient. -/
theorem secondsLeft_eq (expiry now : Int) (h0 : 0 < expiry - now)
    (hlt : expiry - now < 2 ^ 53) : secondsLeft expiry now = (expiry - now) / 1000 := by
  obtain ⟨hS, hm⟩ := Double.sub_ofInt_exact expiry now h0 hlt
  unfold secondsLeft
  rw [Math.floor_div_ofNat _ (expiry - now).natAbs 1000 hm hS (by norm_num) (by omega)]
  omega

/-- The minutes of the countdown are the exact quotient by 60. -/
theorem minutes_eq (diff : Int) (h0 : 0 < diff) (hlt : diff < 2 ^ 53) :
    Math.floor (Double.div (Double.ofInt diff) (Double.ofNat 60) (by decide)) = diff / 60 := by
  have hA : (Double.ofInt diff).toRat = (diff.natAbs : ℚ) := by
    unfold Double.toRat Double.ofInt
    simp only [zpow_zero, mul_one]
    rw [← Int.cast_natCast, Int.natAbs_of_nonneg h0.le]
  rw [Math.floor_div_ofNat _ diff.natAbs 60 (by simpa [Double.ofInt] using h0) hA
    (by norm_num) (by omega)]
  omega

theorem digitChar_value : ∀ k : Nat, k < 10 → (Nat.digitChar k).toNat - 48 = k := by
  decide

theorem decimalValue_toDigitsCore (fuel : Nat) : ∀ (n : Nat) (ds : List Char), n < fuel →
    List.foldl (fun v c => 10 * v + (c.toNat - 48)) 0 (Nat.toDigitsCore 10 fuel n ds)
      = List.foldl (fun v c => 10 * v + (c.toNat - 48)) n ds := by
  induction fuel with
  | zero => intro n ds h; omega
  | succ fuel ih =>
    intro n ds h
    have hd := digitChar_value (n % 10) (Nat.mod_lt _ (by norm_num))
    have hdm := Nat.div_add_mod n 10
    unfold Nat.toDigitsCore
    simp only []
    split_ifs with h0
    · rw [List.foldl_cons, hd]
      congr 1
      omega
    · rw [ih (n / 10) _ (by omega), List.foldl_cons, hd]
      congr 1

/-- Reading the decimal digits of a natural number gives the number back. -/
theorem decimalValue_toString (n : Nat) : decimalValue (toString n).data = n := by
  show List.foldl (fun v c => 10 * v + (c.toNat - 48)) 0 (Nat.toDigitsCore 10 (n + 1) n []) = n
  rw [decimalValue_toDigitsCore (n + 1) n [] (by omega)]
  rfl

theorem padStart_seconds : ∀ k : Nat, k < 60 →
    padStart (toString ((k : Nat) : Int)) 2 '0'
      = String.mk [Nat.digitChar (k / 10), Nat.digitChar (k % 10)] := by
  decide

theorem decimalValue_seconds : ∀ k : Nat, k < 60 →
    decimalValue [Nat.digitChar (k / 10), Nat.digitChar (k % 10)] = k := by
  decide

/-- The label of a tick that leaves at least one whole second. -/
theorem countdownTick_timeLeft (expiry now : Int) (st : TeacherState)
    (hpos : 0 < secondsLeft expiry now) (hlt : expiry - now < 2 ^ 53) :
    (countdownTick (some expiry) now st).1.timeLeft
      = some (toString ((expiry - now) / 1000 / 60).toNat ++ ":" ++
          String.mk [Nat.digitChar (((expiry - now) / 1000 % 60).toNat / 10),
            Nat.digitChar (((expiry - now) / 1000 % 60).toNat % 10)]) := by
  have h1000 : ¬ (expiry - now < 1000) := by
    intro h
    have := (secondsLeft_le_zero_iff expiry now).2 h
    omega
  have hs := secondsLeft_eq expiry now (by omega) hlt
  have hd0 : 0 < (expiry - now) / 1000 := by omega
  have hm := minutes_eq ((expiry - now) / 1000) hd0 (by omega)
  have hnot : ¬ (secondsLeft expiry now ≤ 0) := by omega
  obtain ⟨k, hk⟩ := Int.eq_ofNat_of_zero_le
    (show 0 ≤ (expiry - now) / 1000 % 60 by omega)
  obtain ⟨m, hmn⟩ := Int.eq_ofNat_of_zero_le
    (show 0 ≤ (expiry - now) / 1000 / 60 by omega)
  have hk60 : k < 60 := by omega
  unfold countdownTick
  simp only []
  rw [if_neg hnot]
  simp only [hs, hm, hk, hmn, Int.toNat_ofNat]
  rw [padStart_seconds k hk60]
  rfl

/-- The label of a tick determines the whole seconds left. -/
theorem timeLeft_label_injective (m1 k1 m2 k2 : Nat) (h1 : k1 < 60) (h2 : k2 < 60)
    (h : toString m1 ++ ":" ++ String.mk [Nat.digitChar (k1 / 10), Nat.digitChar (k1 % 10)]
      = toString m2 ++ ":" ++ String.mk [Nat.digitChar (k2 / 10), Nat.digitChar (k2 % 10)]) :
    m1 = m2 ∧ k1 = k2 := by
  have hd := congrArg String.data h
  simp only [String.data_append] at hd
  rw [List.append_assoc, List.append_assoc] at hd
  obtain ⟨ha, hb⟩ := List.append_inj' hd (by simp)
  constructor
  · have := congrArg decimalValue ha
    rwa [decimalValue_toString, decimalValue_toString] at this
  · have hb2 : [Nat.digitChar (k1 / 10), Nat.digitChar (k1 % 10)]
        = [Nat.digitChar (k2 / 10), Nat.digitChar (k2 % 10)] := by
      simpa using hb
    have := congrArg decimalValue hb2
    rwa [decimalValue_seconds k1 h1, decimalValue_seconds k2 h2] at this

/-- C27: for a tick whose whole remaining seconds `diff` are positive (time
values less than 2^53 ms apart, as those of any two dates after 1970 are),
`diff` is
`⌊(expiry − now) / 1000⌋` and `timeLeft` is `M:SS` with `M = ⌊diff / 60⌋` in
decimal and `SS = diff mod 60` written as two digits; `0 ≤ SS < 60`,
`60 · M + SS = diff`, and two such ticks that show the same text have the same
`diff`. -/
theorem countdownTick_minutes_seconds (expiry now : Int) (st : TeacherState)
    (expiry2 now2 : Int) (st2 : TeacherState)
    (hpos : 0 < secondsLeft expiry now) (hlt : expiry - now < 2 ^ 53)
    (hpos2 : 0 < secondsLeft expiry2 now2) (hlt2 : expiry2 - now2 < 2 ^ 53) :
    secondsLeft expiry now = (expiry - now) / 1000 ∧
      (∃ m ss : Nat, (m : Int) = secondsLeft expiry now / 60 ∧
        (ss : Int) = secondsLeft expiry now % 60 ∧ ss < 60 ∧
        60 * (m : Int) + ss = secondsLeft expiry now ∧
        (countdownTick (some expiry) now st).1.timeLeft
          = some (toString m ++ ":" ++
              String.mk [Nat.digitChar (ss / 10), Nat.digitChar (ss % 10)])) ∧
      ((countdownTick (some expiry) now st).1.timeLeft
          = (countdownTick (some expiry2) now2 st2).1.timeLeft →
        secondsLeft expiry now = secondsLeft expiry2 now2) := by
  have h1000 : ¬ (expiry - now < 1000) := by
    intro h
    have := (secondsLeft_le_zero_iff expiry now).2 h
    omega
  have h1000b : ¬ (expiry2 - now2 < 1000) := by
    intro h
    have := (secondsLeft_le_zero_iff expiry2 now2).2 h
    omega
  have hs := secondsLeft_eq expiry now (by omega) hlt
  have hs2 := secondsLeft_eq expiry2 now2 (by omega) hlt2
  have ht := countdownTick_timeLeft expiry now st hpos hlt
  have ht2 := countdownTick_timeLeft expiry2 now2 st2 hpos2 hlt2
  refine ⟨hs, ⟨((expiry - now) / 1000 / 60).toNat, ((expiry - now) / 1000 % 60).toNat,
    ?_, ?_, ?_, ?_, ht⟩, ?_⟩
  · rw [hs]; omega
  · rw [hs]; omega
  · omega
  · rw [hs]; omega
  · intro heq
    rw [ht, ht2, Option.some.injEq] at heq
    obtain ⟨hm, hk⟩ := timeLeft_label_injective _ _ _ _ (by omega) (by omega) heq
    rw [hs, hs2]
    omega

/-- Witness for C27: 125 seconds before the expiry the label is `2:05`. -/
theorem countdownTick_minutes_seconds_witness :
    0 < secondsLeft 125000 0 ∧ (125000 : Int) - 0 < 2 ^ 53 ∧
      secondsLeft 125000 0 = (125000 - 0) / 1000 :=
  ⟨by decide, by decide,
    (countdownTick_minutes_seconds 125000 0 teacherIdle 125000 0 teacherIdle
      (by decide) (by decide) (by decide) (by decide)).1⟩

/-! ## Routing: login targets, guard redirects and the two entry files -/

/-- C29: for a signed-in user whose role is STUDENT, TEACHER or ADMIN, the path
`Login` navigates to is a guarded route whose allow-list contains the role, and
`App` renders the dashboard there; and whenever the guard of any route sends a
signed-in user to another path, that path is a guarded route whose allow-list
contains the user's role and `App` renders the dashboard there, so no second
redirect follows. -/
theorem Login_and_guard_agree (auth : AuthState) (user : User)
    (hl : auth.loading = false) (hu : auth.user = some user) :
    (user.role ∈ [JSVal.str "STUDENT", JSVal.str "TEACHER", JSVal.str "ADMIN"] →
        ∃ path roles page, Login.redirect user.role = [path] ∧
          App.element path = .protectedRoute roles page ∧
          includes roles user.role = true ∧ App.render auth path = .children page) ∧
      (∀ (roles : List JSVal) (child : Page) (target : String),
        ProtectedRoute auth (some roles) child = .navigate target →
        ∃ roles2 page, App.element target = .protectedRoute roles2 page ∧
          includes roles2 user.role = true ∧ App.render auth target = .children page) := by
  constructor
  · intro hr
    simp only [List.mem_cons, List.mem_singleton, List.not_mem_nil, or_false] at hr
    rcases hr with h | h | h
    · refine ⟨"/student/dashboard", [.str "STUDENT"], .StudentDashboard, ?_, rfl, ?_, ?_⟩
      · rw [h]; rfl
      · rw [h]; rfl
      · simp [App.render, App.element, App.routes, RouteElement.render, ProtectedRoute, hl, hu,
          h, includes]
    · refine ⟨"/teacher/dashboard", [.str "TEACHER"], .TeacherDashboard, ?_, rfl, ?_, ?_⟩
      · rw [h]; rfl
      · rw [h]; rfl
      · simp [App.render, App.element, App.routes, RouteElement.render, ProtectedRoute, hl, hu,
          h, includes]
    · refine ⟨"/admin/dashboard", [.str "ADMIN"], .AdminDashboard, ?_, rfl, ?_, ?_⟩
      · rw [h]; rfl
      · rw [h]; rfl
      · simp [App.render, App.element, App.routes, RouteElement.render, ProtectedRoute, hl, hu,
          h, includes]
  · intro roles child target h
    simp only [ProtectedRoute, hl, hu, Bool.false_eq_true, if_false] at h
    by_cases hinc : includes roles user.role = true
    · simp [hinc] at h
    · simp only [hinc, Bool.not_false, Bool.not_eq_true] at h
      by_cases hs : user.role = .str "STUDENT"
      · simp [hs] at h
        subst h
        refine ⟨[.str "STUDENT"], .StudentDashboard, rfl, ?_, ?_⟩
        · rw [hs]; rfl
        · simp [App.render, App.element, App.routes, RouteElement.render, ProtectedRoute, hl,
            hu, hs, includes]
      · by_cases ht : user.role = .str "TEACHER"
        · simp [hs, ht] at h
          subst h
          refine ⟨[.str "TEACHER"], .TeacherDashboard, rfl, ?_, ?_⟩
          · rw [ht]; rfl
          · simp [App.render, App.element, App.routes, RouteElement.render, ProtectedRoute, hl,
              hu, ht, includes]
        · simp [hs, ht] at h

/-- Witness for C29: a student is sent to the student dashboard, which admits
students. -/
theorem Login_and_guard_agree_witness :
    studentAuth.loading = false ∧ studentAuth.user = some studentUser ∧
      (∃ path roles page, Login.redirect studentUser.role = [path] ∧
          App.element path = .protectedRoute roles page ∧
          includes roles studentUser.role = true ∧
          App.render studentAuth path = .children page) :=
  ⟨rfl, rfl, (Login_and_guard_agree studentAuth studentUser rfl rfl).1 (by decide)⟩

/-- C30: the route tables of `App.js` and `App.jsx` are the same list, so for
every path both select the same element: the Login and Register pages at
`/login` and `/register`, the three dashboards behind the allow-lists
`['STUDENT']`, `['TEACHER']`, `['ADMIN']`, and a redirect to `/login` at `/`
and at every other path. -/
theorem AppJs_and_App_same_routes (path : String) :
    AppJs.routes = App.routes ∧ AppJs.element path = App.element path ∧
      App.element path =
        (if path = "/login" then .page .Login
         else if path = "/register" then .page .Register
         else if path = "/student/dashboard" then
           .protectedRoute [.str "STUDENT"] .StudentDashboard
         else if path = "/teacher/dashboard" then
           .protectedRoute [.str "TEACHER"] .TeacherDashboard
         else if path = "/admin/dashboard" then
           .protectedRoute [.str "ADMIN"] .AdminDashboard
         else .navigateTo "/login") := by
  refine ⟨rfl, rfl, ?_⟩
  unfold App.element App.routes
  simp only [List.find?_cons, beq_iff_eq, List.find?_nil]
  by_cases h1 : path = "/login"
  · subst h1; rfl
  by_cases h2 : path = "/register"
  · subst h2; rfl
  by_cases h3 : path = "/student/dashboard"
  · subst h3; rfl
  by_cases h4 : path = "/teacher/dashboard"
  · subst h4; rfl
  by_cases h5 : path = "/admin/dashboard"
  · subst h5; rfl
  have e1 : ("/login" == path) = false := by simpa using Ne.symm h1
  have e2 : ("/register" == path) = false := by simpa using Ne.symm h2
  have e3 : ("/student/dashboard" == path) = false := by simpa using Ne.symm h3
  have e4 : ("/teacher/dashboard" == path) = false := by simpa using Ne.symm h4
  have e5 : ("/admin/dashboard" == path) = false := by simpa using Ne.symm h5
  simp only [e1, e2, e3, e4, e5, h1, h2, h3, h4, h5, if_false]
  by_cases h6 : ("/" == path) = true
  · simp [h6]
  · by_cases h7 : ("*" == path) = true
    · simp [h6, h7]
    · simp [h6, h7]

end QrAttendance
